import Mathlib

/-!
# CDUGKS time-step pipeline: shallow embedding of `Evolution.cc`

Buffers (`double*`) are total maps from offsets to values, so that a write is
`Function.update` and two distinct buffers never alias.  Arithmetic is exact:
every definition is generic in a linearly ordered field `F` and runs on `ℚ`.
Offsets are natural numbers (the C `int`s are assumed not to overflow).
The closure functions (`sqrt`, `Temperature`, `visc`, `geq`, `VanLeer`) are
declared in headers that are not part of the two source files and are passed
in as a record.
-/

namespace CDUGKS

/-- Counting loop: `for (int i = 0; i < n; i++) body`, threading the state that
the body mutates.  Iteration `n` is applied last. -/
def forLoop {σ : Type} : Nat → (Nat → σ → σ) → σ → σ
  | 0, _, s => s
  | n + 1, body, s => body n (forLoop n body s)

/-- Three nested counting loops, outermost index first. -/
def loop3 {σ : Type} (a b c : Nat) (body : Nat → Nat → Nat → σ → σ) (s : σ) : σ :=
  forLoop a (fun i s1 => forLoop b (fun j s2 => forLoop c (fun k s3 => body i j k s3) s2) s1) s

/-- Mesh cell: centre and extents, the fields of `Cell` that the stages read. -/
structure Cell (F : Type) where
  x : F
  y : F
  z : F
  dx : F
  dy : F
  dz : F

/-- The global extents `N[3]`, `NV[3]` and the global `effD`.  The file-scope
`Nx, Ny, Nz` of Evolution.cc are initialised from `N[0], N[1], N[2]`. -/
structure Dims where
  N0 : Nat
  N1 : Nat
  N2 : Nat
  NV0 : Nat
  NV1 : Nat
  NV2 : Nat
  effD : Nat

/-- Functions the stages call that are declared outside the two source files. -/
structure Closure (F : Type) where
  sqrt : F → F
  Temperature : F → F → F
  visc : F → F
  geq : F → F → F → F
  VanLeer : F → F → F → F → F → F → F

variable {F : Type} [LinearOrderedField F]

/-- Gas constant `double R = 0.5` of Main.hh. -/
def R (F : Type) [LinearOrderedField F] : F := 1 / 2

/-- Internal degrees of freedom `double K = 2.0` of Main.hh. -/
def K (F : Type) [LinearOrderedField F] : F := 2

/-- Spatial offset `sidx = i + Nx*j + Nx*Ny*k`. -/
def sidx (d : Dims) (i j k : Nat) : Nat := i + d.N0 * j + d.N0 * d.N1 * k

/-- Phase-space offset
`idx = i + Nx*j + Nx*Ny*k + Nx*Ny*Nz*vx + Nx*Ny*Nz*NV[0]*vy + Nx*Ny*Nz*NV[0]*NV[1]*vz`. -/
def idx (d : Dims) (i j k vx vy vz : Nat) : Nat :=
  i + d.N0 * j + d.N0 * d.N1 * k + d.N0 * d.N1 * d.N2 * vx
    + d.N0 * d.N1 * d.N2 * d.NV0 * vy + d.N0 * d.N1 * d.N2 * d.NV0 * d.NV1 * vz

/-- Local three-element array `{a, b, c}` read at position `dim`
(positions above 2 are never read when `effD ≤ 3`; they are mapped to `c`). -/
def vec3 (a b c : F) (dim : Nat) : F :=
  if dim = 0 then a else if dim = 1 then b else c

/-- Periodic lower neighbour `(i - 1 + n) % n`, computed on integers as in C. -/
def lowerNb (n i : Nat) : Nat := (((i : Int) - 1 + (n : Int)) % (n : Int)).toNat

/-- Periodic upper neighbour `(i + 1) % n`. -/
def upperNb (n i : Nat) : Nat := (i + 1) % n

/-- Bulk speed: `u = 0; for dim < effD: u += rhov[effD*sidx+dim]/rho[sidx]*rhov[effD*sidx+dim]/rho[sidx]; u = sqrt(u)`. -/
def speed (c : Closure F) (D : Nat) (rhov rho : Nat → F) (s : Nat) : F :=
  c.sqrt (forLoop D (fun dim u => u + rhov (D * s + dim) / rho s * rhov (D * s + dim) / rho s) 0)

/-- Peculiar velocity squared:
`c2 = 0; for dim < effD: c2 += (Xi[dim]-rhov[effD*sidx+dim]/rho[sidx])*(Xi[dim]-rhov[effD*sidx+dim]/rho[sidx])`. -/
def pec2 (D : Nat) (Xi : Nat → F) (rhov rho : Nat → F) (s : Nat) : F :=
  forLoop D (fun dim c2 => c2 + (Xi dim - rhov (D * s + dim) / rho s) * (Xi dim - rhov (D * s + dim) / rho s)) 0

/-- Energy equilibrium factor shared by the stages:
`g_eq*(Co_X[vx]*Co_X[vx] + Co_Y[vy]*Co_Y[vy] + Co_Z[vz]*Co_Z[vz] + (3-effD+K)*R*T)/2`. -/
def beqOf (D : Nat) (g_eq X Y Z T : F) : F :=
  g_eq * (X * X + Y * Y + Z * Z + ((3 : F) - (D : F) + K F) * R F * T) / 2

/-! ## Stage 2c: flux assembly -/

/-- Buffers written by `Step2c`. -/
structure Flux (F : Type) where
  Fg : Nat → F
  Fb : Nat → F

/-- One pass of the `dim` loop of `Step2c` at a fixed phase-space point (lines 454-469).
The three `if(dim == 0|1|2)` statements set the lower neighbour along axis `dim` and
keep the other two indices; for `dim > 2`, which `effD ≤ 3` excludes, the source leaves
`IL, JL, KL` unset and the model keeps `(i, j, k)`. -/
def Step2c_dim (d : Dims) (gbar bbar : Nat → F) (Xi A : Nat → F)
    (i j k vx vy vz : Nat) (dim : Nat) (st : Flux F) : Flux F :=
  let IL := if dim = 0 then lowerNb d.N0 i else i
  let JL := if dim = 1 then lowerNb d.N1 j else j
  let KL := if dim = 2 then lowerNb d.N2 k else k
  let id0 := idx d i j k vx vy vz
  let idxL := idx d IL JL KL vx vy vz
  { Fg := Function.update st.Fg id0
      (st.Fg id0 + Xi dim * A dim * (gbar (d.effD * id0 + dim) - gbar (d.effD * idxL + dim)))
    Fb := Function.update st.Fb id0
      (st.Fb id0 + Xi dim * A dim * (bbar (d.effD * id0 + dim) - bbar (d.effD * idxL + dim))) }

/-- Body of the six nested loops of `Step2c`. -/
def Step2c_body (d : Dims) (gbar bbar Co_X Co_Y Co_Z : Nat → F) (mesh : Nat → Cell F)
    (i j k vx vy vz : Nat) (st : Flux F) : Flux F :=
  let s := sidx d i j k
  let A := vec3 ((mesh s).dy * (mesh s).dz) ((mesh s).dx * (mesh s).dz) ((mesh s).dx * (mesh s).dy)
  let id0 := idx d i j k vx vy vz
  let Xi := vec3 (Co_X vx) (Co_Y vy) (Co_Z vz)
  forLoop d.effD (Step2c_dim d gbar bbar Xi A i j k vx vy vz)
    { Fg := Function.update st.Fg id0 0, Fb := Function.update st.Fb id0 0 }

/-- `Step2c(gbar, bbar, Co_X, Co_Y, Co_Z, mesh, Fg, Fb)`. -/
def Step2c (d : Dims) (gbar bbar Co_X Co_Y Co_Z : Nat → F) (mesh : Nat → Cell F)
    (Fg Fb : Nat → F) : Flux F :=
  loop3 d.N0 d.N1 d.N2 (fun i j k st =>
    loop3 d.NV0 d.NV1 d.NV2 (fun vx vy vz st2 =>
      Step2c_body d gbar bbar Co_X Co_Y Co_Z mesh i j k vx vy vz st2) st)
    { Fg := Fg, Fb := Fb }

/-! ## Stage 4/5: conservative and distribution update -/

/-- Buffers written by `Step4and5`. -/
structure Cons (F : Type) where
  rho : Nat → F
  rhov : Nat → F
  rhoE : Nat → F
  g : Nat → F
  b : Nat → F

/-- Temperature of cell `s` from the conservative buffers:
`Temperature(rhoE[sidx]/rho[sidx], u)` with `u` the bulk speed. -/
def cellTemp (c : Closure F) (D : Nat) (rho rhov rhoE : Nat → F) (s : Nat) : F :=
  c.Temperature (rhoE s / rho s) (speed c D rhov rho s)

/-- Relaxation time `visc(T)/rho/R/T`. -/
def relaxTime (c : Closure F) (rho T : F) : F := c.visc T / rho / R F / T

/-- Step 4 of one iteration of `Step4and5` (lines 531-536): the in-place update of
`rho[sidx]`, `rhov[effD*sidx+dim]` and `rhoE[sidx]`.  The last factor is `Co_Z[vz]`,
as written in the source. -/
def Step4 (d : Dims) (dt V : F) (Fg Fb Xi Co_WX Co_WY Co_Z : Nat → F)
    (s id0 vx vy vz : Nat) (st : Cons F) : Cons F :=
  { st with
    rho := Function.update st.rho s
      (st.rho s + -(dt / V * Fg id0 + dt * 0) * Co_WX vx * Co_WY vy * Co_Z vz)
    rhov := forLoop d.effD (fun dim rv => Function.update rv (d.effD * s + dim)
      (rv (d.effD * s + dim) + -dt / V * Fg id0 * Xi dim * Co_WX vx * Co_WY vy * Co_Z vz)) st.rhov
    rhoE := Function.update st.rhoE s
      (st.rhoE s + -dt / V * Fb id0 * Co_WX vx * Co_WY vy * Co_Z vz) }

/-- Local variables of one iteration of `Step4and5`, with the conservative
buffers as they stand after Step 4 of that iteration. -/
structure Locals45 (F : Type) where
  To : F
  tgo : F
  tbo : F
  g_eqo : F
  b_eqo : F
  st1 : Cons F
  T : F
  tg : F
  tb : F
  g_eq : F
  b_eq : F

/-- Lines 512-553 of `Step4and5`: the locals of the iteration at `(i,j,k,vx,vy,vz)`
entered with buffers `st`. -/
def Step4and5_locals (d : Dims) (c : Closure F) (dt : F) (mesh : Nat → Cell F)
    (Fg Fb Co_X Co_Y Co_Z Co_WX Co_WY : Nat → F) (i j k vx vy vz : Nat) (st : Cons F) :
    Locals45 F :=
  let s := sidx d i j k
  let V := (mesh s).dx * (mesh s).dy * (mesh s).dz
  let id0 := idx d i j k vx vy vz
  let Xi := vec3 (Co_X vx) (Co_Y vy) (Co_Z vz)
  let To := cellTemp c d.effD st.rho st.rhov st.rhoE s
  let tgo := relaxTime c (st.rho s) To
  let tbo := tgo / 1
  let g_eqo := c.geq (pec2 d.effD Xi st.rhov st.rho s) (st.rho s) To
  let b_eqo := beqOf d.effD g_eqo (Co_X vx) (Co_Y vy) (Co_Z vz) To
  let st1 := Step4 d dt V Fg Fb Xi Co_WX Co_WY Co_Z s id0 vx vy vz st
  let T := cellTemp c d.effD st1.rho st1.rhov st1.rhoE s
  let tg := relaxTime c (st1.rho s) T
  let tb := tg / 1
  let g_eq := c.geq (pec2 d.effD Xi st1.rhov st1.rho s) (st1.rho s) T
  let b_eq := beqOf d.effD g_eq (Co_X vx) (Co_Y vy) (Co_Z vz) To
  { To := To, tgo := tgo, tbo := tbo, g_eqo := g_eqo, b_eqo := b_eqo, st1 := st1,
    T := T, tg := tg, tb := tb, g_eq := g_eq, b_eq := b_eq }

/-- Body of the six nested loops of `Step4and5` (the diagnostic `printf` has no effect
on the buffers). -/
def Step4and5_body (d : Dims) (c : Closure F) (dt : F) (mesh : Nat → Cell F)
    (Fg Fb Co_X Co_Y Co_Z Co_WX Co_WY : Nat → F) (i j k vx vy vz : Nat) (st : Cons F) :
    Cons F :=
  let s := sidx d i j k
  let V := (mesh s).dx * (mesh s).dy * (mesh s).dz
  let id0 := idx d i j k vx vy vz
  let L := Step4and5_locals d c dt mesh Fg Fb Co_X Co_Y Co_Z Co_WX Co_WY i j k vx vy vz st
  { L.st1 with
    g := Function.update L.st1.g id0
      ((L.st1.g id0 + dt / 2 * (L.g_eq / L.tg + (L.g_eqo - L.st1.g id0) / L.tgo
          - dt / V * Fg id0 + dt * 0)) / (1 + dt / 2 / L.tg))
    b := Function.update L.st1.b id0
      ((L.st1.b id0 + dt / 2 * (L.b_eq / L.tb + (L.b_eqo - L.st1.b id0) / L.tbo
          - dt / V * Fb id0 + dt * 0)) / (1 + dt / 2 / L.tb)) }

/-- `Step4and5(rho, rhov, rhoE, dt, mesh, Fg, Fb, Co_X, Co_Y, Co_Z, Co_WX, Co_WY, Co_WZ, g, b)`.
The parameter `Co_WZ` is never read by the source. -/
def Step4and5 (d : Dims) (c : Closure F) (rho rhov rhoE : Nat → F) (dt : F)
    (mesh : Nat → Cell F) (Fg Fb Co_X Co_Y Co_Z Co_WX Co_WY _Co_WZ g b : Nat → F) : Cons F :=
  loop3 d.N0 d.N1 d.N2 (fun i j k st =>
    loop3 d.NV0 d.NV1 d.NV2 (fun vx vy vz st2 =>
      Step4and5_body d c dt mesh Fg Fb Co_X Co_Y Co_Z Co_WX Co_WY i j k vx vy vz st2) st)
    { rho := rho, rhov := rhov, rhoE := rhoE, g := g, b := b }

/-! ## Stage 1a: pre-collision barred distribution -/

/-- Buffers written by `Step1a`. -/
structure Out1a (F : Type) where
  Sg : Nat → F
  Sb : Nat → F
  gbarp : Nat → F
  bbarp : Nat → F

/-- Body of the six nested loops of `Step1a`. -/
def Step1a_body (d : Dims) (c : Closure F) (effD : Nat) (g b rho rhov rhoE : Nat → F) (dt : F)
    (Co_X Co_Y Co_Z : Nat → F) (i j k vx vy vz : Nat) (st : Out1a F) : Out1a F :=
  let s := sidx d i j k
  let id0 := idx d i j k vx vy vz
  let T := cellTemp c effD rho rhov rhoE s
  let tau := relaxTime c (rho s) T
  let Xi := vec3 (Co_X vx) (Co_Y vy) (Co_Z vz)
  let g_eq := c.geq (pec2 effD Xi rhov rho s) (rho s) T
  let b_eq := beqOf effD g_eq (Co_X vx) (Co_Y vy) (Co_Z vz) T
  let Sg1 := Function.update st.Sg s 0
  let Sb1 := Function.update st.Sb s 0
  { Sg := Sg1
    Sb := Sb1
    gbarp := Function.update st.gbarp id0
      ((2 * tau - dt / 2) / (2 * tau) * g id0 + dt / (4 * tau) * g_eq + dt / 4 * Sg1 s)
    bbarp := Function.update st.bbarp id0
      ((2 * tau - dt / 2) / (2 * tau) * b id0 + dt / (4 * tau) * b_eq + dt / 4 * Sb1 s) }

/-- `Step1a(g, b, gbar, bbar, gbarp, bbarp, Sg, Sb, rho, rhov, rhoE, effD, dt, Co_X, ...)`;
`gbar`, `bbar` and the weights are parameters the source never touches. -/
def Step1a (d : Dims) (c : Closure F) (g b gbarp bbarp Sg Sb rho rhov rhoE : Nat → F)
    (effD : Nat) (dt : F) (Co_X Co_Y Co_Z : Nat → F) : Out1a F :=
  loop3 d.N0 d.N1 d.N2 (fun i j k st =>
    loop3 d.NV0 d.NV1 d.NV2 (fun vx vy vz st2 =>
      Step1a_body d c effD g b rho rhov rhoE dt Co_X Co_Y Co_Z i j k vx vy vz st2) st)
    { Sg := Sg, Sb := Sb, gbarp := gbarp, bbarp := bbarp }

/-! ## Stage 1b: two-level limited reconstruction -/

/-- Buffers written by `Step1b`. -/
structure Out1b (F : Type) where
  gsigma : Nat → F
  bsigma : Nat → F
  gsigma2 : Nat → F
  bsigma2 : Nat → F
  gbarpbound : Nat → F
  bbarpbound : Nat → F

/-- One pass of the `Dim2` loop of `Step1b` (lines 186-237): the cross-slope entries
`gsigma2[effD*effD*idx + effD*Dim + Dim2]` and `bsigma2[...]`, read from the `gsigma`,
`bsigma` buffers as they stand at that moment. -/
def Step1b_dim2 (d : Dims) (c : Closure F) (effD : Nat) (mesh : Nat → Cell F)
    (i j k vx vy vz Dim Dim2 : Nat) (st : Out1b F) : Out1b F :=
  let IL2 := if Dim2 = 0 then lowerNb d.N0 i else i
  let IR2 := if Dim2 = 0 then upperNb d.N0 i else i
  let JL2 := if Dim2 = 1 then lowerNb d.N1 j else j
  let JR2 := if Dim2 = 1 then upperNb d.N1 j else j
  let KL2 := if Dim2 = 2 then lowerNb d.N2 k else k
  let KR2 := if Dim2 = 2 then upperNb d.N2 k else k
  let s := sidx d i j k
  let id0 := idx d i j k vx vy vz
  let idxL2 := idx d IL2 JL2 KL2 vx vy vz
  let idxR2 := idx d IR2 JR2 KR2 vx vy vz
  let sidxL2 := sidx d IL2 JL2 KL2
  let sidxR2 := sidx d IR2 JR2 KR2
  let xL2 := vec3 (mesh sidxL2).x (mesh sidxL2).y (mesh sidxL2).z
  let xR2 := vec3 (mesh sidxR2).x (mesh sidxR2).y (mesh sidxR2).z
  let xC := vec3 (mesh s).x (mesh s).y (mesh s).z
  let sC2 := vec3 (mesh s).dx (mesh s).dy (mesh s).dz
  { st with
    gsigma2 := Function.update st.gsigma2 (effD * effD * id0 + effD * Dim + Dim2)
      (st.gsigma (effD * id0 + Dim) + (sC2 Dim2 / 2) *
        c.VanLeer (st.gsigma (effD * idxL2 + Dim)) (st.gsigma (effD * id0 + Dim))
          (st.gsigma (effD * idxR2 + Dim)) (xL2 Dim2) (xC Dim2) (xR2 Dim2))
    bsigma2 := Function.update st.bsigma2 (effD * effD * id0 + effD * Dim + Dim2)
      (st.bsigma (effD * id0 + Dim) + (sC2 Dim2 / 2) *
        c.VanLeer (st.bsigma (effD * idxL2 + Dim)) (st.bsigma (effD * id0 + Dim))
          (st.bsigma (effD * idxR2 + Dim)) (xL2 Dim2) (xC Dim2) (xR2 Dim2)) }

/-- One pass of the `Dim` loop of `Step1b` (lines 140-248).  As in `Step2c_dim`, the
neighbour indices follow the three `if(Dim == 0|1|2)` statements of the source. -/
def Step1b_dim (d : Dims) (c : Closure F) (effD : Nat) (gbarp bbarp : Nat → F)
    (mesh : Nat → Cell F) (i j k vx vy vz Dim : Nat) (st : Out1b F) : Out1b F :=
  let IL := if Dim = 0 then lowerNb d.N0 i else i
  let IR := if Dim = 0 then upperNb d.N0 i else i
  let JL := if Dim = 1 then lowerNb d.N1 j else j
  let JR := if Dim = 1 then upperNb d.N1 j else j
  let KL := if Dim = 2 then lowerNb d.N2 k else k
  let KR := if Dim = 2 then upperNb d.N2 k else k
  let s := sidx d i j k
  let id0 := idx d i j k vx vy vz
  let idxL := idx d IL JL KL vx vy vz
  let idxR := idx d IR JR KR vx vy vz
  let sidxL := sidx d IL JL KL
  let sidxR := sidx d IR JR KR
  let xC := vec3 (mesh s).x (mesh s).y (mesh s).z
  let sC := vec3 (mesh s).dx (mesh s).dy (mesh s).dz
  let xL := vec3 (mesh sidxL).x (mesh sidxL).y (mesh sidxL).z
  let xR := vec3 (mesh sidxR).x (mesh sidxR).y (mesh sidxR).z
  let st1 : Out1b F :=
    { st with
      gsigma := Function.update st.gsigma (effD * id0 + Dim)
        (c.VanLeer (gbarp idxL) (gbarp id0) (gbarp idxR) (xL Dim) (xC Dim) (xR Dim))
      bsigma := Function.update st.bsigma (effD * id0 + Dim)
        (c.VanLeer (bbarp idxL) (bbarp id0) (bbarp idxR) (xL Dim) (xC Dim) (xR Dim)) }
  let st2 := forLoop effD (Step1b_dim2 d c effD mesh i j k vx vy vz Dim) st1
  { st2 with
    gbarpbound := Function.update st2.gbarpbound (effD * id0 + Dim)
      (gbarp id0 + sC Dim / 2 * st2.gsigma (effD * id0 + Dim))
    bbarpbound := Function.update st2.bbarpbound (effD * id0 + Dim)
      (bbarp id0 + sC Dim / 2 * st2.bsigma (effD * id0 + Dim)) }

/-- `Step1b(gbarp, bbarp, effD, gsigma, bsigma, gsigma2, bsigma2, mesh, gbarpbound, bbarpbound)`. -/
def Step1b (d : Dims) (c : Closure F) (gbarp bbarp : Nat → F) (effD : Nat)
    (gsigma bsigma gsigma2 bsigma2 : Nat → F) (mesh : Nat → Cell F)
    (gbarpbound bbarpbound : Nat → F) : Out1b F :=
  loop3 d.N0 d.N1 d.N2 (fun i j k st =>
    loop3 d.NV0 d.NV1 d.NV2 (fun vx vy vz st2 =>
      forLoop effD (Step1b_dim d c effD gbarp bbarp mesh i j k vx vy vz) st2) st)
    { gsigma := gsigma, bsigma := bsigma, gsigma2 := gsigma2, bsigma2 := bsigma2,
      gbarpbound := gbarpbound, bbarpbound := bbarpbound }

/-! ## Stage 1c: half-step advection to the interface -/

/-- The pair of interface distributions `gbar`, `bbar`. -/
structure Bars (F : Type) where
  gbar : Nat → F
  bbar : Nat → F

/-- One pass of the `Dim` loop of `Step1c` (lines 275-287): three products, at the
offsets `effD*effD*idx + effD*0 + Dim`, `... + effD*1 + Dim`, `... + effD*2 + Dim`. -/
def Step1c_dim (effD : Nat) (gbarpbound bbarpbound gsigma2 bsigma2 : Nat → F) (dt : F)
    (X Y Z : F) (id0 Dim : Nat) (st : Bars F) : Bars F :=
  { gbar := Function.update st.gbar (effD * id0 + Dim)
      (gbarpbound (effD * id0 + Dim) - dt / 2 *
        (X * gsigma2 (effD * effD * id0 + effD * 0 + Dim)
          + Y * gsigma2 (effD * effD * id0 + effD * 1 + Dim)
          + Z * gsigma2 (effD * effD * id0 + effD * 2 + Dim)))
    bbar := Function.update st.bbar (effD * id0 + Dim)
      (bbarpbound (effD * id0 + Dim) - dt / 2 *
        (X * bsigma2 (effD * effD * id0 + effD * 0 + Dim)
          + Y * bsigma2 (effD * effD * id0 + effD * 1 + Dim)
          + Z * bsigma2 (effD * effD * id0 + effD * 2 + Dim))) }

/-- `Step1c(gbar, bbar, gbarpbound, bbarpbound, effD, Co_X, ..., gsigma2, bsigma2, dt)`. -/
def Step1c (d : Dims) (gbar bbar gbarpbound bbarpbound : Nat → F) (effD : Nat)
    (Co_X Co_Y Co_Z gsigma2 bsigma2 : Nat → F) (dt : F) : Bars F :=
  loop3 d.N0 d.N1 d.N2 (fun i j k st =>
    loop3 d.NV0 d.NV1 d.NV2 (fun vx vy vz st2 =>
      forLoop effD (Step1c_dim effD gbarpbound bbarpbound gsigma2 bsigma2 dt
        (Co_X vx) (Co_Y vy) (Co_Z vz) (idx d i j k vx vy vz)) st2) st)
    { gbar := gbar, bbar := bbar }

/-! ## Stage 2a: interface moments -/

/-- Buffers written by `Step2a`. -/
structure Out2a (F : Type) where
  rhoh : Nat → F
  rhovh : Nat → F
  rhoEh : Nat → F

/-- First loop nest of `Step2a` (lines 303-333): `rhoh[effD*sidx + d]` is zeroed and
then accumulates `Co_WX[vx]*Co_WY[vy]*Co_WZ[vz]*gbar[effD*idx + d]`. -/
def Step2a_rhoh (d : Dims) (gbar Co_WX Co_WY Co_WZ rhoh : Nat → F) : Nat → F :=
  loop3 d.N0 d.N1 d.N2 (fun i j k r0 =>
    forLoop d.effD (fun dd r1 =>
      let s := sidx d i j k
      loop3 d.NV0 d.NV1 d.NV2 (fun vx vy vz r2 =>
        let id0 := idx d i j k vx vy vz
        Function.update r2 (d.effD * s + dd)
          (r2 (d.effD * s + dd) + Co_WX vx * Co_WY vy * Co_WZ vz * gbar (d.effD * id0 + dd)))
        (Function.update r1 (d.effD * s + dd) 0)) r0) rhoh

/-- Initialisation loops of the second nest of `Step2a` (lines 344-349).  The inner
header is `for(int Dim2 = 0; Dim < effD; Dim++)`: it tests and advances `Dim`, so the
body runs with `Dim2 = 0` for `Dim = 0, ..., effD-1`, after which the outer loop,
whose counter is the same `Dim`, stops. -/
def Step2a_init (d : Dims) (dt : F) (s : Nat) (st : Out2a F) : Out2a F :=
  forLoop d.effD (fun Dim st1 =>
    let rhovh1 := Function.update st1.rhovh (d.effD * d.effD * s + d.effD * Dim + 0)
      (dt / 2 * st1.rhoh (d.effD * s + 0) * 0)
    { st1 with
      rhovh := rhovh1
      rhoEh := Function.update st1.rhoEh (d.effD * s + 0) (dt / 2 * st1.rhoh (d.effD * s + Dim) * 0) }) st

/-- Accumulation at one velocity node in the second nest of `Step2a` (lines 355-369). -/
def Step2a_acc (d : Dims) (gbar bbar Co_X Co_Y Co_Z Co_WX Co_WY Co_WZ : Nat → F)
    (i j k vx vy vz : Nat) (st : Out2a F) : Out2a F :=
  let s := sidx d i j k
  let id0 := idx d i j k vx vy vz
  let U := vec3 (Co_X vx) (Co_Y vy) (Co_Z vz)
  forLoop d.effD (fun Dim st1 =>
    let st2 : Out2a F := forLoop d.effD (fun Dim2 st3 =>
      { st3 with
        rhovh := Function.update st3.rhovh (d.effD * d.effD * s + d.effD * Dim + Dim2)
          (st3.rhovh (d.effD * d.effD * s + d.effD * Dim + Dim2)
            + Co_WX vx * Co_WY vy * Co_WZ vz * U Dim2 * gbar (d.effD * id0 + Dim)) }) st1
    { st2 with
      rhoEh := Function.update st2.rhoEh (d.effD * s + Dim)
        (st2.rhoEh (d.effD * s + Dim) + Co_WX vx * Co_WY vy * Co_WZ vz * bbar (d.effD * id0 + Dim)) }) st

/-- `Step2a(gbar, bbar, Co_X, Co_Y, Co_Z, Co_WX, Co_WY, Co_WZ, dt, rhoh, rhovh, rhoEh)`;
the dimension is the global `effD`. -/
def Step2a (d : Dims) (gbar bbar Co_X Co_Y Co_Z Co_WX Co_WY Co_WZ : Nat → F) (dt : F)
    (rhoh rhovh rhoEh : Nat → F) : Out2a F :=
  loop3 d.N0 d.N1 d.N2 (fun i j k st =>
    loop3 d.NV0 d.NV1 d.NV2 (fun vx vy vz st2 =>
      Step2a_acc d gbar bbar Co_X Co_Y Co_Z Co_WX Co_WY Co_WZ i j k vx vy vz st2)
      (Step2a_init d dt (sidx d i j k) st))
    { rhoh := Step2a_rhoh d gbar Co_WX Co_WY Co_WZ rhoh, rhovh := rhovh, rhoEh := rhoEh }

/-! ## Stage 2b: interface equilibrium and trapezoidal projection -/

/-- Face speed of `Step2b` (line 401), reading `rhovh[effD*effD*sidx + dim*effD + dim2]`. -/
def faceSpeed (c : Closure F) (D : Nat) (rhoh rhovh : Nat → F) (s dim2 : Nat) : F :=
  c.sqrt (forLoop D (fun dim u => u
    + rhovh (D * D * s + dim * D + dim2) / rhoh (D * s + dim2)
      * rhovh (D * D * s + dim * D + dim2) / rhoh (D * s + dim2)) 0)

/-- Face peculiar velocity squared of `Step2b` (line 416). -/
def facePec2 (D : Nat) (Xi rhoh rhovh : Nat → F) (s dim2 : Nat) : F :=
  forLoop D (fun dim c2 => c2
    + (Xi dim - rhovh (D * D * s + D * dim + dim2) / rhoh (D * s + dim2))
      * (Xi dim - rhovh (D * D * s + D * dim + dim2) / rhoh (D * s + dim2))) 0

/-- Update of one entry in `Step2b` (lines 409-423). -/
def Step2b_body (d : Dims) (c : Closure F) (dt : F) (rhoh rhovh : Nat → F)
    (Co_X Co_Y Co_Z : Nat → F) (T tau : F) (i j k dim2 vx vy vz : Nat) (st : Bars F) : Bars F :=
  let s := sidx d i j k
  let id0 := idx d i j k vx vy vz
  let Xi := vec3 (Co_X vx) (Co_Y vy) (Co_Z vz)
  let g_eq := c.geq (facePec2 d.effD Xi rhoh rhovh s dim2) (rhoh (d.effD * s + dim2)) T
  let b_eq := beqOf d.effD g_eq (Co_X vx) (Co_Y vy) (Co_Z vz) T
  { gbar := Function.update st.gbar (d.effD * id0 + dim2)
      (2 * tau / (2 * tau + dt / 2) * st.gbar (d.effD * id0 + dim2)
        + dt / (4 * tau + dt) * g_eq + dt * tau / (4 * tau + dt) * 0)
    bbar := Function.update st.bbar (d.effD * id0 + dim2)
      (2 * tau / (2 * tau + dt / 2) * st.bbar (d.effD * id0 + dim2)
        + dt / (4 * tau + dt) * b_eq + dt * tau / (4 * tau + dt) * 0) }

/-- `Step2b(gbar, bbar, dt, rhoh, rhovh, rhoEh, Co_X, Co_Y, Co_Z)`; the dimension is the
global `effD`. -/
def Step2b (d : Dims) (c : Closure F) (gbar bbar : Nat → F) (dt : F)
    (rhoh rhovh rhoEh Co_X Co_Y Co_Z : Nat → F) : Bars F :=
  loop3 d.N0 d.N1 d.N2 (fun i j k st =>
    let s := sidx d i j k
    forLoop d.effD (fun dim2 st1 =>
      let u := faceSpeed c d.effD rhoh rhovh s dim2
      let T := c.Temperature (rhoEh (d.effD * s + dim2) / rhoh (d.effD * s + dim2)) u
      let tau := c.visc T / rhoh (d.effD * s + dim2) / R F / T
      loop3 d.NV0 d.NV1 d.NV2 (fun vx vy vz st2 =>
        Step2b_body d c dt rhoh rhovh Co_X Co_Y Co_Z T tau i j k dim2 vx vy vz st2) st1) st)
    { gbar := gbar, bbar := bbar }

/-! ## The driver entry `Evolve` -/

/-- All buffers handed to `Evolve`. -/
structure Bufs (F : Type) where
  g : Nat → F
  b : Nat → F
  gbar : Nat → F
  bbar : Nat → F
  gbarp : Nat → F
  bbarp : Nat → F
  Sg : Nat → F
  Sb : Nat → F
  rho : Nat → F
  rhov : Nat → F
  rhoE : Nat → F
  gsigma : Nat → F
  bsigma : Nat → F
  gsigma2 : Nat → F
  bsigma2 : Nat → F
  gbarpbound : Nat → F
  bbarpbound : Nat → F
  rhoh : Nat → F
  rhovh : Nat → F
  rhoEh : Nat → F

/-- The quadrature arrays handed to `Evolve`. -/
structure Quad (F : Type) where
  Co_X : Nat → F
  Co_WX : Nat → F
  Co_Y : Nat → F
  Co_WY : Nat → F
  Co_Z : Nat → F
  Co_WZ : Nat → F

/-- `TimeStep()` returns `1/2048.`. -/
def TimeStep (F : Type) [LinearOrderedField F] : F := 1 / 2048

/-- Lines 39-40 of `Evolve`: `dt = fmin(TimeStep(), dtdump); dt = fmin(dt, Tf-Tsim);`.
The incoming `dt` is overwritten before it is read. -/
def Evolve_dt (Tf Tsim dtdump : F) : F := min (min (TimeStep F) dtdump) (Tf - Tsim)

/-- Lines 43-45 of `Evolve`: the calls of `Step1a`, `Step1b`, `Step1c` with step `dt`. -/
def Evolve_stage1 (d : Dims) (c : Closure F) (effD : Nat) (dt : F) (q : Quad F)
    (mesh : Nat → Cell F) (B : Bufs F) : Bufs F :=
  let a := Step1a d c B.g B.b B.gbarp B.bbarp B.Sg B.Sb B.rho B.rhov B.rhoE effD dt
    q.Co_X q.Co_Y q.Co_Z
  let B1 : Bufs F := { B with Sg := a.Sg, Sb := a.Sb, gbarp := a.gbarp, bbarp := a.bbarp }
  let o := Step1b d c B1.gbarp B1.bbarp effD B1.gsigma B1.bsigma B1.gsigma2 B1.bsigma2 mesh
    B1.gbarpbound B1.bbarpbound
  let B2 : Bufs F := { B1 with gsigma := o.gsigma, bsigma := o.bsigma, gsigma2 := o.gsigma2,
                               bsigma2 := o.bsigma2, gbarpbound := o.gbarpbound,
                               bbarpbound := o.bbarpbound }
  let r := Step1c d B2.gbar B2.bbar B2.gbarpbound B2.bbarpbound effD q.Co_X q.Co_Y q.Co_Z
    B2.gsigma2 B2.bsigma2 dt
  { B2 with gbar := r.gbar, bbar := r.bbar }

/-- Lines 47-53 of `Evolve`: `Step2a`, `Step2b`, `Step2c` (which writes the fluxes into
the storage of `gbarp`, `bbarp`), the empty `Step3`, and `Step4and5`. -/
def Evolve_stage2 (d : Dims) (c : Closure F) (dt : F) (q : Quad F)
    (mesh : Nat → Cell F) (B : Bufs F) : Bufs F :=
  let m := Step2a d B.gbar B.bbar q.Co_X q.Co_Y q.Co_Z q.Co_WX q.Co_WY q.Co_WZ dt
    B.rhoh B.rhovh B.rhoEh
  let B1 : Bufs F := { B with rhoh := m.rhoh, rhovh := m.rhovh, rhoEh := m.rhoEh }
  let r := Step2b d c B1.gbar B1.bbar dt B1.rhoh B1.rhovh B1.rhoEh q.Co_X q.Co_Y q.Co_Z
  let B2 : Bufs F := { B1 with gbar := r.gbar, bbar := r.bbar }
  let f := Step2c d B2.gbar B2.bbar q.Co_X q.Co_Y q.Co_Z mesh B2.gbarp B2.bbarp
  let B3 : Bufs F := { B2 with gbarp := f.Fg, bbarp := f.Fb }
  let w := Step4and5 d c B3.rho B3.rhov B3.rhoE dt mesh B3.gbarp B3.bbarp
    q.Co_X q.Co_Y q.Co_Z q.Co_WX q.Co_WY q.Co_WZ B3.g B3.b
  { B3 with rho := w.rho, rhov := w.rhov, rhoE := w.rhoE, g := w.g, b := w.b }

/-- `Evolve(g, b, ..., effD, dt, Tf, Tsim, dtdump, Co_X, ..., rhoEh)`: the parameter
`effD` reaches stages 1a-1c, the later stages read the global `effD` of `d`. -/
def Evolve (d : Dims) (c : Closure F) (effD : Nat) (_dt Tf Tsim dtdump : F) (q : Quad F)
    (mesh : Nat → Cell F) (B : Bufs F) : Bufs F :=
  let dt := Evolve_dt Tf Tsim dtdump
  Evolve_stage2 d c dt q mesh (Evolve_stage1 d c effD dt q mesh B)

/-! ## Sums over the cell grid -/

/-- Sum over a three-index box. -/
def sum3 (a b c : Nat) (f : Nat → Nat → Nat → F) : F :=
  ∑ i in Finset.range a, ∑ j in Finset.range b, ∑ k in Finset.range c, f i j k

/-- Total mass `Σ_s rho[s]*V(s)` over the cells `s = sidx(i,j,k)` of the mesh, with
`V = dx*dy*dz`. -/
def totalMass (d : Dims) (mesh : Nat → Cell F) (rho : Nat → F) : F :=
  sum3 d.N0 d.N1 d.N2 (fun i j k =>
    rho (sidx d i j k) * ((mesh (sidx d i j k)).dx * (mesh (sidx d i j k)).dy * (mesh (sidx d i j k)).dz))

/-! ## Auxiliary definitions used in the statements -/

/-- All cells of the grid share the extents `dx`, `dy`, `dz`. -/
def UniformMesh (d : Dims) (mesh : Nat → Cell F) (dx dy dz : F) : Prop :=
  ∀ i j k, i < d.N0 → j < d.N1 → k < d.N2 →
    (mesh (sidx d i j k)).dx = dx ∧ (mesh (sidx d i j k)).dy = dy ∧ (mesh (sidx d i j k)).dz = dz

/-- Contribution of axis `dim` to the flux at `(i,j,k,vx,vy,vz)`, as accumulated by the
`dim` loop of `Step2c`. -/
def fluxTerm (d : Dims) (gbar Co_X Co_Y Co_Z : Nat → F) (mesh : Nat → Cell F)
    (i j k vx vy vz dim : Nat) : F :=
  vec3 (Co_X vx) (Co_Y vy) (Co_Z vz) dim
    * vec3 ((mesh (sidx d i j k)).dy * (mesh (sidx d i j k)).dz)
        ((mesh (sidx d i j k)).dx * (mesh (sidx d i j k)).dz)
        ((mesh (sidx d i j k)).dx * (mesh (sidx d i j k)).dy) dim
    * (gbar (d.effD * idx d i j k vx vy vz + dim)
        - gbar (d.effD * idx d (if dim = 0 then lowerNb d.N0 i else i)
            (if dim = 1 then lowerNb d.N1 j else j)
            (if dim = 2 then lowerNb d.N2 k else k) vx vy vz + dim))

/-- Increment of `rho[sidx]` in one iteration of `Step4and5` (line 531). -/
def rhoTerm (d : Dims) (dt : F) (mesh : Nat → Cell F) (Fg Co_WX Co_WY Co_Z : Nat → F)
    (i j k vx vy vz : Nat) : F :=
  -(dt / ((mesh (sidx d i j k)).dx * (mesh (sidx d i j k)).dy * (mesh (sidx d i j k)).dz)
      * Fg (idx d i j k vx vy vz) + dt * 0) * Co_WX vx * Co_WY vy * Co_Z vz

/-! ## Limiter of the specification and sample data on `ℚ` -/

/-- Modelled from the spec: the limiter `VanLeer`, which is declared outside the two
source files (spec §4.2): one-sided slopes `a = (φ_C−φ_L)/(x_C−x_L)`,
`b = (φ_R−φ_C)/(x_R−x_C)`; if `a·b ≤ 0` return 0, otherwise `2ab/(a+b)`. -/
def VanLeerSpec (phiL phiC phiR xL xC xR : F) : F :=
  let a := (phiC - phiL) / (xC - xL)
  let b := (phiR - phiC) / (xR - xC)
  if a * b ≤ 0 then 0 else 2 * a * b / (a + b)

/-- A sample closure on `ℚ` that meets the contracts of the specification (positive
temperature for `e > u²/2`, positive viscosity, non-negative equilibrium) with rational
operations only: ideal-gas temperature `(e - u²/2)/Cv` with `Cv = (3+K)R/2 = 5/4`,
viscosity `μ(T) = T`, a rational bell-shaped equilibrium, the limiter of the spec.
`Rat.sqrt` is the exact square root on squares of rationals, which is all it is applied
to in the one-dimensional samples below. -/
def closureQ : Closure ℚ where
  sqrt := Rat.sqrt
  Temperature := fun e u => (e - u * u / 2) / (5 / 4)
  visc := fun T => T
  geq := fun c2 rho T => rho * T / (T + c2)
  VanLeer := VanLeerSpec

/-- Buffer holding the listed values at offsets `0, 1, ...` and `0` beyond. -/
def bufOf (l : List ℚ) : Nat → ℚ := fun n => l.getD n 0

/-- Unit cubes centred at `x = s`. -/
def unitMesh : Nat → Cell ℚ := fun s => { x := s, y := 0, z := 0, dx := 1, dy := 1, dz := 1 }

/-- One-dimensional grid of two cells and two velocity nodes. -/
def dims22 : Dims := { N0 := 2, N1 := 1, N2 := 1, NV0 := 2, NV1 := 1, NV2 := 1, effD := 1 }

/-- One-dimensional grid of two cells and one velocity node. -/
def dims21 : Dims := { N0 := 2, N1 := 1, N2 := 1, NV0 := 1, NV1 := 1, NV2 := 1, effD := 1 }

/-- One cell, one velocity node, `effD = 1`. -/
def dims11 : Dims := { N0 := 1, N1 := 1, N2 := 1, NV0 := 1, NV1 := 1, NV2 := 1, effD := 1 }

/-- One cell, two velocity nodes, `effD = 1`. -/
def dims12 : Dims := { N0 := 1, N1 := 1, N2 := 1, NV0 := 2, NV1 := 1, NV2 := 1, effD := 1 }

/-- One cell, one velocity node, `effD = 2`. -/
def dims11D2 : Dims := { N0 := 1, N1 := 1, N2 := 1, NV0 := 1, NV1 := 1, NV2 := 1, effD := 2 }

/-! ## Reference formulas, written from the words of the specification -/

/-- Tensor-product quadrature weight `W(v) = Co_WX[vx]*Co_WY[vy]*Co_WZ[vz]`. -/
def W (Co_WX Co_WY Co_WZ : Nat → F) (vx vy vz : Nat) : F := Co_WX vx * Co_WY vy * Co_WZ vz

/-- Cell volume `V = dx*dy*dz`. -/
def cellVol (mesh : Nat → Cell F) (s : Nat) : F := (mesh s).dx * (mesh s).dy * (mesh s).dz

/-- Reference density of §4.8: old `rho[s]` minus `(dt/V) * Σ_v W(v)*Fg(s,v)`. -/
def refRho (d : Dims) (dt : F) (mesh : Nat → Cell F) (Fg Co_WX Co_WY Co_WZ rho : Nat → F)
    (i j k : Nat) : F :=
  rho (sidx d i j k) - dt / cellVol mesh (sidx d i j k) *
    sum3 d.NV0 d.NV1 d.NV2 (fun vx vy vz =>
      W Co_WX Co_WY Co_WZ vx vy vz * Fg (idx d i j k vx vy vz))

/-- Reference momentum of §4.8: old `rhov[s,dim]` minus `(dt/V) * Σ_v W(v)*ξ_dim(v)*Fg(s,v)`. -/
def refRhov (d : Dims) (dt : F) (mesh : Nat → Cell F)
    (Fg Co_X Co_Y Co_Z Co_WX Co_WY Co_WZ rhov : Nat → F) (i j k dim : Nat) : F :=
  rhov (d.effD * sidx d i j k + dim) - dt / cellVol mesh (sidx d i j k) *
    sum3 d.NV0 d.NV1 d.NV2 (fun vx vy vz =>
      W Co_WX Co_WY Co_WZ vx vy vz * vec3 (Co_X vx) (Co_Y vy) (Co_Z vz) dim
        * Fg (idx d i j k vx vy vz))

/-- Reference energy of §4.8: old `rhoE[s]` minus `(dt/V) * Σ_v W(v)*Fb(s,v)`. -/
def refRhoE (d : Dims) (dt : F) (mesh : Nat → Cell F) (Fb Co_WX Co_WY Co_WZ rhoE : Nat → F)
    (i j k : Nat) : F :=
  rhoE (sidx d i j k) - dt / cellVol mesh (sidx d i j k) *
    sum3 d.NV0 d.NV1 d.NV2 (fun vx vy vz =>
      W Co_WX Co_WY Co_WZ vx vy vz * Fb (idx d i j k vx vy vz))

/-- Pre-summed reference of the distribution update of §4.8: the trapezoidal update of
`g(s,v)` with the old equilibrium and relaxation time taken from the conservative state
`pre` and the new ones from the conservative state `post`. -/
def refG (d : Dims) (c : Closure F) (dt : F) (mesh : Nat → Cell F)
    (Fg Co_X Co_Y Co_Z : Nat → F) (pre post : Cons F) (i j k vx vy vz : Nat) : F :=
  let s := sidx d i j k
  let id0 := idx d i j k vx vy vz
  let Xi := vec3 (Co_X vx) (Co_Y vy) (Co_Z vz)
  let To := cellTemp c d.effD pre.rho pre.rhov pre.rhoE s
  let tgo := relaxTime c (pre.rho s) To
  let g_eqo := c.geq (pec2 d.effD Xi pre.rhov pre.rho s) (pre.rho s) To
  let T := cellTemp c d.effD post.rho post.rhov post.rhoE s
  let tg := relaxTime c (post.rho s) T
  let g_eq := c.geq (pec2 d.effD Xi post.rhov post.rho s) (post.rho s) T
  (pre.g id0 + dt / 2 * (g_eq / tg + (g_eqo - pre.g id0) / tgo - dt / cellVol mesh s * Fg id0))
    / (1 + dt / (2 * tg))

/-- Limited slope of §4.4: `vanleer(gbarp(s_L,v), gbarp(s,v), gbarp(s_R,v), x_L, x_C, x_R)`
along axis `Dim`, with the periodic `Dim`-neighbours of the cell. -/
def refSigma (d : Dims) (c : Closure F) (gbarp : Nat → F) (mesh : Nat → Cell F)
    (i j k vx vy vz Dim : Nat) : F :=
  let iL := if Dim = 0 then lowerNb d.N0 i else i
  let iR := if Dim = 0 then upperNb d.N0 i else i
  let jL := if Dim = 1 then lowerNb d.N1 j else j
  let jR := if Dim = 1 then upperNb d.N1 j else j
  let kL := if Dim = 2 then lowerNb d.N2 k else k
  let kR := if Dim = 2 then upperNb d.N2 k else k
  let pos := fun s : Nat => vec3 (mesh s).x (mesh s).y (mesh s).z Dim
  c.VanLeer (gbarp (idx d iL jL kL vx vy vz)) (gbarp (idx d i j k vx vy vz))
    (gbarp (idx d iR jR kR vx vy vz))
    (pos (sidx d iL jL kL)) (pos (sidx d i j k)) (pos (sidx d iR jR kR))

/-- Cross-slope of §4.4:
`gsigma(s,v,Dim) + (dx_Dim2/2)·vanleer(gsigma(s_L2,v,Dim), gsigma(s,v,Dim), gsigma(s_R2,v,Dim), x_L2, x_C, x_R2)`
where every `gsigma` is the limited slope `refSigma` of the current `gbarp`. -/
def refSigma2 (d : Dims) (c : Closure F) (gbarp : Nat → F) (mesh : Nat → Cell F)
    (i j k vx vy vz Dim Dim2 : Nat) : F :=
  let iL := if Dim2 = 0 then lowerNb d.N0 i else i
  let iR := if Dim2 = 0 then upperNb d.N0 i else i
  let jL := if Dim2 = 1 then lowerNb d.N1 j else j
  let jR := if Dim2 = 1 then upperNb d.N1 j else j
  let kL := if Dim2 = 2 then lowerNb d.N2 k else k
  let kR := if Dim2 = 2 then upperNb d.N2 k else k
  let pos := fun s : Nat => vec3 (mesh s).x (mesh s).y (mesh s).z Dim2
  let s := sidx d i j k
  refSigma d c gbarp mesh i j k vx vy vz Dim
    + vec3 (mesh s).dx (mesh s).dy (mesh s).dz Dim2 / 2 *
      c.VanLeer (refSigma d c gbarp mesh iL jL kL vx vy vz Dim)
        (refSigma d c gbarp mesh i j k vx vy vz Dim)
        (refSigma d c gbarp mesh iR jR kR vx vy vz Dim)
        (pos (sidx d iL jL kL)) (pos s) (pos (sidx d iR jR kR))

/-- Half-step advection of §4.5:
`gbarpbound(s,v,Dim) − (Δt/2)·Σ_{d<D} ξ_d(v)·gsigma2(s,v,d,Dim)`, with exactly `D` terms. -/
def refGbar (D : Nat) (gbarpbound gsigma2 : Nat → F) (dt X Y Z : F) (id0 Dim : Nat) : F :=
  gbarpbound (D * id0 + Dim)
    - dt / 2 * ∑ dd in Finset.range D, vec3 X Y Z dd * gsigma2 (D * D * id0 + D * dd + Dim)

/-- Interface momentum of §4.6: `Σ_v W(v)·ξ_dim(v)·gbar(s,v,Dim)`. -/
def refRhovh (d : Dims) (gbar Co_X Co_Y Co_Z Co_WX Co_WY Co_WZ : Nat → F)
    (i j k dim Dim : Nat) : F :=
  sum3 d.NV0 d.NV1 d.NV2 (fun vx vy vz =>
    W Co_WX Co_WY Co_WZ vx vy vz * vec3 (Co_X vx) (Co_Y vy) (Co_Z vz) dim
      * gbar (d.effD * idx d i j k vx vy vz + Dim))

/-- Interface energy of §4.6: `Σ_v W(v)·bbar(s,v,Dim)`. -/
def refRhoEh (d : Dims) (bbar Co_WX Co_WY Co_WZ : Nat → F) (i j k Dim : Nat) : F :=
  sum3 d.NV0 d.NV1 d.NV2 (fun vx vy vz =>
    W Co_WX Co_WY Co_WZ vx vy vz * bbar (d.effD * idx d i j k vx vy vz + Dim))

/-! ## Sample inputs -/

/-- Buffer of zeros. -/
def zeroBuf : Nat → ℚ := fun _ => 0

/-- One cell, velocity nodes `1 × 2 × 1`, `effD = 1`. -/
def dims1y2 : Dims := { N0 := 1, N1 := 1, N2 := 1, NV0 := 1, NV1 := 2, NV2 := 1, effD := 1 }

/-- Quadrature of a one-dimensional velocity space with the single node `ξ = 1`; the
inactive axes carry the node 0 with weight 1. -/
def quad1 : Quad ℚ where
  Co_X := bufOf [1]
  Co_WX := bufOf [1]
  Co_Y := bufOf [0]
  Co_WY := bufOf [1]
  Co_Z := bufOf [0]
  Co_WZ := bufOf [1]

/-- Two cells in the same equilibrium state `rho = 1`, `rhov = 0`, `rhoE = 5/4`
(temperature 1), with `g = geq = 1/2` and `b = g*(|ξ|² + (3-D+K)*R*T)/2 = 3/4`; all
scratch buffers are zero except `gsigma`, which holds the given values. -/
def uniformState (gsigma : List ℚ) : Bufs ℚ where
  g := bufOf [1 / 2, 1 / 2]
  b := bufOf [3 / 4, 3 / 4]
  gbar := zeroBuf
  bbar := zeroBuf
  gbarp := zeroBuf
  bbarp := zeroBuf
  Sg := zeroBuf
  Sb := zeroBuf
  rho := bufOf [1, 1]
  rhov := bufOf [0, 0]
  rhoE := bufOf [5 / 4, 5 / 4]
  gsigma := bufOf gsigma
  bsigma := zeroBuf
  gsigma2 := zeroBuf
  bsigma2 := zeroBuf
  gbarpbound := zeroBuf
  bbarpbound := zeroBuf
  rhoh := zeroBuf
  rhovh := zeroBuf
  rhoEh := zeroBuf

/-- Conservative state and distributions of one cell with two velocity nodes. -/
def cons12 : Cons ℚ where
  rho := bufOf [1]
  rhov := bufOf [0]
  rhoE := bufOf [2]
  g := bufOf [1, 1]
  b := bufOf [1, 1]

/-! ## The quadrature provider `Cotes` of Main.hh -/

/-- The velocity box, globals `Vmin[3]` and `Vmax[3]` of Main.hh. -/
structure VBox (F : Type) where
  Vmin : Nat → F
  Vmax : Nat → F

/-- The `assert` of `Cotes` (line 29),
`NV[1]%4 == 0 || NV[1] == 1 && NV[2]%4 == 0 || NV[2] == 1`, with the grouping that C
gives it (`&&` binds tighter than `||`).  `NV[0]` is not read. -/
def CotesCheck (d : Dims) : Bool :=
  (d.NV1 % 4 == 0) || ((d.NV1 == 1) && (d.NV2 % 4 == 0)) || (d.NV2 == 1)

/-- Panel width of one axis: `n = (NV-1)/4; dh = (b-a)/n` (integer division for `n`).
For `NV < 5` the source divides by `n = 0`; the field convention `x/0 = 0` stands in for
that case, on which no statement below relies. -/
def CotesDh (NV : Nat) (a b : F) : F := (b - a) / (((NV - 1) / 4 : Nat) : F)

/-- Node loop `for (k < n) Co[k] = vmin + k*dh/4`. -/
def CotesNodes (n : Nat) (vmin dh : F) (x : Nat → F) : Nat → F :=
  forLoop n (fun kx x1 => Function.update x1 kx (vmin + (kx : F) * dh / 4)) x

/-- Weight-pattern loop `for (k < n) { w[4k] = 14; w[4k+1] = 32; w[4k+2] = 12; w[4k+3] = 32; }`
followed by `w[0] = 7; w[n-1] = 7;`.  The loop runs over all `n` nodes, so it stores up
to offset `4n-1`; only the offsets below `n` are read afterwards. -/
def CotesPattern (n : Nat) (w : Nat → F) : Nat → F :=
  Function.update (Function.update
    (forLoop n (fun kx w1 =>
      Function.update (Function.update (Function.update (Function.update w1
        (4 * kx) 14) (4 * kx + 1) 32) (4 * kx + 2) 12) (4 * kx + 3) 32) w)
    0 7) (n - 1) 7

/-- Scaling loop `for (k < n) w[k] *= dh/90`. -/
def CotesScale (n : Nat) (dh : F) (w : Nat → F) : Nat → F :=
  forLoop n (fun ky w1 => Function.update w1 ky (w1 ky * (dh / 90))) w

/-- Scaling loop of the X axis as written on line 48,
`for(int kx = 0; k < NV[0]; k++){Co_WX[kx]*=dh/90;}`: the test and the increment are on
the function-scope `int k`, which is never initialised, and `kx` stays 0.  With `k0` the
value `k` happens to hold, the body runs `NV[0] - k0` times (not at all if that is
negative), each time on `Co_WX[0]`. -/
def CotesScaleX (NV0 : Nat) (k0 : Int) (dh : F) (w : Nat → F) : Nat → F :=
  forLoop ((NV0 : Int) - k0).toNat (fun _ w1 => Function.update w1 0 (w1 0 * (dh / 90))) w

/-- Body of `Cotes(Co_X, Co_WX, Co_Y, Co_WY, Co_Z, Co_WZ)` after its `assert`
(lines 32-92).  The scaling loop of the Z axis runs to `N[2]`, as written on line 90;
`Co_Z` is written only in the branch `NV[2] >= 4`. -/
def CotesBody (d : Dims) (box : VBox F) (k0 : Int) (q : Quad F) : Quad F :=
  let dhx := CotesDh d.NV0 (box.Vmin 0) (box.Vmax 0)
  let dhy := CotesDh d.NV1 (box.Vmin 1) (box.Vmax 1)
  let dhz := CotesDh d.NV2 (box.Vmin 2) (box.Vmax 2)
  { Co_X := CotesNodes d.NV0 (box.Vmin 0) dhx q.Co_X
    Co_WX := CotesScaleX d.NV0 k0 dhx (CotesPattern d.NV0 q.Co_WX)
    Co_Y := CotesNodes d.NV1 (box.Vmin 1) dhy q.Co_Y
    Co_WY :=
      if 4 ≤ d.NV1 then CotesScale d.NV1 dhy (CotesPattern d.NV1 q.Co_WY)
      else if d.NV1 = 1 then Function.update q.Co_WY 0 1
      else q.Co_WY
    Co_Z := if 4 ≤ d.NV2 then CotesNodes d.NV2 (box.Vmin 2) dhz q.Co_Z else q.Co_Z
    Co_WZ :=
      if 4 ≤ d.NV2 then CotesScale d.N2 dhz (CotesPattern d.NV2 q.Co_WZ)
      else if d.NV2 = 1 then Function.update q.Co_WZ 0 1
      else q.Co_WZ }

/-- `Cotes`: the arrays it leaves, or `none` when its `assert` fails. -/
def Cotes (d : Dims) (box : VBox F) (k0 : Int) (q : Quad F) : Option (Quad F) :=
  if CotesCheck d then some (CotesBody d box k0 q) else none

/-- Velocity grid `5 × 1 × 1` on one cell. -/
def dimsV5 : Dims := { N0 := 1, N1 := 1, N2 := 1, NV0 := 5, NV1 := 1, NV2 := 1, effD := 1 }

/-- Velocity box `[0,1]` on the X axis, degenerate on the others. -/
def box01 : VBox ℚ := { Vmin := bufOf [0, 0, 0], Vmax := bufOf [1, 0, 0] }

/-- Six zero arrays. -/
def zeroQuad : Quad ℚ :=
  { Co_X := zeroBuf, Co_WX := zeroBuf, Co_Y := zeroBuf, Co_WY := zeroBuf,
    Co_Z := zeroBuf, Co_WZ := zeroBuf }

/-- Arrays holding 5 in every entry. -/
def fiveQuad : Quad ℚ :=
  { Co_X := fun _ => 5, Co_WX := fun _ => 5, Co_Y := fun _ => 5, Co_WY := fun _ => 5,
    Co_Z := fun _ => 5, Co_WZ := fun _ => 5 }

/-! ## Agreement of conservative buffers on one cell -/

/-- The conservative buffers `st` hold at cell `s` (entries `rho[s]`, `rhoE[s]`,
`rhov[D*s + dim]` for `dim < D`) what `pre` holds there. -/
def AgreeAt (D s : Nat) (pre st : Cons F) : Prop :=
  st.rho s = pre.rho s ∧ st.rhoE s = pre.rhoE s
    ∧ ∀ dim, dim < D → st.rhov (D * s + dim) = pre.rhov (D * s + dim)

/-! ## Values written by stages 1a and 2b at one phase-space point -/

/-- Value that `Step1a` stores in `gbarp[idx]` (line 98), with `Sg[sidx]` just zeroed. -/
def gbarpVal (d : Dims) (c : Closure F) (effD : Nat) (g rho rhov rhoE : Nat → F) (dt : F)
    (Co_X Co_Y Co_Z : Nat → F) (i j k vx vy vz : Nat) : F :=
  (2 * relaxTime c (rho (sidx d i j k)) (cellTemp c effD rho rhov rhoE (sidx d i j k)) - dt / 2)
      / (2 * relaxTime c (rho (sidx d i j k)) (cellTemp c effD rho rhov rhoE (sidx d i j k)))
      * g (idx d i j k vx vy vz)
    + dt / (4 * relaxTime c (rho (sidx d i j k)) (cellTemp c effD rho rhov rhoE (sidx d i j k)))
      * c.geq (pec2 effD (vec3 (Co_X vx) (Co_Y vy) (Co_Z vz)) rhov rho (sidx d i j k))
          (rho (sidx d i j k)) (cellTemp c effD rho rhov rhoE (sidx d i j k))
    + dt / 4 * 0

/-- Value that `Step1a` stores in `bbarp[idx]` (line 99), with `Sb[sidx]` just zeroed. -/
def bbarpVal (d : Dims) (c : Closure F) (effD : Nat) (b rho rhov rhoE : Nat → F) (dt : F)
    (Co_X Co_Y Co_Z : Nat → F) (i j k vx vy vz : Nat) : F :=
  (2 * relaxTime c (rho (sidx d i j k)) (cellTemp c effD rho rhov rhoE (sidx d i j k)) - dt / 2)
      / (2 * relaxTime c (rho (sidx d i j k)) (cellTemp c effD rho rhov rhoE (sidx d i j k)))
      * b (idx d i j k vx vy vz)
    + dt / (4 * relaxTime c (rho (sidx d i j k)) (cellTemp c effD rho rhov rhoE (sidx d i j k)))
      * beqOf effD
          (c.geq (pec2 effD (vec3 (Co_X vx) (Co_Y vy) (Co_Z vz)) rhov rho (sidx d i j k))
            (rho (sidx d i j k)) (cellTemp c effD rho rhov rhoE (sidx d i j k)))
          (Co_X vx) (Co_Y vy) (Co_Z vz) (cellTemp c effD rho rhov rhoE (sidx d i j k))
    + dt / 4 * 0

/-- Temperature of the face `(s, dim2)` in `Step2b` (lines 401-402). -/
def faceTemp (c : Closure F) (D : Nat) (rhoh rhovh rhoEh : Nat → F) (s dim2 : Nat) : F :=
  c.Temperature (rhoEh (D * s + dim2) / rhoh (D * s + dim2)) (faceSpeed c D rhoh rhovh s dim2)

/-- Relaxation time of the face `(s, dim2)` in `Step2b` (line 404). -/
def faceTau (c : Closure F) (D : Nat) (rhoh rhovh rhoEh : Nat → F) (s dim2 : Nat) : F :=
  c.visc (faceTemp c D rhoh rhovh rhoEh s dim2) / rhoh (D * s + dim2) / R F
    / faceTemp c D rhoh rhovh rhoEh s dim2

/-- Face equilibrium `g_eq` of `Step2b` (line 418) at a velocity node. -/
def faceGeq (d : Dims) (c : Closure F) (rhoh rhovh rhoEh Co_X Co_Y Co_Z : Nat → F)
    (i j k dim2 vx vy vz : Nat) : F :=
  c.geq (facePec2 d.effD (vec3 (Co_X vx) (Co_Y vy) (Co_Z vz)) rhoh rhovh (sidx d i j k) dim2)
    (rhoh (d.effD * sidx d i j k + dim2))
    (faceTemp c d.effD rhoh rhovh rhoEh (sidx d i j k) dim2)

/-- Face energy equilibrium `b_eq` of `Step2b` (line 419) at a velocity node. -/
def faceBeq (d : Dims) (c : Closure F) (rhoh rhovh rhoEh Co_X Co_Y Co_Z : Nat → F)
    (i j k dim2 vx vy vz : Nat) : F :=
  beqOf d.effD (faceGeq d c rhoh rhovh rhoEh Co_X Co_Y Co_Z i j k dim2 vx vy vz)
    (Co_X vx) (Co_Y vy) (Co_Z vz) (faceTemp c d.effD rhoh rhovh rhoEh (sidx d i j k) dim2)

/-! ## Offsets read by stage 1c -/

/-- Offset of the `dd`-th cross-slope read of `Step1c` (lines 278-279),
`effD*effD*idx + effD*dd + Dim`; the source reads it for `dd = 0, 1, 2`. -/
def Step1c_read (effD id0 Dim dd : Nat) : Nat := effD * effD * id0 + effD * dd + Dim

/-- Size of `gsigma2`, `bsigma2` in the data model (§3): `N_s · N_v · D · D` entries. -/
def sigma2Size (d : Dims) (D : Nat) : Nat :=
  d.N0 * d.N1 * d.N2 * (d.NV0 * d.NV1 * d.NV2) * D * D

/-! ## Loop reasoning -/

section Loops
variable {σ α : Type}

theorem forLoop_succ (n : Nat) (body : Nat → σ → σ) (s : σ) :
    forLoop (n + 1) body s = body n (forLoop n body s) := rfl

/-- An observable that every iteration transforms on its own evolves by the loop of
those transformations. -/
theorem forLoop_obs (obs : σ → α) (f : Nat → α → α) (n : Nat) (body : Nat → σ → σ)
    (h : ∀ i, i < n → ∀ s, obs (body i s) = f i (obs s)) (s : σ) :
    obs (forLoop n body s) = forLoop n f (obs s) := by
  induction n with
  | zero => rfl
  | succ m ih =>
    rw [forLoop_succ, forLoop_succ, h m (Nat.lt_succ_self m),
      ih (fun i hi => h i (Nat.lt_succ_of_lt hi))]

theorem forLoop_const (n : Nat) (a : α) : forLoop n (fun _ x => x) a = a := by
  induction n with
  | zero => rfl
  | succ m ih => rw [forLoop_succ, ih]

/-- An observable that no iteration changes is unchanged by the loop. -/
theorem forLoop_obs_id (obs : σ → α) (n : Nat) (body : Nat → σ → σ)
    (h : ∀ i, i < n → ∀ s, obs (body i s) = obs s) (s : σ) :
    obs (forLoop n body s) = obs s := by
  rw [forLoop_obs obs (fun _ x => x) n body h s, forLoop_const]

/-- An observable that only iteration `i0` changes. -/
theorem forLoop_obs_at (obs : σ → α) (f : α → α) (n i0 : Nat) (body : Nat → σ → σ)
    (hi0 : i0 < n) (hit : ∀ s, obs (body i0 s) = f (obs s))
    (hother : ∀ i, i < n → i ≠ i0 → ∀ s, obs (body i s) = obs s) (s : σ) :
    obs (forLoop n body s) = f (obs s) := by
  induction n with
  | zero => exact absurd hi0 (Nat.not_lt_zero _)
  | succ m ih =>
    rw [forLoop_succ]
    by_cases hm : i0 = m
    · subst hm
      rw [hit, forLoop_obs_id obs i0 body
        (fun i hi => hother i (Nat.lt_succ_of_lt hi) (Nat.ne_of_lt hi))]
    · have hlt : i0 < m := lt_of_le_of_ne (Nat.lt_succ_iff.mp hi0) hm
      rw [hother m (Nat.lt_succ_self m) (fun e => hm e.symm)]
      exact ih hlt (fun i hi => hother i (Nat.lt_succ_of_lt hi))

theorem loop3_obs (obs : σ → α) (f : Nat → Nat → Nat → α → α) (a b c : Nat)
    (body : Nat → Nat → Nat → σ → σ)
    (h : ∀ i j k, i < a → j < b → k < c → ∀ s, obs (body i j k s) = f i j k (obs s)) (s : σ) :
    obs (loop3 a b c body s) = loop3 a b c f (obs s) := by
  unfold loop3
  refine forLoop_obs obs _ a _ (fun i hi s1 => ?_) s
  refine forLoop_obs obs _ b _ (fun j hj s2 => ?_) s1
  exact forLoop_obs obs _ c _ (fun k hk s3 => h i j k hi hj hk s3) s2

theorem loop3_obs_id (obs : σ → α) (a b c : Nat) (body : Nat → Nat → Nat → σ → σ)
    (h : ∀ i j k, i < a → j < b → k < c → ∀ s, obs (body i j k s) = obs s) (s : σ) :
    obs (loop3 a b c body s) = obs s := by
  unfold loop3
  refine forLoop_obs_id obs a _ (fun i hi s1 => ?_) s
  refine forLoop_obs_id obs b _ (fun j hj s2 => ?_) s1
  exact forLoop_obs_id obs c _ (fun k hk s3 => h i j k hi hj hk s3) s2

theorem loop3_obs_at (obs : σ → α) (f : α → α) (a b c i0 j0 k0 : Nat)
    (body : Nat → Nat → Nat → σ → σ) (hi0 : i0 < a) (hj0 : j0 < b) (hk0 : k0 < c)
    (hit : ∀ s, obs (body i0 j0 k0 s) = f (obs s))
    (hother : ∀ i j k, i < a → j < b → k < c → ¬ (i = i0 ∧ j = j0 ∧ k = k0) →
      ∀ s, obs (body i j k s) = obs s) (s : σ) :
    obs (loop3 a b c body s) = f (obs s) := by
  unfold loop3
  refine forLoop_obs_at obs f a i0 _ hi0 (fun s1 => ?_) (fun i hi hne s1 => ?_) s
  · refine forLoop_obs_at obs f b j0 _ hj0 (fun s2 => ?_) (fun j hj hne s2 => ?_) s1
    · refine forLoop_obs_at obs f c k0 _ hk0 (fun s3 => hit s3) (fun k hk hne s3 => ?_) s2
      exact hother i0 j0 k hi0 hj0 hk (fun e => hne e.2.2) s3
    · exact forLoop_obs_id obs c _
        (fun k hk s3 => hother i0 j k hi0 hj hk (fun e => hne e.2.1) s3) s2
  · refine forLoop_obs_id obs b _ (fun j hj s2 => ?_) s1
    exact forLoop_obs_id obs c _
      (fun k hk s3 => hother i j k hi hj hk (fun e => hne e.1) s3) s2

end Loops

/-! ## Sums -/

section Sums

theorem forLoop_add_sum (n : Nat) (t : Nat → F) (r : F) :
    forLoop n (fun i x => x + t i) r = r + ∑ i in Finset.range n, t i := by
  induction n with
  | zero => simp [forLoop]
  | succ m ih => rw [forLoop_succ, ih, Finset.sum_range_succ, add_assoc]

theorem loop3_add_sum (a b c : Nat) (t : Nat → Nat → Nat → F) (r : F) :
    loop3 a b c (fun i j k x => x + t i j k) r = r + sum3 a b c t := by
  unfold loop3 sum3
  have h1 : ∀ i j (x : F), forLoop c (fun k s3 => s3 + t i j k) x
      = x + ∑ k in Finset.range c, t i j k := fun i j x => forLoop_add_sum c _ x
  have h2 : ∀ i (x : F), forLoop b (fun j s2 => forLoop c (fun k s3 => s3 + t i j k) s2) x
      = x + ∑ j in Finset.range b, ∑ k in Finset.range c, t i j k := by
    intro i x
    simp only [h1]
    exact forLoop_add_sum b _ x
  simp only [h2]
  exact forLoop_add_sum a _ r

end Sums
/-! ## Offsets and periodic neighbours -/

section Index

theorem lowerNb_zero (m : Nat) : lowerNb (m + 1) 0 = m := by
  unfold lowerNb
  have h : ((0 : Nat) : Int) - 1 + ((m + 1 : Nat) : Int) = ((m : Nat) : Int) := by
    push_cast; ring
  rw [h, ← Int.natCast_mod, Int.toNat_natCast]
  exact Nat.mod_eq_of_lt (Nat.lt_succ_self m)

theorem lowerNb_succ (m i : Nat) (hi : i < m + 1) : lowerNb (m + 1) (i + 1) = i := by
  unfold lowerNb
  have h : ((i + 1 : Nat) : Int) - 1 + ((m + 1 : Nat) : Int) = ((i + (m + 1) : Nat) : Int) := by
    push_cast; ring
  rw [h, ← Int.natCast_mod, Int.toNat_natCast, Nat.add_mod_right]
  exact Nat.mod_eq_of_lt hi

theorem lowerNb_lt (n i : Nat) (hn : 0 < n) : lowerNb n i < n := by
  unfold lowerNb
  have h : ((i : Nat) : Int) - 1 + ((n : Nat) : Int) = ((i + n - 1 : Nat) : Int) := by
    omega
  rw [h, ← Int.natCast_mod, Int.toNat_natCast]
  exact Nat.mod_lt _ hn

theorem add_mul_inj {n a b a' b' : Nat} (ha : a < n) (ha' : a' < n)
    (h : a + n * b = a' + n * b') : a = a' ∧ b = b' := by
  have hmod : (a + n * b) % n = (a' + n * b') % n := by rw [h]
  rw [Nat.add_mul_mod_self_left, Nat.add_mul_mod_self_left, Nat.mod_eq_of_lt ha,
    Nat.mod_eq_of_lt ha'] at hmod
  subst hmod
  have hn : 0 < n := lt_of_le_of_lt (Nat.zero_le a) ha
  exact ⟨rfl, Nat.eq_of_mul_eq_mul_left hn (Nat.add_left_cancel h)⟩

theorem sidx_nested (d : Dims) (i j k : Nat) : sidx d i j k = i + d.N0 * (j + d.N1 * k) := by
  unfold sidx; ring

theorem idx_nested (d : Dims) (i j k vx vy vz : Nat) :
    idx d i j k vx vy vz
      = i + d.N0 * (j + d.N1 * (k + d.N2 * (vx + d.NV0 * (vy + d.NV1 * vz)))) := by
  unfold idx; ring

/-- Two cells of the grid with the same spatial offset coincide. -/
theorem sidx_inj (d : Dims) {i j k i' j' k' : Nat} (hi : i < d.N0) (hj : j < d.N1)
    (hi' : i' < d.N0) (hj' : j' < d.N1) (h : sidx d i j k = sidx d i' j' k') :
    i = i' ∧ j = j' ∧ k = k' := by
  rw [sidx_nested, sidx_nested] at h
  obtain ⟨h1, h2⟩ := add_mul_inj hi hi' h
  obtain ⟨h3, h4⟩ := add_mul_inj hj hj' h2
  exact ⟨h1, h3, h4⟩

/-- Two in-range phase-space points with the same offset coincide. -/
theorem idx_inj (d : Dims) {i j k vx vy vz i' j' k' vx' vy' vz' : Nat}
    (hi : i < d.N0) (hj : j < d.N1) (hk : k < d.N2) (hvx : vx < d.NV0) (hvy : vy < d.NV1)
    (hi' : i' < d.N0) (hj' : j' < d.N1) (hk' : k' < d.N2) (hvx' : vx' < d.NV0)
    (hvy' : vy' < d.NV1) (h : idx d i j k vx vy vz = idx d i' j' k' vx' vy' vz') :
    (i = i' ∧ j = j' ∧ k = k') ∧ (vx = vx' ∧ vy = vy' ∧ vz = vz') := by
  rw [idx_nested, idx_nested] at h
  obtain ⟨h1, h2⟩ := add_mul_inj hi hi' h
  obtain ⟨h3, h4⟩ := add_mul_inj hj hj' h2
  obtain ⟨h5, h6⟩ := add_mul_inj hk hk' h4
  obtain ⟨h7, h8⟩ := add_mul_inj hvx hvx' h6
  obtain ⟨h9, h10⟩ := add_mul_inj hvy hvy' h8
  exact ⟨⟨h1, h3, h5⟩, h7, h9, h10⟩

end Index

/-! ## Sums over boxes -/

section BoxSums

theorem sum3_congr {a b c : Nat} {f g : Nat → Nat → Nat → F}
    (h : ∀ i j k, i < a → j < b → k < c → f i j k = g i j k) : sum3 a b c f = sum3 a b c g := by
  unfold sum3
  refine Finset.sum_congr rfl (fun i hi => ?_)
  refine Finset.sum_congr rfl (fun j hj => ?_)
  refine Finset.sum_congr rfl (fun k hk => ?_)
  exact h i j k (Finset.mem_range.mp hi) (Finset.mem_range.mp hj) (Finset.mem_range.mp hk)

theorem sum3_add (a b c : Nat) (f g : Nat → Nat → Nat → F) :
    sum3 a b c (fun i j k => f i j k + g i j k) = sum3 a b c f + sum3 a b c g := by
  unfold sum3; simp only [Finset.sum_add_distrib]

theorem sum3_sub (a b c : Nat) (f g : Nat → Nat → Nat → F) :
    sum3 a b c (fun i j k => f i j k - g i j k) = sum3 a b c f - sum3 a b c g := by
  unfold sum3; simp only [Finset.sum_sub_distrib]

theorem sum3_mul_left (a b c : Nat) (x : F) (f : Nat → Nat → Nat → F) :
    sum3 a b c (fun i j k => x * f i j k) = x * sum3 a b c f := by
  unfold sum3; simp only [Finset.mul_sum]

theorem sum3_zero (a b c : Nat) : sum3 a b c (fun _ _ _ => (0 : F)) = 0 := by
  unfold sum3; simp

/-- A box sum as a single sum over the product set. -/
theorem sum3_eq_prod (a b c : Nat) (f : Nat → Nat → Nat → F) :
    sum3 a b c f
      = ∑ p in Finset.range a ×ˢ (Finset.range b ×ˢ Finset.range c), f p.1 p.2.1 p.2.2 := by
  unfold sum3
  rw [Finset.sum_product]
  refine Finset.sum_congr rfl (fun i _ => ?_)
  rw [Finset.sum_product]

theorem sum3_comm (a b c x y z : Nat) (f : Nat → Nat → Nat → Nat → Nat → Nat → F) :
    sum3 a b c (fun i j k => sum3 x y z (fun p q r => f i j k p q r))
      = sum3 x y z (fun p q r => sum3 a b c (fun i j k => f i j k p q r)) := by
  rw [sum3_eq_prod]
  simp only [sum3_eq_prod x y z]
  rw [Finset.sum_comm]
  refine Finset.sum_congr rfl (fun p _ => ?_)
  rw [sum3_eq_prod]

theorem sum3_sum_comm (a b c n : Nat) (f : Nat → Nat → Nat → Nat → F) :
    sum3 a b c (fun i j k => ∑ m in Finset.range n, f m i j k)
      = ∑ m in Finset.range n, sum3 a b c (f m) := by
  rw [sum3_eq_prod, Finset.sum_comm]
  refine Finset.sum_congr rfl (fun m _ => ?_)
  rw [sum3_eq_prod]

/-- A sum over one period is invariant under the periodic shift to the lower neighbour. -/
theorem sum_lowerNb (n : Nat) (h : Nat → F) :
    ∑ i in Finset.range n, h (lowerNb n i) = ∑ i in Finset.range n, h i := by
  cases n with
  | zero => simp
  | succ m =>
    rw [Finset.sum_range_succ', lowerNb_zero, Finset.sum_range_succ]
    congr 1
    refine Finset.sum_congr rfl (fun i hi => ?_)
    rw [lowerNb_succ m i (Nat.lt_succ_of_lt (Finset.mem_range.mp hi))]

theorem sum3_lower0 (a b c : Nat) (h : Nat → Nat → Nat → F) :
    sum3 a b c (fun i j k => h (lowerNb a i) j k) = sum3 a b c h := by
  unfold sum3
  exact sum_lowerNb a (fun i => ∑ j in Finset.range b, ∑ k in Finset.range c, h i j k)

theorem sum3_lower1 (a b c : Nat) (h : Nat → Nat → Nat → F) :
    sum3 a b c (fun i j k => h i (lowerNb b j) k) = sum3 a b c h := by
  unfold sum3
  refine Finset.sum_congr rfl (fun i _ => ?_)
  exact sum_lowerNb b (fun j => ∑ k in Finset.range c, h i j k)

theorem sum3_lower2 (a b c : Nat) (h : Nat → Nat → Nat → F) :
    sum3 a b c (fun i j k => h i j (lowerNb c k)) = sum3 a b c h := by
  unfold sum3
  refine Finset.sum_congr rfl (fun i _ => ?_)
  refine Finset.sum_congr rfl (fun j _ => ?_)
  exact sum_lowerNb c (fun k => h i j k)

end BoxSums

/-! ## What `Step2c` writes and what `Step4and5` does to `rho` -/

section FluxAndMass

theorem Step2c_dim_Fg_other (d : Dims) (gbar bbar Xi A : Nat → F) (i j k vx vy vz dim q : Nat)
    (hq : q ≠ idx d i j k vx vy vz) (st : Flux F) :
    (Step2c_dim d gbar bbar Xi A i j k vx vy vz dim st).Fg q = st.Fg q := by
  simp only [Step2c_dim]
  exact Function.update_noteq hq _ _

theorem Step2c_body_Fg_other (d : Dims) (gbar bbar Co_X Co_Y Co_Z : Nat → F)
    (mesh : Nat → Cell F) (i j k vx vy vz q : Nat) (hq : q ≠ idx d i j k vx vy vz)
    (st : Flux F) :
    (Step2c_body d gbar bbar Co_X Co_Y Co_Z mesh i j k vx vy vz st).Fg q = st.Fg q := by
  simp only [Step2c_body]
  rw [forLoop_obs_id (fun s : Flux F => s.Fg q) d.effD _
    (fun dim _ s => Step2c_dim_Fg_other d gbar bbar _ _ i j k vx vy vz dim q hq s)]
  exact Function.update_noteq hq _ _

theorem Step2c_body_Fg_self (d : Dims) (gbar bbar Co_X Co_Y Co_Z : Nat → F)
    (mesh : Nat → Cell F) (i j k vx vy vz : Nat) (st : Flux F) :
    (Step2c_body d gbar bbar Co_X Co_Y Co_Z mesh i j k vx vy vz st).Fg (idx d i j k vx vy vz)
      = ∑ dim in Finset.range d.effD, fluxTerm d gbar Co_X Co_Y Co_Z mesh i j k vx vy vz dim := by
  simp only [Step2c_body]
  rw [forLoop_obs (fun s : Flux F => s.Fg (idx d i j k vx vy vz))
    (fun dim x => x + fluxTerm d gbar Co_X Co_Y Co_Z mesh i j k vx vy vz dim) d.effD _
    (fun dim _ s => by simp only [Step2c_dim, Function.update_same, fluxTerm])]
  rw [forLoop_add_sum]
  simp only [Function.update_same, zero_add]

/-- After `Step2c`, the flux at every in-range phase-space point is the sum of its
`effD` axis contributions, whatever `Fg` held before. -/
theorem Step2c_Fg_at (d : Dims) (gbar bbar Co_X Co_Y Co_Z : Nat → F) (mesh : Nat → Cell F)
    (Fg Fb : Nat → F) {i j k vx vy vz : Nat} (hi : i < d.N0) (hj : j < d.N1) (hk : k < d.N2)
    (hvx : vx < d.NV0) (hvy : vy < d.NV1) (hvz : vz < d.NV2) :
    (Step2c d gbar bbar Co_X Co_Y Co_Z mesh Fg Fb).Fg (idx d i j k vx vy vz)
      = ∑ dim in Finset.range d.effD, fluxTerm d gbar Co_X Co_Y Co_Z mesh i j k vx vy vz dim := by
  unfold Step2c
  refine loop3_obs_at (fun s : Flux F => s.Fg (idx d i j k vx vy vz)) (fun _ => _)
    d.N0 d.N1 d.N2 i j k _ hi hj hk (fun s => ?_) (fun i' j' k' hi' hj' hk' hne s => ?_) _
  · refine loop3_obs_at (fun s : Flux F => s.Fg (idx d i j k vx vy vz)) (fun _ => _)
      d.NV0 d.NV1 d.NV2 vx vy vz _ hvx hvy hvz (fun s2 => ?_)
      (fun vx' vy' vz' hvx' hvy' _ hne s2 => ?_) s
    · exact Step2c_body_Fg_self d gbar bbar Co_X Co_Y Co_Z mesh i j k vx vy vz s2
    · refine Step2c_body_Fg_other d gbar bbar Co_X Co_Y Co_Z mesh i j k vx' vy' vz' _ ?_ s2
      intro e
      exact hne (idx_inj d hi hj hk hvx' hvy' hi hj hk hvx hvy e.symm).2
  · refine loop3_obs_id (fun s : Flux F => s.Fg (idx d i j k vx vy vz)) d.NV0 d.NV1 d.NV2 _
      (fun vx' vy' vz' hvx' hvy' _ s2 => ?_) s
    refine Step2c_body_Fg_other d gbar bbar Co_X Co_Y Co_Z mesh i' j' k' vx' vy' vz' _ ?_ s2
    intro e
    exact hne (idx_inj d hi' hj' hk' hvx' hvy' hi hj hk hvx hvy e.symm).1

theorem Step4and5_body_rho (d : Dims) (c : Closure F) (dt : F) (mesh : Nat → Cell F)
    (Fg Fb Co_X Co_Y Co_Z Co_WX Co_WY : Nat → F) (i j k vx vy vz q : Nat) (st : Cons F) :
    (Step4and5_body d c dt mesh Fg Fb Co_X Co_Y Co_Z Co_WX Co_WY i j k vx vy vz st).rho q
      = if q = sidx d i j k then
          st.rho q + rhoTerm d dt mesh Fg Co_WX Co_WY Co_Z i j k vx vy vz
        else st.rho q := by
  simp only [Step4and5_body, Step4and5_locals, Step4, rhoTerm]
  by_cases hq : q = sidx d i j k
  · subst hq
    simp only [Function.update_same, if_true]
  · simp only [Function.update_noteq hq, if_neg hq]

/-- After `Step4and5`, `rho` of every cell of the grid is its old value plus the
increments of that cell's velocity sweep. -/
theorem Step4and5_rho_at (d : Dims) (c : Closure F) (rho rhov rhoE : Nat → F) (dt : F)
    (mesh : Nat → Cell F) (Fg Fb Co_X Co_Y Co_Z Co_WX Co_WY Co_WZ g b : Nat → F)
    {i j k : Nat} (hi : i < d.N0) (hj : j < d.N1) (hk : k < d.N2) :
    (Step4and5 d c rho rhov rhoE dt mesh Fg Fb Co_X Co_Y Co_Z Co_WX Co_WY Co_WZ g b).rho
        (sidx d i j k)
      = rho (sidx d i j k)
        + sum3 d.NV0 d.NV1 d.NV2 (fun vx vy vz =>
            rhoTerm d dt mesh Fg Co_WX Co_WY Co_Z i j k vx vy vz) := by
  unfold Step4and5
  refine loop3_obs_at (fun s : Cons F => s.rho (sidx d i j k))
    (fun x => x + sum3 d.NV0 d.NV1 d.NV2 (fun vx vy vz =>
      rhoTerm d dt mesh Fg Co_WX Co_WY Co_Z i j k vx vy vz))
    d.N0 d.N1 d.N2 i j k _ hi hj hk (fun s => ?_) (fun i' j' k' hi' hj' _ hne s => ?_) _
  · refine (loop3_obs (fun s : Cons F => s.rho (sidx d i j k))
      (fun vx vy vz x => x + rhoTerm d dt mesh Fg Co_WX Co_WY Co_Z i j k vx vy vz)
      d.NV0 d.NV1 d.NV2 _ (fun vx vy vz _ _ _ s2 => ?_) s).trans (loop3_add_sum _ _ _ _ _)
    simp only [Step4and5_body_rho, if_true]
  · refine loop3_obs_id (fun s : Cons F => s.rho (sidx d i j k)) d.NV0 d.NV1 d.NV2 _
      (fun vx vy vz _ _ _ s2 => ?_) s
    have hq : sidx d i j k ≠ sidx d i' j' k' := fun e => hne (sidx_inj d hi' hj' hi hj e.symm)
    simp only [Step4and5_body_rho, if_neg hq]

end FluxAndMass

/-! ## Telescoping of the fluxes over a periodic uniform mesh -/

section Telescoping

theorem sum3_fluxTerm (d : Dims) (gbar Co_X Co_Y Co_Z : Nat → F) (mesh : Nat → Cell F)
    (dx dy dz : F) (hmesh : UniformMesh d mesh dx dy dz) (vx vy vz dim : Nat) (hdim : dim < 3) :
    sum3 d.N0 d.N1 d.N2 (fun i j k => fluxTerm d gbar Co_X Co_Y Co_Z mesh i j k vx vy vz dim)
      = 0 := by
  have h3 : dim = 0 ∨ dim = 1 ∨ dim = 2 := by omega
  rcases h3 with h | h | h
  · subst h
    rw [sum3_congr (g := fun i j k => (Co_X vx * (dy * dz)) *
        ((fun i j k => gbar (d.effD * idx d i j k vx vy vz + 0)) i j k
          - (fun i j k => gbar (d.effD * idx d i j k vx vy vz + 0)) (lowerNb d.N0 i) j k))
      (fun i j k hi hj hk => by
        obtain ⟨_, h2, h3⟩ := hmesh i j k hi hj hk
        simp [fluxTerm, vec3, h2, h3])]
    rw [sum3_mul_left, sum3_sub,
      sum3_lower0 d.N0 d.N1 d.N2 (fun i j k => gbar (d.effD * idx d i j k vx vy vz + 0)),
      sub_self, mul_zero]
  · subst h
    rw [sum3_congr (g := fun i j k => (Co_Y vy * (dx * dz)) *
        ((fun i j k => gbar (d.effD * idx d i j k vx vy vz + 1)) i j k
          - (fun i j k => gbar (d.effD * idx d i j k vx vy vz + 1)) i (lowerNb d.N1 j) k))
      (fun i j k hi hj hk => by
        obtain ⟨h1, _, h3⟩ := hmesh i j k hi hj hk
        simp [fluxTerm, vec3, h1, h3])]
    rw [sum3_mul_left, sum3_sub,
      sum3_lower1 d.N0 d.N1 d.N2 (fun i j k => gbar (d.effD * idx d i j k vx vy vz + 1)),
      sub_self, mul_zero]
  · subst h
    rw [sum3_congr (g := fun i j k => (Co_Z vz * (dx * dy)) *
        ((fun i j k => gbar (d.effD * idx d i j k vx vy vz + 2)) i j k
          - (fun i j k => gbar (d.effD * idx d i j k vx vy vz + 2)) i j (lowerNb d.N2 k)))
      (fun i j k hi hj hk => by
        obtain ⟨h1, h2, _⟩ := hmesh i j k hi hj hk
        simp [fluxTerm, vec3, h1, h2])]
    rw [sum3_mul_left, sum3_sub,
      sum3_lower2 d.N0 d.N1 d.N2 (fun i j k => gbar (d.effD * idx d i j k vx vy vz + 2)),
      sub_self, mul_zero]

/-- On a periodic uniform mesh the fluxes of one velocity node, summed over all cells,
cancel. -/
theorem sum3_flux_zero (d : Dims) (hD : d.effD ≤ 3) (gbar Co_X Co_Y Co_Z : Nat → F)
    (mesh : Nat → Cell F) (dx dy dz : F) (hmesh : UniformMesh d mesh dx dy dz)
    (vx vy vz : Nat) :
    sum3 d.N0 d.N1 d.N2 (fun i j k =>
      ∑ dim in Finset.range d.effD, fluxTerm d gbar Co_X Co_Y Co_Z mesh i j k vx vy vz dim)
      = 0 := by
  rw [sum3_sum_comm d.N0 d.N1 d.N2 d.effD
    (fun dim i j k => fluxTerm d gbar Co_X Co_Y Co_Z mesh i j k vx vy vz dim)]
  refine Finset.sum_eq_zero (fun dim hdim => ?_)
  exact sum3_fluxTerm d gbar Co_X Co_Y Co_Z mesh dx dy dz hmesh vx vy vz dim
    (lt_of_lt_of_le (Finset.mem_range.mp hdim) hD)

/-- Mass of the state that `Step4and5` produces from the fluxes of `Step2c`, as the old
mass plus the weighted cell sums of the fluxes. -/
theorem totalMass_after (d : Dims) (c : Closure F) (dt : F) (mesh : Nat → Cell F)
    (dx dy dz : F) (hdx : 0 < dx) (hdy : 0 < dy) (hdz : 0 < dz)
    (hmesh : UniformMesh d mesh dx dy dz)
    (gbar bbar Fg0 Fb0 rho rhov rhoE g b Co_X Co_Y Co_Z Co_WX Co_WY Co_WZ : Nat → F) :
    totalMass d mesh
        (Step4and5 d c rho rhov rhoE dt mesh
          (Step2c d gbar bbar Co_X Co_Y Co_Z mesh Fg0 Fb0).Fg
          (Step2c d gbar bbar Co_X Co_Y Co_Z mesh Fg0 Fb0).Fb
          Co_X Co_Y Co_Z Co_WX Co_WY Co_WZ g b).rho
      = totalMass d mesh rho
        + sum3 d.NV0 d.NV1 d.NV2 (fun vx vy vz =>
            (-dt * (Co_WX vx * Co_WY vy * Co_Z vz)) *
              sum3 d.N0 d.N1 d.N2 (fun i j k =>
                ∑ dim in Finset.range d.effD,
                  fluxTerm d gbar Co_X Co_Y Co_Z mesh i j k vx vy vz dim)) := by
  unfold totalMass
  rw [sum3_congr (g := fun i j k =>
      rho (sidx d i j k) * ((mesh (sidx d i j k)).dx * (mesh (sidx d i j k)).dy
          * (mesh (sidx d i j k)).dz)
        + sum3 d.NV0 d.NV1 d.NV2 (fun vx vy vz =>
            (-dt * (Co_WX vx * Co_WY vy * Co_Z vz)) *
              ∑ dim in Finset.range d.effD,
                fluxTerm d gbar Co_X Co_Y Co_Z mesh i j k vx vy vz dim))
    (fun i j k hi hj hk => by
      obtain ⟨h1, h2, h3⟩ := hmesh i j k hi hj hk
      have hV : (mesh (sidx d i j k)).dx * (mesh (sidx d i j k)).dy * (mesh (sidx d i j k)).dz
          ≠ 0 := by
        rw [h1, h2, h3]
        exact ne_of_gt (mul_pos (mul_pos hdx hdy) hdz)
      rw [Step4and5_rho_at d c rho rhov rhoE dt mesh _ _ Co_X Co_Y Co_Z Co_WX Co_WY Co_WZ g b
        hi hj hk, add_mul, mul_comm (sum3 _ _ _ _), ← sum3_mul_left]
      congr 1
      refine sum3_congr (fun vx vy vz hvx hvy hvz => ?_)
      rw [← Step2c_Fg_at d gbar bbar Co_X Co_Y Co_Z mesh Fg0 Fb0 hi hj hk hvx hvy hvz]
      unfold rhoTerm
      field_simp
      ring)]
  rw [sum3_add]
  congr 1
  rw [sum3_comm]
  refine sum3_congr (fun vx vy vz _ _ _ => ?_)
  rw [sum3_mul_left]

end Telescoping

/-! ## Claim C1 -/

section MassConservation

/-- C1 (global mass conservation): on a periodic mesh whose cells all share the same
positive extents `dx`, `dy`, `dz`, for `effD` in {1,2,3}, any step `dt` and any content
of `gbar`, `bbar` (and of every other buffer), running `Step2c` and then `Step4and5` on
its fluxes leaves the total mass `Σ_s rho[s]*V(s)` unchanged. -/
theorem mass_conservation (d : Dims) (c : Closure F) (dt : F) (mesh : Nat → Cell F)
    (dx dy dz : F) (hD : d.effD = 1 ∨ d.effD = 2 ∨ d.effD = 3)
    (hdx : 0 < dx) (hdy : 0 < dy) (hdz : 0 < dz) (hmesh : UniformMesh d mesh dx dy dz)
    (gbar bbar Fg0 Fb0 rho rhov rhoE g b Co_X Co_Y Co_Z Co_WX Co_WY Co_WZ : Nat → F) :
    totalMass d mesh
        (Step4and5 d c rho rhov rhoE dt mesh
          (Step2c d gbar bbar Co_X Co_Y Co_Z mesh Fg0 Fb0).Fg
          (Step2c d gbar bbar Co_X Co_Y Co_Z mesh Fg0 Fb0).Fb
          Co_X Co_Y Co_Z Co_WX Co_WY Co_WZ g b).rho
      = totalMass d mesh rho := by
  have hD3 : d.effD ≤ 3 := by omega
  rw [totalMass_after d c dt mesh dx dy dz hdx hdy hdz hmesh]
  rw [sum3_congr (g := fun _ _ _ => (0 : F)) (fun vx vy vz _ _ _ => by
    rw [sum3_flux_zero d hD3 gbar Co_X Co_Y Co_Z mesh dx dy dz hmesh vx vy vz, mul_zero])]
  rw [sum3_zero, add_zero]

/-- C1 witness: the theorem applied on two unit cells with two velocity nodes and
non-uniform interface distributions. -/
theorem mass_conservation_witness :
    totalMass dims22 unitMesh
        (Step4and5 dims22 closureQ (bufOf [1, 2]) (bufOf [0, 1]) (bufOf [3, 4]) (1 / 2048) unitMesh
          (Step2c dims22 (bufOf [1, 2, 3, 5]) (bufOf [2, 1, 0, 1]) (bufOf [-1, 1]) (bufOf [0])
            (bufOf [1]) unitMesh (bufOf []) (bufOf [])).Fg
          (Step2c dims22 (bufOf [1, 2, 3, 5]) (bufOf [2, 1, 0, 1]) (bufOf [-1, 1]) (bufOf [0])
            (bufOf [1]) unitMesh (bufOf []) (bufOf [])).Fb
          (bufOf [-1, 1]) (bufOf [0]) (bufOf [1]) (bufOf [1, 1]) (bufOf [1]) (bufOf [1])
          (bufOf [1, 1, 2, 1]) (bufOf [1, 1, 1, 1])).rho
      = totalMass dims22 unitMesh (bufOf [1, 2]) :=
  mass_conservation dims22 closureQ (1 / 2048) unitMesh 1 1 1 (Or.inl rfl)
    one_pos one_pos one_pos (fun _ _ _ _ _ _ => ⟨rfl, rfl, rfl⟩)
    (bufOf [1, 2, 3, 5]) (bufOf [2, 1, 0, 1]) (bufOf []) (bufOf []) (bufOf [1, 2]) (bufOf [0, 1])
    (bufOf [3, 4]) (bufOf [1, 1, 2, 1]) (bufOf [1, 1, 1, 1]) (bufOf [-1, 1]) (bufOf [0])
    (bufOf [1]) (bufOf [1, 1]) (bufOf [1]) (bufOf [1])

end MassConservation

/-! ## Claim C2: the conservative update and its weights -/

section ConservativeUpdate

/-- C2 (conservative update), the code at the failing input: one cell, one velocity
node `ξ = (1, 0, 0)` with weights `Co_WX = Co_WY = Co_WZ = 1` (so `W(v) = 1`),
`dt = 1`, `V = 1`, `Fg = Fb = 1`, old state `rho = 1`, `rhov = 0`, `rhoE = 2`.
`Step4and5` leaves `rho`, `rhov`, `rhoE` at `1, 0, 2`, because its weight is
`Co_WX[vx]*Co_WY[vy]*Co_Z[vz] = 0`; the update with `W(v)` gives `0, -1, 1`. -/
theorem Step4and5_weight_at_failing_input :
    ((Step4and5 dims11 closureQ (bufOf [1]) (bufOf [0]) (bufOf [2]) 1 unitMesh
        (bufOf [1]) (bufOf [1]) (bufOf [1]) (bufOf [0]) (bufOf [0])
        (bufOf [1]) (bufOf [1]) (bufOf [1]) (bufOf [1]) (bufOf [1])).rho 0 = 1
      ∧ refRho dims11 1 unitMesh (bufOf [1]) (bufOf [1]) (bufOf [1]) (bufOf [1]) (bufOf [1])
          0 0 0 = 0)
    ∧ ((Step4and5 dims11 closureQ (bufOf [1]) (bufOf [0]) (bufOf [2]) 1 unitMesh
        (bufOf [1]) (bufOf [1]) (bufOf [1]) (bufOf [0]) (bufOf [0])
        (bufOf [1]) (bufOf [1]) (bufOf [1]) (bufOf [1]) (bufOf [1])).rhov 0 = 0
      ∧ refRhov dims11 1 unitMesh (bufOf [1]) (bufOf [1]) (bufOf [0]) (bufOf [0])
          (bufOf [1]) (bufOf [1]) (bufOf [1]) (bufOf [0]) 0 0 0 0 = -1)
    ∧ ((Step4and5 dims11 closureQ (bufOf [1]) (bufOf [0]) (bufOf [2]) 1 unitMesh
        (bufOf [1]) (bufOf [1]) (bufOf [1]) (bufOf [0]) (bufOf [0])
        (bufOf [1]) (bufOf [1]) (bufOf [1]) (bufOf [1]) (bufOf [1])).rhoE 0 = 2
      ∧ refRhoE dims11 1 unitMesh (bufOf [1]) (bufOf [1]) (bufOf [1]) (bufOf [1]) (bufOf [2])
          0 0 0 = 1) := by
  decide!

end ConservativeUpdate

/-! ## Claim C3: the distribution update against its pre-summed reference -/

section PreSummed

/-- C3 (stage 4/5 against its pre-summed reference), the code at the failing input:
one cell with two velocity nodes `ξ = -1, 1` (all weights and `Co_Z[0]` equal to 1, so
that the weight of the code coincides with `W(v)`), `dt = 1/4`, `Fg = 1`, `Fb = 0`,
old state `rho = 1`, `rhov = 0`, `rhoE = 2`, `g = b = 1`.  The sweep ends in
`rho = 1/2`, `rhov = 0`, `rhoE = 2`; the reference built from the state before the call
and the state after the sweep is `8357/9009` at both nodes, while `Step4and5` writes
`93009/101036` and `98341/105336`: each node uses the partially updated state. -/
theorem Step4and5_interleaved_at_failing_input :
    (Step4and5 dims12 closureQ cons12.rho cons12.rhov cons12.rhoE (1 / 4) unitMesh
        (bufOf [1, 1]) (bufOf [0, 0]) (bufOf [-1, 1]) (bufOf [0]) (bufOf [1])
        (bufOf [1, 1]) (bufOf [1]) (bufOf [1]) cons12.g cons12.b).rho 0 = 1 / 2
    ∧ (Step4and5 dims12 closureQ cons12.rho cons12.rhov cons12.rhoE (1 / 4) unitMesh
        (bufOf [1, 1]) (bufOf [0, 0]) (bufOf [-1, 1]) (bufOf [0]) (bufOf [1])
        (bufOf [1, 1]) (bufOf [1]) (bufOf [1]) cons12.g cons12.b).g 0 = 93009 / 101036
    ∧ (Step4and5 dims12 closureQ cons12.rho cons12.rhov cons12.rhoE (1 / 4) unitMesh
        (bufOf [1, 1]) (bufOf [0, 0]) (bufOf [-1, 1]) (bufOf [0]) (bufOf [1])
        (bufOf [1, 1]) (bufOf [1]) (bufOf [1]) cons12.g cons12.b).g 1 = 98341 / 105336
    ∧ refG dims12 closureQ (1 / 4) unitMesh (bufOf [1, 1]) (bufOf [-1, 1]) (bufOf [0])
        (bufOf [1]) cons12
        (Step4and5 dims12 closureQ cons12.rho cons12.rhov cons12.rhoE (1 / 4) unitMesh
          (bufOf [1, 1]) (bufOf [0, 0]) (bufOf [-1, 1]) (bufOf [0]) (bufOf [1])
          (bufOf [1, 1]) (bufOf [1]) (bufOf [1]) cons12.g cons12.b) 0 0 0 0 0 0 = 8357 / 9009
    ∧ refG dims12 closureQ (1 / 4) unitMesh (bufOf [1, 1]) (bufOf [-1, 1]) (bufOf [0])
        (bufOf [1]) cons12
        (Step4and5 dims12 closureQ cons12.rho cons12.rhov cons12.rhoE (1 / 4) unitMesh
          (bufOf [1, 1]) (bufOf [0, 0]) (bufOf [-1, 1]) (bufOf [0]) (bufOf [1])
          (bufOf [1, 1]) (bufOf [1]) (bufOf [1]) cons12.g cons12.b) 0 0 0 1 0 0 = 8357 / 9009 := by
  decide!

end PreSummed

/-! ## Claims C4 and C5: reconstruction and the content of the slope buffer -/

section StaleSlopes

/-- C4 (uniform-state fixed point), the code at the failing input: two unit cells, one
velocity node `ξ = 1`, `effD = 1`, both cells in the equilibrium state `rho = 1`,
`rhov = 0`, `rhoE = 5/4` (temperature 1) with `g = geq = 1/2`, `b = 3/4`, and step
`min(1/2048, 1, 1 - 0) = 1/2048`.  With all scratch buffers zero `Evolve` returns
`g`, `b`, `rho`, `rhov`, `rhoE` unchanged; with the single non-zero scratch entry
`gsigma[1] = 1` the cross-slope `gsigma2[0]` becomes `1/2`, `gbar[0]` becomes
`4095/8192` after `Step1c`, and `Evolve` returns `g[0] ≠ 1/2`. -/
theorem Evolve_fixed_point_at_failing_input :
    (closureQ.geq (pec2 1 (vec3 1 0 0) (bufOf [0, 0]) (bufOf [1, 1]) 0) 1
        (cellTemp closureQ 1 (bufOf [1, 1]) (bufOf [0, 0]) (bufOf [5 / 4, 5 / 4]) 0) = 1 / 2
      ∧ cellTemp closureQ 1 (bufOf [1, 1]) (bufOf [0, 0]) (bufOf [5 / 4, 5 / 4]) 0 = 1
      ∧ beqOf 1 (1 / 2 : ℚ) 1 0 0 1 = 3 / 4)
    ∧ ((Evolve dims21 closureQ 1 7 1 0 1 quad1 unitMesh (uniformState [0, 0])).g 0 = 1 / 2
      ∧ (Evolve dims21 closureQ 1 7 1 0 1 quad1 unitMesh (uniformState [0, 0])).g 1 = 1 / 2
      ∧ (Evolve dims21 closureQ 1 7 1 0 1 quad1 unitMesh (uniformState [0, 0])).b 0 = 3 / 4
      ∧ (Evolve dims21 closureQ 1 7 1 0 1 quad1 unitMesh (uniformState [0, 0])).b 1 = 3 / 4)
    ∧ ((Evolve_stage1 dims21 closureQ 1 (Evolve_dt 1 0 1) quad1 unitMesh
          (uniformState [0, 1])).gbarp 0 = 1 / 2
      ∧ (Evolve_stage1 dims21 closureQ 1 (Evolve_dt 1 0 1) quad1 unitMesh
          (uniformState [0, 1])).gsigma2 0 = 1 / 2
      ∧ (Evolve_stage1 dims21 closureQ 1 (Evolve_dt 1 0 1) quad1 unitMesh
          (uniformState [0, 1])).gbar 0 = 4095 / 8192)
    ∧ (Evolve dims21 closureQ 1 7 1 0 1 quad1 unitMesh (uniformState [0, 1])).g 0
        = 34363932673 / 68727865344
    ∧ (Evolve dims21 closureQ 1 7 1 0 1 quad1 unitMesh (uniformState [0, 1])).g 0 ≠ 1 / 2 := by
  decide!

/-- C5 (cross-slope formula), the code at the failing input: two unit cells with
centres `x = 0, 1`, one velocity node, `effD = 1`, `gbarp = 1/2` in both cells, and
`gsigma = [0, 1]` before the call.  Every limited slope of this `gbarp` is 0, and so is
the cross-slope of the formula; `Step1b` writes `gsigma[0] = gsigma[1] = 0` but
`gsigma2[0] = 1/2`, computed from the value `gsigma[1] = 1` that the neighbour cell
still held from before the call. -/
theorem Step1b_cross_slope_at_failing_input :
    (Step1b dims21 closureQ (bufOf [1 / 2, 1 / 2]) zeroBuf 1 (bufOf [0, 1]) zeroBuf zeroBuf
        zeroBuf unitMesh zeroBuf zeroBuf).gsigma 0 = 0
    ∧ (Step1b dims21 closureQ (bufOf [1 / 2, 1 / 2]) zeroBuf 1 (bufOf [0, 1]) zeroBuf zeroBuf
        zeroBuf unitMesh zeroBuf zeroBuf).gsigma 1 = 0
    ∧ (Step1b dims21 closureQ (bufOf [1 / 2, 1 / 2]) zeroBuf 1 (bufOf [0, 1]) zeroBuf zeroBuf
        zeroBuf unitMesh zeroBuf zeroBuf).gsigma2 0 = 1 / 2
    ∧ refSigma2 dims21 closureQ (bufOf [1 / 2, 1 / 2]) unitMesh 0 0 0 0 0 0 0 0 = 0
    ∧ (Step1b dims21 closureQ (bufOf [1 / 2, 1 / 2]) zeroBuf 1 zeroBuf zeroBuf zeroBuf
        zeroBuf unitMesh zeroBuf zeroBuf).gsigma2 0 = 0 := by
  decide!

end StaleSlopes

/-! ## Claim C6: the half-step advection sum -/

section HalfStep

/-- C6 (half-step advection), the code at the failing input: one cell, `effD = 1`, a
velocity grid of `1 × 2 × 1` nodes with `Co_X = [1]`, `Co_Y = [-1, 1]`, `Co_Z = [0]`,
`dt = 1`, `gbarpbound = 0` and `gsigma2 = [0, 1]` (one entry per phase-space point).
At the first point the formula with `D = 1` term gives `gbar = 0`; `Step1c` adds
`Co_Y[0] * gsigma2[1]`, the entry of the other phase-space point, and writes `1/2`. -/
theorem Step1c_terms_at_failing_input :
    (Step1c dims1y2 zeroBuf zeroBuf zeroBuf zeroBuf 1 (bufOf [1]) (bufOf [-1, 1]) (bufOf [0])
        (bufOf [0, 1]) zeroBuf 1).gbar 0 = 1 / 2
    ∧ refGbar 1 zeroBuf (bufOf [0, 1]) 1 1 (-1) 0 (idx dims1y2 0 0 0 0 0 0) 0 = 0 := by
  decide!

end HalfStep

/-! ## Claims C7 and C8: interface moments -/

section InterfaceMoments

/-- C7 (interface momentum), the code at the failing input: one cell, one velocity node
`ξ = (1, 2, 0)` with `W(v) = 1`, `effD = 2`, `gbar = [3, 5]` (faces 0 and 1), and
`rhoh`, `rhovh`, `rhoEh` zero before the call.  The entry `rhovh[D*0 + 1]`, which
`Step2b` reads as component 0 on face 1, should be `ξ_0 * gbar(face 1) = 5`; `Step2a`
leaves `ξ_1 * gbar(face 0) = 6` there, and symmetrically `5` instead of `6` in
`rhovh[D*1 + 0]`. -/
theorem Step2a_rhovh_at_failing_input :
    ((Step2a dims11D2 (bufOf [3, 5]) zeroBuf (bufOf [1]) (bufOf [2]) (bufOf [0])
        (bufOf [1]) (bufOf [1]) (bufOf [1]) 1 zeroBuf zeroBuf zeroBuf).rhovh (2 * 0 + 1) = 6
      ∧ refRhovh dims11D2 (bufOf [3, 5]) (bufOf [1]) (bufOf [2]) (bufOf [0])
          (bufOf [1]) (bufOf [1]) (bufOf [1]) 0 0 0 0 1 = 5)
    ∧ ((Step2a dims11D2 (bufOf [3, 5]) zeroBuf (bufOf [1]) (bufOf [2]) (bufOf [0])
        (bufOf [1]) (bufOf [1]) (bufOf [1]) 1 zeroBuf zeroBuf zeroBuf).rhovh (2 * 1 + 0) = 5
      ∧ refRhovh dims11D2 (bufOf [3, 5]) (bufOf [1]) (bufOf [2]) (bufOf [0])
          (bufOf [1]) (bufOf [1]) (bufOf [1]) 0 0 0 1 0 = 6) := by
  decide!

/-- C8 (interface energy), the code at the failing input: one cell, one velocity node
with `W(v) = 1`, `effD = 2`, `bbar = [1, 1]`, and `rhoEh = [7, 7]` before the call.
The moment `Σ_v W(v)*bbar(s,v,Dim)` is 1 on both faces; `Step2a` zeroes only
`rhoEh[D*s + 0]` and returns `rhoEh = [1, 8]`. -/
theorem Step2a_rhoEh_at_failing_input :
    (Step2a dims11D2 zeroBuf (bufOf [1, 1]) (bufOf [1]) (bufOf [2]) (bufOf [0])
        (bufOf [1]) (bufOf [1]) (bufOf [1]) 1 zeroBuf zeroBuf (bufOf [7, 7])).rhoEh 0 = 1
    ∧ (Step2a dims11D2 zeroBuf (bufOf [1, 1]) (bufOf [1]) (bufOf [2]) (bufOf [0])
        (bufOf [1]) (bufOf [1]) (bufOf [1]) 1 zeroBuf zeroBuf (bufOf [7, 7])).rhoEh 1 = 8
    ∧ refRhoEh dims11D2 (bufOf [1, 1]) (bufOf [1]) (bufOf [1]) (bufOf [1]) 0 0 0 0 = 1
    ∧ refRhoEh dims11D2 (bufOf [1, 1]) (bufOf [1]) (bufOf [1]) (bufOf [1]) 0 0 0 1 = 1 := by
  decide!

end InterfaceMoments

/-! ## Claim C9: the temperature in the new energy equilibrium -/

section NewEquilibrium

/-- C9 (new energy equilibrium), the code at the failing input: one cell, one velocity
node `ξ = (1, 0, 1)` with unit weights, `effD = 1`, `dt = 1/4`, `Fg = Fb = 1`, old
state `rho = 1`, `rhov = 0`, `rhoE = 2`.  The old temperature is `8/5`, the temperature
of the updated state is `82/45`; the `b_eq` that enters the update of `b` is the new
`g_eq` times `(|ξ|² + (3-D+K)*R*To)/2` with the old temperature, not the new one. -/
theorem Step4and5_b_eq_at_failing_input :
    (Step4and5_locals dims11 closureQ (1 / 4) unitMesh (bufOf [1]) (bufOf [1])
        (bufOf [1]) (bufOf [0]) (bufOf [1]) (bufOf [1]) (bufOf [1]) 0 0 0 0 0 0
        { rho := bufOf [1], rhov := bufOf [0], rhoE := bufOf [2], g := bufOf [1],
          b := bufOf [1] }).To = 8 / 5
    ∧ (Step4and5_locals dims11 closureQ (1 / 4) unitMesh (bufOf [1]) (bufOf [1])
        (bufOf [1]) (bufOf [0]) (bufOf [1]) (bufOf [1]) (bufOf [1]) 0 0 0 0 0 0
        { rho := bufOf [1], rhov := bufOf [0], rhoE := bufOf [2], g := bufOf [1],
          b := bufOf [1] }).T = 82 / 45
    ∧ (Step4and5_locals dims11 closureQ (1 / 4) unitMesh (bufOf [1]) (bufOf [1])
        (bufOf [1]) (bufOf [0]) (bufOf [1]) (bufOf [1]) (bufOf [1]) 0 0 0 0 0 0
        { rho := bufOf [1], rhov := bufOf [0], rhoE := bufOf [2], g := bufOf [1],
          b := bufOf [1] }).b_eq
      = beqOf 1
          (Step4and5_locals dims11 closureQ (1 / 4) unitMesh (bufOf [1]) (bufOf [1])
            (bufOf [1]) (bufOf [0]) (bufOf [1]) (bufOf [1]) (bufOf [1]) 0 0 0 0 0 0
            { rho := bufOf [1], rhov := bufOf [0], rhoE := bufOf [2], g := bufOf [1],
              b := bufOf [1] }).g_eq 1 0 1 (8 / 5)
    ∧ (Step4and5_locals dims11 closureQ (1 / 4) unitMesh (bufOf [1]) (bufOf [1])
        (bufOf [1]) (bufOf [0]) (bufOf [1]) (bufOf [1]) (bufOf [1]) 0 0 0 0 0 0
        { rho := bufOf [1], rhov := bufOf [0], rhoE := bufOf [2], g := bufOf [1],
          b := bufOf [1] }).b_eq
      ≠ beqOf 1
          (Step4and5_locals dims11 closureQ (1 / 4) unitMesh (bufOf [1]) (bufOf [1])
            (bufOf [1]) (bufOf [0]) (bufOf [1]) (bufOf [1]) (bufOf [1]) 0 0 0 0 0 0
            { rho := bufOf [1], rhov := bufOf [0], rhoE := bufOf [2], g := bufOf [1],
              b := bufOf [1] }).g_eq 1 0 1 (82 / 45) := by
  decide!

end NewEquilibrium

/-! ## Claim C10: the time step -/

section TimeStepSelection

/-- C10 (time-step selection): whatever step `Evolve` is given, every stage is called
with `Evolve_dt = min(1/2048, dtdump, Tf - Tsim)`; whenever `dtdump > 0` and
`Tsim < Tf` this step is strictly positive, at most `dtdump` and at most `Tf - Tsim`. -/
theorem Evolve_time_step (d : Dims) (c : Closure F) (effD : Nat) (dt Tf Tsim dtdump : F)
    (q : Quad F) (mesh : Nat → Cell F) (B : Bufs F) :
    Evolve d c effD dt Tf Tsim dtdump q mesh B
        = Evolve_stage2 d c (Evolve_dt Tf Tsim dtdump) q mesh
            (Evolve_stage1 d c effD (Evolve_dt Tf Tsim dtdump) q mesh B)
      ∧ Evolve_dt Tf Tsim dtdump = min (1 / 2048) (min dtdump (Tf - Tsim))
      ∧ (0 < dtdump → Tsim < Tf →
          0 < Evolve_dt Tf Tsim dtdump ∧ Evolve_dt Tf Tsim dtdump ≤ dtdump
            ∧ Evolve_dt Tf Tsim dtdump ≤ Tf - Tsim) := by
  refine ⟨rfl, ?_, fun hdump hT => ⟨?_, ?_, ?_⟩⟩
  · unfold Evolve_dt TimeStep
    exact min_assoc _ _ _
  · unfold Evolve_dt TimeStep
    exact lt_min (lt_min (by norm_num) hdump) (sub_pos.mpr hT)
  · unfold Evolve_dt
    exact le_trans (min_le_left _ _) (min_le_right _ _)
  · unfold Evolve_dt
    exact min_le_right _ _

/-- C10 witness: with `dtdump = 1/4096`, `Tsim = 0`, `Tf = 1` the step is positive and
bounded by `dtdump` and by `Tf - Tsim`. -/
theorem Evolve_time_step_witness :
    (0 : ℚ) < Evolve_dt 1 0 (1 / 4096) ∧ Evolve_dt (1 : ℚ) 0 (1 / 4096) ≤ 1 / 4096
      ∧ Evolve_dt (1 : ℚ) 0 (1 / 4096) ≤ 1 - 0 :=
  (Evolve_time_step dims21 closureQ 1 7 1 0 (1 / 4096) quad1 unitMesh (uniformState [0, 0])).2.2
    (by norm_num) (by norm_num)

end TimeStepSelection

/-! ## Claim C11: the phase-space offset -/

section PhaseSpaceIndex

theorem add_mul_lt {n m a b : Nat} (ha : a < n) (hb : b < m) : a + n * b < n * m :=
  calc a + n * b < n + n * b := Nat.add_lt_add_right ha _
    _ = n * (b + 1) := by ring
    _ ≤ n * m := Nat.mul_le_mul_left n hb

theorem exists_add_mul {n m p : Nat} (hp : p < n * m) : ∃ a b, a < n ∧ b < m ∧ a + n * b = p := by
  have hn : 0 < n := by
    rcases Nat.eq_zero_or_pos n with h | h
    · rw [h, Nat.zero_mul] at hp
      exact absurd hp (Nat.not_lt_zero _)
    · exact h
  exact ⟨p % n, p / n, Nat.mod_lt _ hn, Nat.div_lt_of_lt_mul hp, Nat.mod_add_div p n⟩

/-- C11 (phase-space index): the offset `idx` that the stages compute equals
`s + N_s*v` with `s = i + Nx*j + Nx*Ny*k` and `v = vx + NVx*vy + NVx*NVy*vz`; on the
in-range tuples it stays below `N_s*N_v`, two tuples with the same offset coincide, and
every offset below `N_s*N_v` is the offset of an in-range tuple. -/
theorem idx_bijection (d : Dims) :
    (∀ i j k vx vy vz, idx d i j k vx vy vz
        = sidx d i j k + d.N0 * d.N1 * d.N2 * (vx + d.NV0 * vy + d.NV0 * d.NV1 * vz))
    ∧ (∀ i j k vx vy vz, i < d.N0 → j < d.N1 → k < d.N2 → vx < d.NV0 → vy < d.NV1 →
        vz < d.NV2 → idx d i j k vx vy vz < d.N0 * d.N1 * d.N2 * (d.NV0 * d.NV1 * d.NV2))
    ∧ (∀ i j k vx vy vz i' j' k' vx' vy' vz', i < d.N0 → j < d.N1 → k < d.N2 → vx < d.NV0 →
        vy < d.NV1 → vz < d.NV2 → i' < d.N0 → j' < d.N1 → k' < d.N2 → vx' < d.NV0 →
        vy' < d.NV1 → vz' < d.NV2 →
        idx d i j k vx vy vz = idx d i' j' k' vx' vy' vz' →
        i = i' ∧ j = j' ∧ k = k' ∧ vx = vx' ∧ vy = vy' ∧ vz = vz')
    ∧ (∀ p, p < d.N0 * d.N1 * d.N2 * (d.NV0 * d.NV1 * d.NV2) →
        ∃ i j k vx vy vz, i < d.N0 ∧ j < d.N1 ∧ k < d.N2 ∧ vx < d.NV0 ∧ vy < d.NV1 ∧
          vz < d.NV2 ∧ idx d i j k vx vy vz = p) := by
  refine ⟨?_, ?_, ?_, ?_⟩
  · intro i j k vx vy vz
    unfold idx sidx
    ring
  · intro i j k vx vy vz hi hj hk hvx hvy hvz
    rw [idx_nested]
    have h1 := add_mul_lt hvy hvz
    have h2 := add_mul_lt hvx h1
    have h3 := add_mul_lt hk h2
    have h4 := add_mul_lt hj h3
    have h5 := add_mul_lt hi h4
    calc i + d.N0 * (j + d.N1 * (k + d.N2 * (vx + d.NV0 * (vy + d.NV1 * vz))))
        < d.N0 * (d.N1 * (d.N2 * (d.NV0 * (d.NV1 * d.NV2)))) := h5
      _ = d.N0 * d.N1 * d.N2 * (d.NV0 * d.NV1 * d.NV2) := by ring
  · intro i j k vx vy vz i' j' k' vx' vy' vz' hi hj hk hvx hvy _ hi' hj' hk' hvx' hvy' _ h
    obtain ⟨⟨h1, h2, h3⟩, h4, h5, h6⟩ := idx_inj d hi hj hk hvx hvy hi' hj' hk' hvx' hvy' h
    exact ⟨h1, h2, h3, h4, h5, h6⟩
  · intro p hp
    have hp' : p < d.N0 * (d.N1 * (d.N2 * (d.NV0 * (d.NV1 * d.NV2)))) := by
      calc p < d.N0 * d.N1 * d.N2 * (d.NV0 * d.NV1 * d.NV2) := hp
        _ = d.N0 * (d.N1 * (d.N2 * (d.NV0 * (d.NV1 * d.NV2)))) := by ring
    obtain ⟨i, p1, hi, hp1, e1⟩ := exists_add_mul hp'
    obtain ⟨j, p2, hj, hp2, e2⟩ := exists_add_mul hp1
    obtain ⟨k, p3, hk, hp3, e3⟩ := exists_add_mul hp2
    obtain ⟨vx, p4, hvx, hp4, e4⟩ := exists_add_mul hp3
    obtain ⟨vy, vz, hvy, hvz, e5⟩ := exists_add_mul hp4
    refine ⟨i, j, k, vx, vy, vz, hi, hj, hk, hvx, hvy, hvz, ?_⟩
    rw [idx_nested, e5, e4, e3, e2, e1]

/-- C11 witness: on the grid of two cells and two velocity nodes the offset of the
last phase-space point is in bounds. -/
theorem idx_bijection_witness : idx dims22 1 0 0 1 0 0 < 2 * 1 * 1 * (2 * 1 * 1) :=
  (idx_bijection dims22).2.1 1 0 0 1 0 0 (by decide) (by decide) (by decide) (by decide)
    (by decide) (by decide)

end PhaseSpaceIndex

/-! ## Claims C12, C13, C14: the quadrature provider -/

section Quadrature

theorem CotesScaleX_eq (NV0 : Nat) (k0 : Int) (dh : F) (w : Nat → F) :
    CotesScaleX NV0 k0 dh w
      = Function.update w 0 (w 0 * (dh / 90) ^ ((NV0 : Int) - k0).toNat) := by
  unfold CotesScaleX
  induction ((NV0 : Int) - k0).toNat with
  | zero => simp [forLoop]
  | succ m ih =>
    rw [forLoop_succ, ih, Function.update_idem, Function.update_same, pow_succ, mul_assoc]

/-- C12 (quadrature weight identity), the code at the failing input: `NV = (5,1,1)`,
velocity box `[0,1]` on the active X axis, arrays zero before the call.  The check of
`Cotes` passes; whatever value the uninitialised `k` holds, the scaling loop of line 48
touches `Co_WX[0]` only, so `Co_WX[1..4]` stay at the unscaled `32, 12, 32, 7` and both
the sum of `Co_WX` and the sum of the tensor-product weights exceed 83, while
`Vmax[0] - Vmin[0] = 1`. -/
theorem Cotes_weights_at_failing_input (k0 : Int) :
    Cotes dimsV5 box01 k0 zeroQuad = some (CotesBody dimsV5 box01 k0 zeroQuad)
    ∧ box01.Vmax 0 - box01.Vmin 0 = 1
    ∧ (CotesBody dimsV5 box01 k0 zeroQuad).Co_WX 1 = 32
    ∧ 83 ≤ ∑ kx in Finset.range 5, (CotesBody dimsV5 box01 k0 zeroQuad).Co_WX kx
    ∧ 83 ≤ sum3 5 1 1 (fun vx vy vz =>
        W (CotesBody dimsV5 box01 k0 zeroQuad).Co_WX (CotesBody dimsV5 box01 k0 zeroQuad).Co_WY
          (CotesBody dimsV5 box01 k0 zeroQuad).Co_WZ vx vy vz) := by
  have hWX : (CotesBody dimsV5 box01 k0 zeroQuad).Co_WX
      = Function.update (CotesPattern 5 zeroBuf) 0
          (CotesPattern 5 zeroBuf 0
            * (CotesDh 5 (box01.Vmin 0) (box01.Vmax 0) / 90) ^ ((5 : Int) - k0).toNat) :=
    CotesScaleX_eq 5 k0 _ _
  have hWY : (CotesBody dimsV5 box01 k0 zeroQuad).Co_WY 0 = 1 := by
    simp [CotesBody, dimsV5]
  have hWZ : (CotesBody dimsV5 box01 k0 zeroQuad).Co_WZ 0 = 1 := by
    simp [CotesBody, dimsV5]
  have h0 : CotesPattern 5 zeroBuf 0 = 7 := by decide!
  have h1 : CotesPattern 5 zeroBuf 1 = 32 := by decide!
  have h2 : CotesPattern 5 zeroBuf 2 = 12 := by decide!
  have h3 : CotesPattern 5 zeroBuf 3 = 32 := by decide!
  have h4 : CotesPattern 5 zeroBuf 4 = 7 := by decide!
  have hdh : CotesDh 5 (box01.Vmin 0) (box01.Vmax 0) / 90 = (1 / 90 : ℚ) := by decide!
  have hpos : (0 : ℚ) ≤ 7 * (1 / 90) ^ ((5 : Int) - k0).toNat := by positivity
  have hsum : 83 ≤ ∑ kx in Finset.range 5, (CotesBody dimsV5 box01 k0 zeroQuad).Co_WX kx := by
    rw [hWX]
    simp only [Finset.sum_range_succ, Finset.sum_range_zero, Function.update_same, zero_add]
    rw [Function.update_noteq (by decide), Function.update_noteq (by decide),
      Function.update_noteq (by decide), Function.update_noteq (by decide), h0, h1, h2, h3, h4,
      hdh]
    linarith
  refine ⟨rfl, by decide!, ?_, hsum, ?_⟩
  · rw [hWX, Function.update_noteq (by decide), h1]
  · unfold sum3 W
    simp only [Finset.sum_range_one, hWY, hWZ, mul_one]
    exact hsum

/-- C13 (inactive-axis convention), the code at the failing input: `NV = (5,1,1)` with
every array entry equal to 5 before the call.  `Cotes` sets the weights `Co_WY[0]` and
`Co_WZ[0]` to 1 but never writes `Co_Z` when `NV[2] = 1`: `Co_Z[0]` is still 5. -/
theorem Cotes_inactive_axis_at_failing_input (k0 : Int) :
    Cotes dimsV5 box01 k0 fiveQuad = some (CotesBody dimsV5 box01 k0 fiveQuad)
    ∧ (CotesBody dimsV5 box01 k0 fiveQuad).Co_WY 0 = 1
    ∧ (CotesBody dimsV5 box01 k0 fiveQuad).Co_WZ 0 = 1
    ∧ (CotesBody dimsV5 box01 k0 fiveQuad).Co_Z 0 = 5 := by
  refine ⟨rfl, ?_, ?_, ?_⟩
  · simp [CotesBody, dimsV5]
  · simp [CotesBody, dimsV5]
  · simp [CotesBody, dimsV5, fiveQuad]

end Quadrature

/-! ## Loop nests in which every iteration updates one entry of one buffer -/

section Nests
variable {σ α : Type}

theorem loc_inj {n a a' Dim Dim' : Nat} (h : Dim < n) (h' : Dim' < n)
    (e : n * a + Dim = n * a' + Dim') : Dim = Dim' ∧ a = a' := by
  rw [Nat.add_comm (n * a), Nat.add_comm (n * a')] at e
  exact add_mul_inj h h' e

/-- Nest `i, j, k, vx, vy, vz, Dim` (stages 1b, 1c): if the step at a point rewrites
entry `n*idx + Dim` of the buffer `proj` by `f` and leaves its other entries alone,
then after the nest that entry is `f` of its initial content. -/
theorem nestA_at (d : Dims) (n : Nat) (proj : σ → Nat → α)
    (step : Nat → Nat → Nat → Nat → Nat → Nat → Nat → σ → σ)
    (f : Nat → Nat → Nat → Nat → Nat → Nat → Nat → α → α)
    (hstep : ∀ i j k vx vy vz Dim st, proj (step i j k vx vy vz Dim st)
      = Function.update (proj st) (n * idx d i j k vx vy vz + Dim)
          (f i j k vx vy vz Dim (proj st (n * idx d i j k vx vy vz + Dim))))
    {i j k vx vy vz Dim : Nat} (hi : i < d.N0) (hj : j < d.N1) (hk : k < d.N2)
    (hvx : vx < d.NV0) (hvy : vy < d.NV1) (hvz : vz < d.NV2) (hDim : Dim < n) (s0 : σ) :
    proj (loop3 d.N0 d.N1 d.N2 (fun i j k st =>
        loop3 d.NV0 d.NV1 d.NV2 (fun vx vy vz st2 =>
          forLoop n (step i j k vx vy vz) st2) st) s0) (n * idx d i j k vx vy vz + Dim)
      = f i j k vx vy vz Dim (proj s0 (n * idx d i j k vx vy vz + Dim)) := by
  have hother : ∀ i' j' k' vx' vy' vz' Dim' st,
      n * idx d i j k vx vy vz + Dim ≠ n * idx d i' j' k' vx' vy' vz' + Dim' →
      proj (step i' j' k' vx' vy' vz' Dim' st) (n * idx d i j k vx vy vz + Dim)
        = proj st (n * idx d i j k vx vy vz + Dim) := by
    intro i' j' k' vx' vy' vz' Dim' st hne
    rw [hstep, Function.update_noteq hne]
  refine loop3_obs_at (fun st : σ => proj st (n * idx d i j k vx vy vz + Dim))
    (f i j k vx vy vz Dim) d.N0 d.N1 d.N2 i j k _ hi hj hk (fun s => ?_)
    (fun i' j' k' hi' hj' hk' hne s => ?_) s0
  · refine loop3_obs_at (fun st : σ => proj st (n * idx d i j k vx vy vz + Dim))
      (f i j k vx vy vz Dim) d.NV0 d.NV1 d.NV2 vx vy vz _ hvx hvy hvz (fun s2 => ?_)
      (fun vx' vy' vz' hvx' hvy' _ hne s2 => ?_) s
    · refine forLoop_obs_at (fun st : σ => proj st (n * idx d i j k vx vy vz + Dim))
        (f i j k vx vy vz Dim) n Dim _ hDim (fun s3 => ?_) (fun Dim' hDim' hne s3 => ?_) s2
      · show proj (step i j k vx vy vz Dim s3) _ = _
        rw [hstep, Function.update_same]
      · exact hother i j k vx vy vz Dim' s3 (fun e => hne (loc_inj hDim hDim' e).1.symm)
    · refine forLoop_obs_id (fun st : σ => proj st (n * idx d i j k vx vy vz + Dim)) n _
        (fun Dim' hDim' s3 => ?_) s2
      refine hother i j k vx' vy' vz' Dim' s3 (fun e => hne ?_)
      exact (idx_inj d hi hj hk hvx' hvy' hi hj hk hvx hvy (loc_inj hDim hDim' e).2.symm).2
  · refine loop3_obs_id (fun st : σ => proj st (n * idx d i j k vx vy vz + Dim))
      d.NV0 d.NV1 d.NV2 _ (fun vx' vy' vz' hvx' hvy' _ s2 => ?_) s
    refine forLoop_obs_id (fun st : σ => proj st (n * idx d i j k vx vy vz + Dim)) n _
      (fun Dim' hDim' s3 => ?_) s2
    refine hother i' j' k' vx' vy' vz' Dim' s3 (fun e => hne ?_)
    exact (idx_inj d hi' hj' hk' hvx' hvy' hi hj hk hvx hvy (loc_inj hDim hDim' e).2.symm).1

/-- Nest `i, j, k, vx, vy, vz` (stage 1a): the entry `idx` of a buffer that the step at a
point rewrites by `f`. -/
theorem nest0_at (d : Dims) (proj : σ → Nat → α)
    (step : Nat → Nat → Nat → Nat → Nat → Nat → σ → σ)
    (f : Nat → Nat → Nat → Nat → Nat → Nat → α → α)
    (hstep : ∀ i j k vx vy vz st, proj (step i j k vx vy vz st)
      = Function.update (proj st) (idx d i j k vx vy vz)
          (f i j k vx vy vz (proj st (idx d i j k vx vy vz))))
    {i j k vx vy vz : Nat} (hi : i < d.N0) (hj : j < d.N1) (hk : k < d.N2)
    (hvx : vx < d.NV0) (hvy : vy < d.NV1) (hvz : vz < d.NV2) (s0 : σ) :
    proj (loop3 d.N0 d.N1 d.N2 (fun i j k st =>
        loop3 d.NV0 d.NV1 d.NV2 (fun vx vy vz st2 => step i j k vx vy vz st2) st) s0)
        (idx d i j k vx vy vz)
      = f i j k vx vy vz (proj s0 (idx d i j k vx vy vz)) := by
  have hother : ∀ i' j' k' vx' vy' vz' st,
      idx d i j k vx vy vz ≠ idx d i' j' k' vx' vy' vz' →
      proj (step i' j' k' vx' vy' vz' st) (idx d i j k vx vy vz)
        = proj st (idx d i j k vx vy vz) := by
    intro i' j' k' vx' vy' vz' st hne
    rw [hstep, Function.update_noteq hne]
  refine loop3_obs_at (fun st : σ => proj st (idx d i j k vx vy vz))
    (f i j k vx vy vz) d.N0 d.N1 d.N2 i j k _ hi hj hk (fun s => ?_)
    (fun i' j' k' hi' hj' hk' hne s => ?_) s0
  · refine loop3_obs_at (fun st : σ => proj st (idx d i j k vx vy vz))
      (f i j k vx vy vz) d.NV0 d.NV1 d.NV2 vx vy vz _ hvx hvy hvz (fun s2 => ?_)
      (fun vx' vy' vz' hvx' hvy' _ hne s2 => ?_) s
    · show proj (step i j k vx vy vz s2) _ = _
      rw [hstep, Function.update_same]
    · refine hother i j k vx' vy' vz' s2 (fun e => hne ?_)
      exact (idx_inj d hi hj hk hvx' hvy' hi hj hk hvx hvy e.symm).2
  · refine loop3_obs_id (fun st : σ => proj st (idx d i j k vx vy vz))
      d.NV0 d.NV1 d.NV2 _ (fun vx' vy' vz' hvx' hvy' _ s2 => ?_) s
    refine hother i' j' k' vx' vy' vz' s2 (fun e => hne ?_)
    exact (idx_inj d hi' hj' hk' hvx' hvy' hi hj hk hvx hvy e.symm).1

/-- Nest `i, j, k, dim2, vx, vy, vz` (stage 2b), with per-face locals `loc i j k dim2`
computed outside the velocity loops. -/
theorem nestB_at (d : Dims) (n : Nat) (proj : σ → Nat → α)
    (step : Nat → Nat → Nat → Nat → Nat → Nat → Nat → σ → σ)
    (f : Nat → Nat → Nat → Nat → Nat → Nat → Nat → α → α)
    (hstep : ∀ i j k dim2 vx vy vz st, proj (step i j k dim2 vx vy vz st)
      = Function.update (proj st) (n * idx d i j k vx vy vz + dim2)
          (f i j k dim2 vx vy vz (proj st (n * idx d i j k vx vy vz + dim2))))
    {i j k vx vy vz dim2 : Nat} (hi : i < d.N0) (hj : j < d.N1) (hk : k < d.N2)
    (hvx : vx < d.NV0) (hvy : vy < d.NV1) (hvz : vz < d.NV2) (hDim : dim2 < n) (s0 : σ) :
    proj (loop3 d.N0 d.N1 d.N2 (fun i j k st =>
        forLoop n (fun dim2 st1 =>
          loop3 d.NV0 d.NV1 d.NV2 (fun vx vy vz st2 => step i j k dim2 vx vy vz st2) st1) st) s0)
        (n * idx d i j k vx vy vz + dim2)
      = f i j k dim2 vx vy vz (proj s0 (n * idx d i j k vx vy vz + dim2)) := by
  have hother : ∀ i' j' k' dim2' vx' vy' vz' st,
      n * idx d i j k vx vy vz + dim2 ≠ n * idx d i' j' k' vx' vy' vz' + dim2' →
      proj (step i' j' k' dim2' vx' vy' vz' st) (n * idx d i j k vx vy vz + dim2)
        = proj st (n * idx d i j k vx vy vz + dim2) := by
    intro i' j' k' dim2' vx' vy' vz' st hne
    rw [hstep, Function.update_noteq hne]
  refine loop3_obs_at (fun st : σ => proj st (n * idx d i j k vx vy vz + dim2))
    (f i j k dim2 vx vy vz) d.N0 d.N1 d.N2 i j k _ hi hj hk (fun s => ?_)
    (fun i' j' k' hi' hj' hk' hne s => ?_) s0
  · refine forLoop_obs_at (fun st : σ => proj st (n * idx d i j k vx vy vz + dim2))
      (f i j k dim2 vx vy vz) n dim2 _ hDim (fun s1 => ?_) (fun dim2' hDim' hne s1 => ?_) s
    · refine loop3_obs_at (fun st : σ => proj st (n * idx d i j k vx vy vz + dim2))
        (f i j k dim2 vx vy vz) d.NV0 d.NV1 d.NV2 vx vy vz _ hvx hvy hvz (fun s2 => ?_)
        (fun vx' vy' vz' hvx' hvy' _ hne s2 => ?_) s1
      · show proj (step i j k dim2 vx vy vz s2) _ = _
        rw [hstep, Function.update_same]
      · refine hother i j k dim2 vx' vy' vz' s2 (fun e => hne ?_)
        exact (idx_inj d hi hj hk hvx' hvy' hi hj hk hvx hvy (loc_inj hDim hDim e).2.symm).2
    · refine loop3_obs_id (fun st : σ => proj st (n * idx d i j k vx vy vz + dim2))
        d.NV0 d.NV1 d.NV2 _ (fun vx' vy' vz' _ _ _ s2 => ?_) s1
      exact hother i j k dim2' vx' vy' vz' s2 (fun e => hne (loc_inj hDim hDim' e).1.symm)
  · refine forLoop_obs_id (fun st : σ => proj st (n * idx d i j k vx vy vz + dim2)) n _
      (fun dim2' hDim' s1 => ?_) s
    refine loop3_obs_id (fun st : σ => proj st (n * idx d i j k vx vy vz + dim2))
      d.NV0 d.NV1 d.NV2 _ (fun vx' vy' vz' hvx' hvy' _ s2 => ?_) s1
    refine hother i' j' k' dim2' vx' vy' vz' s2 (fun e => hne ?_)
    exact (idx_inj d hi' hj' hk' hvx' hvy' hi hj hk hvx hvy (loc_inj hDim hDim' e).2.symm).1

end Nests

/-! ## What `Step1b` writes: claims C15 and C16 -/

section Reconstruction

theorem Step1b_dim2_keep (d : Dims) (c : Closure F) (effD : Nat) (mesh : Nat → Cell F)
    (i j k vx vy vz Dim n : Nat) (st : Out1b F) :
    (forLoop n (Step1b_dim2 d c effD mesh i j k vx vy vz Dim) st).gsigma = st.gsigma
    ∧ (forLoop n (Step1b_dim2 d c effD mesh i j k vx vy vz Dim) st).bsigma = st.bsigma
    ∧ (forLoop n (Step1b_dim2 d c effD mesh i j k vx vy vz Dim) st).gbarpbound = st.gbarpbound
    ∧ (forLoop n (Step1b_dim2 d c effD mesh i j k vx vy vz Dim) st).bbarpbound
        = st.bbarpbound :=
  ⟨forLoop_obs_id (fun s : Out1b F => s.gsigma) n
     (Step1b_dim2 d c effD mesh i j k vx vy vz Dim) (fun _ _ _ => rfl) st,
   forLoop_obs_id (fun s : Out1b F => s.bsigma) n
     (Step1b_dim2 d c effD mesh i j k vx vy vz Dim) (fun _ _ _ => rfl) st,
   forLoop_obs_id (fun s : Out1b F => s.gbarpbound) n
     (Step1b_dim2 d c effD mesh i j k vx vy vz Dim) (fun _ _ _ => rfl) st,
   forLoop_obs_id (fun s : Out1b F => s.bbarpbound) n
     (Step1b_dim2 d c effD mesh i j k vx vy vz Dim) (fun _ _ _ => rfl) st⟩

theorem Step1b_dim_gsigma (d : Dims) (c : Closure F) (effD : Nat) (gbarp bbarp : Nat → F)
    (mesh : Nat → Cell F) (i j k vx vy vz Dim : Nat) (st : Out1b F) :
    (Step1b_dim d c effD gbarp bbarp mesh i j k vx vy vz Dim st).gsigma
      = Function.update st.gsigma (effD * idx d i j k vx vy vz + Dim)
          (refSigma d c gbarp mesh i j k vx vy vz Dim) := by
  simp only [Step1b_dim]
  rw [(Step1b_dim2_keep d c effD mesh i j k vx vy vz Dim effD _).1]
  rfl

theorem Step1b_dim_bsigma (d : Dims) (c : Closure F) (effD : Nat) (gbarp bbarp : Nat → F)
    (mesh : Nat → Cell F) (i j k vx vy vz Dim : Nat) (st : Out1b F) :
    (Step1b_dim d c effD gbarp bbarp mesh i j k vx vy vz Dim st).bsigma
      = Function.update st.bsigma (effD * idx d i j k vx vy vz + Dim)
          (refSigma d c bbarp mesh i j k vx vy vz Dim) := by
  simp only [Step1b_dim]
  rw [(Step1b_dim2_keep d c effD mesh i j k vx vy vz Dim effD _).2.1]
  rfl

theorem Step1b_dim_gbarpbound (d : Dims) (c : Closure F) (effD : Nat) (gbarp bbarp : Nat → F)
    (mesh : Nat → Cell F) (i j k vx vy vz Dim : Nat) (st : Out1b F) :
    (Step1b_dim d c effD gbarp bbarp mesh i j k vx vy vz Dim st).gbarpbound
      = Function.update st.gbarpbound (effD * idx d i j k vx vy vz + Dim)
          (gbarp (idx d i j k vx vy vz)
            + vec3 (mesh (sidx d i j k)).dx (mesh (sidx d i j k)).dy (mesh (sidx d i j k)).dz Dim
                / 2 * refSigma d c gbarp mesh i j k vx vy vz Dim) := by
  simp only [Step1b_dim]
  rw [(Step1b_dim2_keep d c effD mesh i j k vx vy vz Dim effD _).1,
    (Step1b_dim2_keep d c effD mesh i j k vx vy vz Dim effD _).2.2.1]
  simp only [Function.update_same]
  rfl

theorem Step1b_dim_bbarpbound (d : Dims) (c : Closure F) (effD : Nat) (gbarp bbarp : Nat → F)
    (mesh : Nat → Cell F) (i j k vx vy vz Dim : Nat) (st : Out1b F) :
    (Step1b_dim d c effD gbarp bbarp mesh i j k vx vy vz Dim st).bbarpbound
      = Function.update st.bbarpbound (effD * idx d i j k vx vy vz + Dim)
          (bbarp (idx d i j k vx vy vz)
            + vec3 (mesh (sidx d i j k)).dx (mesh (sidx d i j k)).dy (mesh (sidx d i j k)).dz Dim
                / 2 * refSigma d c bbarp mesh i j k vx vy vz Dim) := by
  simp only [Step1b_dim]
  rw [(Step1b_dim2_keep d c effD mesh i j k vx vy vz Dim effD _).2.1,
    (Step1b_dim2_keep d c effD mesh i j k vx vy vz Dim effD _).2.2.2]
  simp only [Function.update_same]
  rfl

/-- After `Step1b`, the slope entries of every in-range point are the limited slopes of
`gbarp`, `bbarp`, and the face entries are the extrapolations with those slopes. -/
theorem Step1b_at (d : Dims) (c : Closure F) (gbarp bbarp : Nat → F) (effD : Nat)
    (gsigma bsigma gsigma2 bsigma2 : Nat → F) (mesh : Nat → Cell F)
    (gbarpbound bbarpbound : Nat → F) {i j k vx vy vz Dim : Nat}
    (hi : i < d.N0) (hj : j < d.N1) (hk : k < d.N2)
    (hvx : vx < d.NV0) (hvy : vy < d.NV1) (hvz : vz < d.NV2) (hDim : Dim < effD) :
    (Step1b d c gbarp bbarp effD gsigma bsigma gsigma2 bsigma2 mesh gbarpbound
        bbarpbound).gsigma (effD * idx d i j k vx vy vz + Dim)
      = refSigma d c gbarp mesh i j k vx vy vz Dim
    ∧ (Step1b d c gbarp bbarp effD gsigma bsigma gsigma2 bsigma2 mesh gbarpbound
        bbarpbound).bsigma (effD * idx d i j k vx vy vz + Dim)
      = refSigma d c bbarp mesh i j k vx vy vz Dim
    ∧ (Step1b d c gbarp bbarp effD gsigma bsigma gsigma2 bsigma2 mesh gbarpbound
        bbarpbound).gbarpbound (effD * idx d i j k vx vy vz + Dim)
      = gbarp (idx d i j k vx vy vz)
        + vec3 (mesh (sidx d i j k)).dx (mesh (sidx d i j k)).dy (mesh (sidx d i j k)).dz Dim
            / 2 * refSigma d c gbarp mesh i j k vx vy vz Dim
    ∧ (Step1b d c gbarp bbarp effD gsigma bsigma gsigma2 bsigma2 mesh gbarpbound
        bbarpbound).bbarpbound (effD * idx d i j k vx vy vz + Dim)
      = bbarp (idx d i j k vx vy vz)
        + vec3 (mesh (sidx d i j k)).dx (mesh (sidx d i j k)).dy (mesh (sidx d i j k)).dz Dim
            / 2 * refSigma d c bbarp mesh i j k vx vy vz Dim := by
  unfold Step1b
  refine ⟨?_, ?_, ?_, ?_⟩
  · exact nestA_at d effD (fun s : Out1b F => s.gsigma)
      (Step1b_dim d c effD gbarp bbarp mesh)
      (fun i j k vx vy vz Dim _ => refSigma d c gbarp mesh i j k vx vy vz Dim)
      (fun i j k vx vy vz Dim st => Step1b_dim_gsigma d c effD gbarp bbarp mesh i j k vx vy vz Dim st)
      hi hj hk hvx hvy hvz hDim _
  · exact nestA_at d effD (fun s : Out1b F => s.bsigma)
      (Step1b_dim d c effD gbarp bbarp mesh)
      (fun i j k vx vy vz Dim _ => refSigma d c bbarp mesh i j k vx vy vz Dim)
      (fun i j k vx vy vz Dim st => Step1b_dim_bsigma d c effD gbarp bbarp mesh i j k vx vy vz Dim st)
      hi hj hk hvx hvy hvz hDim _
  · exact nestA_at d effD (fun s : Out1b F => s.gbarpbound)
      (Step1b_dim d c effD gbarp bbarp mesh)
      (fun i j k vx vy vz Dim _ => gbarp (idx d i j k vx vy vz)
        + vec3 (mesh (sidx d i j k)).dx (mesh (sidx d i j k)).dy (mesh (sidx d i j k)).dz Dim
            / 2 * refSigma d c gbarp mesh i j k vx vy vz Dim)
      (fun i j k vx vy vz Dim st =>
        Step1b_dim_gbarpbound d c effD gbarp bbarp mesh i j k vx vy vz Dim st)
      hi hj hk hvx hvy hvz hDim _
  · exact nestA_at d effD (fun s : Out1b F => s.bbarpbound)
      (Step1b_dim d c effD gbarp bbarp mesh)
      (fun i j k vx vy vz Dim _ => bbarp (idx d i j k vx vy vz)
        + vec3 (mesh (sidx d i j k)).dx (mesh (sidx d i j k)).dy (mesh (sidx d i j k)).dz Dim
            / 2 * refSigma d c bbarp mesh i j k vx vy vz Dim)
      (fun i j k vx vy vz Dim st =>
        Step1b_dim_bbarpbound d c effD gbarp bbarp mesh i j k vx vy vz Dim st)
      hi hj hk hvx hvy hvz hDim _

theorem lowerNb_one (i : Nat) (hi : i < 1) : lowerNb 1 i = i := by
  have h : i = 0 := by omega
  subst h
  exact lowerNb_zero 0

theorem upperNb_one (i : Nat) (hi : i < 1) : upperNb 1 i = i := by
  unfold upperNb
  omega

/-- Along an axis of extent 1 the limited slope of any buffer vanishes, for a limiter
that returns 0 on three equal samples. -/
theorem refSigma_degenerate (d : Dims) (c : Closure F)
    (hlim : ∀ phi xL xC xR, c.VanLeer phi phi phi xL xC xR = 0) (buf : Nat → F)
    (mesh : Nat → Cell F) {i j k : Nat} (vx vy vz : Nat) {Dim : Nat}
    (hi : i < d.N0) (hj : j < d.N1) (hk : k < d.N2)
    (hdeg : (Dim = 0 ∧ d.N0 = 1) ∨ (Dim = 1 ∧ d.N1 = 1) ∨ (Dim = 2 ∧ d.N2 = 1)) :
    refSigma d c buf mesh i j k vx vy vz Dim = 0 := by
  unfold refSigma
  rcases hdeg with ⟨h, hn⟩ | ⟨h, hn⟩ | ⟨h, hn⟩
  · subst h
    rw [hn] at hi
    simp only [hn, if_true, lowerNb_one i hi, upperNb_one i hi, OfNat.zero_ne_ofNat, if_false,
      zero_ne_one]
    exact hlim _ _ _ _
  · subst h
    rw [hn] at hj
    simp only [hn, if_true, lowerNb_one j hj, upperNb_one j hj, OfNat.one_ne_ofNat, if_false,
      one_ne_zero]
    exact hlim _ _ _ _
  · subst h
    rw [hn] at hk
    simp only [hn, if_true, lowerNb_one k hk, upperNb_one k hk, OfNat.ofNat_ne_zero,
      OfNat.ofNat_ne_one, if_false]
    exact hlim _ _ _ _

/-- C15 (degenerate axis): on an axis `Dim < effD` of extent `N_Dim = 1` the periodic
lower and upper neighbours of a cell are the cell itself, and for any limiter that
returns 0 on three equal samples `Step1b` leaves `gsigma(s,v,Dim) = 0` and
`bsigma(s,v,Dim) = 0` at every in-range `(s,v)`, hence
`gbarpbound(s,v,Dim) = gbarp(s,v)` and `bbarpbound(s,v,Dim) = bbarp(s,v)`. -/
theorem Step1b_degenerate_axis (d : Dims) (c : Closure F)
    (hlim : ∀ phi xL xC xR, c.VanLeer phi phi phi xL xC xR = 0)
    (gbarp bbarp : Nat → F) (effD : Nat) (gsigma bsigma gsigma2 bsigma2 : Nat → F)
    (mesh : Nat → Cell F) (gbarpbound bbarpbound : Nat → F) {i j k vx vy vz Dim : Nat}
    (hi : i < d.N0) (hj : j < d.N1) (hk : k < d.N2)
    (hvx : vx < d.NV0) (hvy : vy < d.NV1) (hvz : vz < d.NV2) (hDim : Dim < effD)
    (hdeg : (Dim = 0 ∧ d.N0 = 1) ∨ (Dim = 1 ∧ d.N1 = 1) ∨ (Dim = 2 ∧ d.N2 = 1)) :
    ((Dim = 0 → lowerNb d.N0 i = i ∧ upperNb d.N0 i = i)
      ∧ (Dim = 1 → lowerNb d.N1 j = j ∧ upperNb d.N1 j = j)
      ∧ (Dim = 2 → lowerNb d.N2 k = k ∧ upperNb d.N2 k = k))
    ∧ (Step1b d c gbarp bbarp effD gsigma bsigma gsigma2 bsigma2 mesh gbarpbound
        bbarpbound).gsigma (effD * idx d i j k vx vy vz + Dim) = 0
    ∧ (Step1b d c gbarp bbarp effD gsigma bsigma gsigma2 bsigma2 mesh gbarpbound
        bbarpbound).bsigma (effD * idx d i j k vx vy vz + Dim) = 0
    ∧ (Step1b d c gbarp bbarp effD gsigma bsigma gsigma2 bsigma2 mesh gbarpbound
        bbarpbound).gbarpbound (effD * idx d i j k vx vy vz + Dim)
      = gbarp (idx d i j k vx vy vz)
    ∧ (Step1b d c gbarp bbarp effD gsigma bsigma gsigma2 bsigma2 mesh gbarpbound
        bbarpbound).bbarpbound (effD * idx d i j k vx vy vz + Dim)
      = bbarp (idx d i j k vx vy vz) := by
  obtain ⟨h1, h2, h3, h4⟩ := Step1b_at d c gbarp bbarp effD gsigma bsigma gsigma2 bsigma2 mesh
    gbarpbound bbarpbound hi hj hk hvx hvy hvz hDim
  have hg := refSigma_degenerate d c hlim gbarp mesh vx vy vz hi hj hk hdeg
  have hb := refSigma_degenerate d c hlim bbarp mesh vx vy vz hi hj hk hdeg
  refine ⟨⟨?_, ?_, ?_⟩, ?_, ?_, ?_, ?_⟩
  · intro h0
    have hn : d.N0 = 1 := by
      rcases hdeg with ⟨_, hn⟩ | ⟨h, _⟩ | ⟨h, _⟩
      · exact hn
      · omega
      · omega
    rw [hn] at hi ⊢
    exact ⟨lowerNb_one i hi, upperNb_one i hi⟩
  · intro h0
    have hn : d.N1 = 1 := by
      rcases hdeg with ⟨h, _⟩ | ⟨_, hn⟩ | ⟨h, _⟩
      · omega
      · exact hn
      · omega
    rw [hn] at hj ⊢
    exact ⟨lowerNb_one j hj, upperNb_one j hj⟩
  · intro h0
    have hn : d.N2 = 1 := by
      rcases hdeg with ⟨h, _⟩ | ⟨h, _⟩ | ⟨_, hn⟩
      · omega
      · omega
      · exact hn
    rw [hn] at hk ⊢
    exact ⟨lowerNb_one k hk, upperNb_one k hk⟩
  · rw [h1, hg]
  · rw [h2, hb]
  · rw [h3, hg, mul_zero, add_zero]
  · rw [h4, hb, mul_zero, add_zero]

theorem VanLeerSpec_equal (phi xL xC xR : F) : VanLeerSpec phi phi phi xL xC xR = 0 := by
  simp [VanLeerSpec]

/-- C15 witness: one cell (`N = (1,1,1)`), the limiter of the specification, arbitrary
buffer contents: the slope along axis 0 vanishes and the face value is the cell value. -/
theorem Step1b_degenerate_axis_witness :
    (Step1b dims11 closureQ (bufOf [3]) (bufOf [4]) 1 (bufOf [5]) (bufOf [6]) zeroBuf zeroBuf
        unitMesh (bufOf [7]) (bufOf [8])).gsigma (1 * idx dims11 0 0 0 0 0 0 + 0) = 0
    ∧ (Step1b dims11 closureQ (bufOf [3]) (bufOf [4]) 1 (bufOf [5]) (bufOf [6]) zeroBuf zeroBuf
        unitMesh (bufOf [7]) (bufOf [8])).gbarpbound (1 * idx dims11 0 0 0 0 0 0 + 0)
      = bufOf [3] (idx dims11 0 0 0 0 0 0) :=
  have h := Step1b_degenerate_axis dims11 closureQ
    (fun phi xL xC xR => VanLeerSpec_equal phi xL xC xR)
    (bufOf [3]) (bufOf [4]) 1 (bufOf [5]) (bufOf [6]) zeroBuf zeroBuf unitMesh (bufOf [7])
    (bufOf [8]) (by decide : 0 < dims11.N0) (by decide : 0 < dims11.N1)
    (by decide : 0 < dims11.N2) (by decide : 0 < dims11.NV0) (by decide : 0 < dims11.NV1)
    (by decide : 0 < dims11.NV2) (by decide : 0 < 1) (Or.inl ⟨rfl, rfl⟩)
  ⟨h.2.1, h.2.2.2.1⟩

/-- C16 (face extrapolation): after `Step1b`, at every in-range cell and velocity node
and every axis `Dim < effD`, `gbarpbound(s,v,Dim) = gbarp(s,v) + (dx_Dim/2)*gsigma(s,v,Dim)`
and `bbarpbound(s,v,Dim) = bbarp(s,v) + (dx_Dim/2)*bsigma(s,v,Dim)` with the slopes held
after the call and `dx_Dim` the extent of the cell along `Dim`; `Step1b` only reads
`gbarp` and `bbarp`: after stages 1a-1c of `Evolve` they are what `Step1a` wrote. -/
theorem Step1b_face_extrapolation (d : Dims) (c : Closure F) (gbarp bbarp : Nat → F)
    (effD : Nat) (gsigma bsigma gsigma2 bsigma2 : Nat → F) (mesh : Nat → Cell F)
    (gbarpbound bbarpbound : Nat → F) {i j k vx vy vz Dim : Nat}
    (hi : i < d.N0) (hj : j < d.N1) (hk : k < d.N2)
    (hvx : vx < d.NV0) (hvy : vy < d.NV1) (hvz : vz < d.NV2) (hDim : Dim < effD) :
    (Step1b d c gbarp bbarp effD gsigma bsigma gsigma2 bsigma2 mesh gbarpbound
        bbarpbound).gbarpbound (effD * idx d i j k vx vy vz + Dim)
      = gbarp (idx d i j k vx vy vz)
        + vec3 (mesh (sidx d i j k)).dx (mesh (sidx d i j k)).dy (mesh (sidx d i j k)).dz Dim
            / 2 * (Step1b d c gbarp bbarp effD gsigma bsigma gsigma2 bsigma2 mesh gbarpbound
              bbarpbound).gsigma (effD * idx d i j k vx vy vz + Dim)
    ∧ (Step1b d c gbarp bbarp effD gsigma bsigma gsigma2 bsigma2 mesh gbarpbound
        bbarpbound).bbarpbound (effD * idx d i j k vx vy vz + Dim)
      = bbarp (idx d i j k vx vy vz)
        + vec3 (mesh (sidx d i j k)).dx (mesh (sidx d i j k)).dy (mesh (sidx d i j k)).dz Dim
            / 2 * (Step1b d c gbarp bbarp effD gsigma bsigma gsigma2 bsigma2 mesh gbarpbound
              bbarpbound).bsigma (effD * idx d i j k vx vy vz + Dim)
    ∧ (∀ (dt : F) (q : Quad F) (B : Bufs F),
        (Evolve_stage1 d c effD dt q mesh B).gbarp
          = (Step1a d c B.g B.b B.gbarp B.bbarp B.Sg B.Sb B.rho B.rhov B.rhoE effD dt
              q.Co_X q.Co_Y q.Co_Z).gbarp
        ∧ (Evolve_stage1 d c effD dt q mesh B).bbarp
          = (Step1a d c B.g B.b B.gbarp B.bbarp B.Sg B.Sb B.rho B.rhov B.rhoE effD dt
              q.Co_X q.Co_Y q.Co_Z).bbarp) := by
  obtain ⟨h1, h2, h3, h4⟩ := Step1b_at d c gbarp bbarp effD gsigma bsigma gsigma2 bsigma2 mesh
    gbarpbound bbarpbound hi hj hk hvx hvy hvz hDim
  exact ⟨by rw [h3, h1], by rw [h4, h2], fun _ _ _ => ⟨rfl, rfl⟩⟩

/-- C16 witness: two unit cells, non-uniform `gbarp`, stale slope and face buffers. -/
theorem Step1b_face_extrapolation_witness :
    (Step1b dims21 closureQ (bufOf [1, 3]) (bufOf [2, 5]) 1 (bufOf [0, 1]) (bufOf [6, 6])
        zeroBuf zeroBuf unitMesh (bufOf [7, 7]) (bufOf [8, 8])).gbarpbound
          (1 * idx dims21 1 0 0 0 0 0 + 0)
      = bufOf [1, 3] (idx dims21 1 0 0 0 0 0)
        + vec3 (unitMesh (sidx dims21 1 0 0)).dx (unitMesh (sidx dims21 1 0 0)).dy
            (unitMesh (sidx dims21 1 0 0)).dz 0
            / 2 * (Step1b dims21 closureQ (bufOf [1, 3]) (bufOf [2, 5]) 1 (bufOf [0, 1])
              (bufOf [6, 6]) zeroBuf zeroBuf unitMesh (bufOf [7, 7]) (bufOf [8, 8])).gsigma
                (1 * idx dims21 1 0 0 0 0 0 + 0) :=
  (Step1b_face_extrapolation dims21 closureQ (bufOf [1, 3]) (bufOf [2, 5]) 1 (bufOf [0, 1])
    (bufOf [6, 6]) zeroBuf zeroBuf unitMesh (bufOf [7, 7]) (bufOf [8, 8])
    (by decide : 1 < dims21.N0) (by decide : 0 < dims21.N1) (by decide : 0 < dims21.N2)
    (by decide : 0 < dims21.NV0) (by decide : 0 < dims21.NV1) (by decide : 0 < dims21.NV2)
    (by decide : 0 < 1)).1

end Reconstruction

/-! ## Claim C17: flux telescoping -/

section FluxTelescoping

theorem Step2c_dim_Fb_other (d : Dims) (gbar bbar Xi A : Nat → F) (i j k vx vy vz dim q : Nat)
    (hq : q ≠ idx d i j k vx vy vz) (st : Flux F) :
    (Step2c_dim d gbar bbar Xi A i j k vx vy vz dim st).Fb q = st.Fb q := by
  simp only [Step2c_dim]
  exact Function.update_noteq hq _ _

theorem Step2c_body_Fb_other (d : Dims) (gbar bbar Co_X Co_Y Co_Z : Nat → F)
    (mesh : Nat → Cell F) (i j k vx vy vz q : Nat) (hq : q ≠ idx d i j k vx vy vz)
    (st : Flux F) :
    (Step2c_body d gbar bbar Co_X Co_Y Co_Z mesh i j k vx vy vz st).Fb q = st.Fb q := by
  simp only [Step2c_body]
  rw [forLoop_obs_id (fun s : Flux F => s.Fb q) d.effD _
    (fun dim _ s => Step2c_dim_Fb_other d gbar bbar _ _ i j k vx vy vz dim q hq s)]
  exact Function.update_noteq hq _ _

theorem Step2c_body_Fb_self (d : Dims) (gbar bbar Co_X Co_Y Co_Z : Nat → F)
    (mesh : Nat → Cell F) (i j k vx vy vz : Nat) (st : Flux F) :
    (Step2c_body d gbar bbar Co_X Co_Y Co_Z mesh i j k vx vy vz st).Fb (idx d i j k vx vy vz)
      = ∑ dim in Finset.range d.effD, fluxTerm d bbar Co_X Co_Y Co_Z mesh i j k vx vy vz dim := by
  simp only [Step2c_body]
  rw [forLoop_obs (fun s : Flux F => s.Fb (idx d i j k vx vy vz))
    (fun dim x => x + fluxTerm d bbar Co_X Co_Y Co_Z mesh i j k vx vy vz dim) d.effD _
    (fun dim _ s => by simp only [Step2c_dim, Function.update_same, fluxTerm])]
  rw [forLoop_add_sum]
  simp only [Function.update_same, zero_add]

/-- After `Step2c`, the energy flux at every in-range phase-space point is the sum of
its `effD` axis contributions, whatever `Fb` held before. -/
theorem Step2c_Fb_at (d : Dims) (gbar bbar Co_X Co_Y Co_Z : Nat → F) (mesh : Nat → Cell F)
    (Fg Fb : Nat → F) {i j k vx vy vz : Nat} (hi : i < d.N0) (hj : j < d.N1) (hk : k < d.N2)
    (hvx : vx < d.NV0) (hvy : vy < d.NV1) (hvz : vz < d.NV2) :
    (Step2c d gbar bbar Co_X Co_Y Co_Z mesh Fg Fb).Fb (idx d i j k vx vy vz)
      = ∑ dim in Finset.range d.effD, fluxTerm d bbar Co_X Co_Y Co_Z mesh i j k vx vy vz dim := by
  unfold Step2c
  refine loop3_obs_at (fun s : Flux F => s.Fb (idx d i j k vx vy vz)) (fun _ => _)
    d.N0 d.N1 d.N2 i j k _ hi hj hk (fun s => ?_) (fun i' j' k' hi' hj' hk' hne s => ?_) _
  · refine loop3_obs_at (fun s : Flux F => s.Fb (idx d i j k vx vy vz)) (fun _ => _)
      d.NV0 d.NV1 d.NV2 vx vy vz _ hvx hvy hvz (fun s2 => ?_)
      (fun vx' vy' vz' hvx' hvy' _ hne s2 => ?_) s
    · exact Step2c_body_Fb_self d gbar bbar Co_X Co_Y Co_Z mesh i j k vx vy vz s2
    · refine Step2c_body_Fb_other d gbar bbar Co_X Co_Y Co_Z mesh i j k vx' vy' vz' _ ?_ s2
      intro e
      exact hne (idx_inj d hi hj hk hvx' hvy' hi hj hk hvx hvy e.symm).2
  · refine loop3_obs_id (fun s : Flux F => s.Fb (idx d i j k vx vy vz)) d.NV0 d.NV1 d.NV2 _
      (fun vx' vy' vz' hvx' hvy' _ s2 => ?_) s
    refine Step2c_body_Fb_other d gbar bbar Co_X Co_Y Co_Z mesh i' j' k' vx' vy' vz' _ ?_ s2
    intro e
    exact hne (idx_inj d hi' hj' hk' hvx' hvy' hi hj hk hvx hvy e.symm).1

/-- C17 (flux telescoping): on a periodic mesh whose cells all share the same `dx`,
`dy`, `dz`, for `effD` in {1,2,3}, every in-range velocity node and every content of
`gbar`, `bbar`, the fluxes written by `Step2c` sum to zero over the cells:
`Σ_s Fg(s,v) = 0` and `Σ_s Fb(s,v) = 0`. -/
theorem flux_telescoping (d : Dims) (hD : d.effD = 1 ∨ d.effD = 2 ∨ d.effD = 3)
    (gbar bbar Co_X Co_Y Co_Z : Nat → F) (mesh : Nat → Cell F) (dx dy dz : F)
    (hmesh : UniformMesh d mesh dx dy dz) (Fg0 Fb0 : Nat → F) {vx vy vz : Nat}
    (hvx : vx < d.NV0) (hvy : vy < d.NV1) (hvz : vz < d.NV2) :
    sum3 d.N0 d.N1 d.N2 (fun i j k =>
        (Step2c d gbar bbar Co_X Co_Y Co_Z mesh Fg0 Fb0).Fg (idx d i j k vx vy vz)) = 0
    ∧ sum3 d.N0 d.N1 d.N2 (fun i j k =>
        (Step2c d gbar bbar Co_X Co_Y Co_Z mesh Fg0 Fb0).Fb (idx d i j k vx vy vz)) = 0 := by
  have hD3 : d.effD ≤ 3 := by omega
  constructor
  · rw [sum3_congr (fun i j k hi hj hk =>
      Step2c_Fg_at d gbar bbar Co_X Co_Y Co_Z mesh Fg0 Fb0 hi hj hk hvx hvy hvz)]
    exact sum3_flux_zero d hD3 gbar Co_X Co_Y Co_Z mesh dx dy dz hmesh vx vy vz
  · rw [sum3_congr (fun i j k hi hj hk =>
      Step2c_Fb_at d gbar bbar Co_X Co_Y Co_Z mesh Fg0 Fb0 hi hj hk hvx hvy hvz)]
    exact sum3_flux_zero d hD3 bbar Co_X Co_Y Co_Z mesh dx dy dz hmesh vx vy vz

/-- C17 witness: two unit cells, two velocity nodes, non-uniform `gbar`, `bbar`, at the
second velocity node. -/
theorem flux_telescoping_witness :
    sum3 dims22.N0 dims22.N1 dims22.N2 (fun i j k =>
        (Step2c dims22 (bufOf [1, 2, 3, 5]) (bufOf [2, 1, 0, 1]) (bufOf [-1, 1]) (bufOf [0])
          (bufOf [0]) unitMesh (bufOf [9, 9, 9, 9]) (bufOf [8, 8, 8, 8])).Fg
            (idx dims22 i j k 1 0 0)) = 0
    ∧ sum3 dims22.N0 dims22.N1 dims22.N2 (fun i j k =>
        (Step2c dims22 (bufOf [1, 2, 3, 5]) (bufOf [2, 1, 0, 1]) (bufOf [-1, 1]) (bufOf [0])
          (bufOf [0]) unitMesh (bufOf [9, 9, 9, 9]) (bufOf [8, 8, 8, 8])).Fb
            (idx dims22 i j k 1 0 0)) = 0 :=
  flux_telescoping dims22 (Or.inl rfl) (bufOf [1, 2, 3, 5]) (bufOf [2, 1, 0, 1]) (bufOf [-1, 1])
    (bufOf [0]) (bufOf [0]) unitMesh 1 1 1 (fun _ _ _ _ _ _ => ⟨rfl, rfl, rfl⟩)
    (bufOf [9, 9, 9, 9]) (bufOf [8, 8, 8, 8]) (by decide : 1 < dims22.NV0)
    (by decide : 0 < dims22.NV1) (by decide : 0 < dims22.NV2)

end FluxTelescoping

/-! ## Claim C18: zero-flux fixed point of stage 4/5 -/

section ZeroFlux
variable {σ : Type}

theorem forLoop_inv (P : σ → Prop) (n : Nat) (body : Nat → σ → σ)
    (h : ∀ i, i < n → ∀ s, P s → P (body i s)) (s : σ) (hs : P s) : P (forLoop n body s) := by
  induction n with
  | zero => exact hs
  | succ m ih =>
    rw [forLoop_succ]
    exact h m (Nat.lt_succ_self m) _ (ih (fun i hi => h i (Nat.lt_succ_of_lt hi)))

theorem loop3_inv (P : σ → Prop) (a b c : Nat) (body : Nat → Nat → Nat → σ → σ)
    (h : ∀ i j k, i < a → j < b → k < c → ∀ s, P s → P (body i j k s)) (s : σ) (hs : P s) :
    P (loop3 a b c body s) := by
  unfold loop3
  refine forLoop_inv P a _ (fun i hi s1 h1 => ?_) s hs
  refine forLoop_inv P b _ (fun j hj s2 h2 => ?_) s1 h1
  exact forLoop_inv P c _ (fun k hk s3 h3 => h i j k hi hj hk s3 h3) s2 h2

theorem forLoop_congr (n : Nat) (f g : Nat → σ → σ) (h : ∀ i, i < n → ∀ x, f i x = g i x)
    (a : σ) : forLoop n f a = forLoop n g a := by
  induction n with
  | zero => rfl
  | succ m ih =>
    rw [forLoop_succ, forLoop_succ, ih (fun i hi => h i (Nat.lt_succ_of_lt hi)),
      h m (Nat.lt_succ_self m)]

theorem cellTemp_congr (c : Closure F) (D s : Nat) (pre st : Cons F) (h : AgreeAt D s pre st) :
    cellTemp c D st.rho st.rhov st.rhoE s = cellTemp c D pre.rho pre.rhov pre.rhoE s := by
  obtain ⟨h1, h2, h3⟩ := h
  unfold cellTemp speed
  rw [h1, h2]
  congr 2
  exact forLoop_congr D _ _ (fun dim hdim u => by rw [h3 dim hdim]) 0

theorem pec2_congr (D s : Nat) (Xi : Nat → F) (pre st : Cons F) (h : AgreeAt D s pre st) :
    pec2 D Xi st.rhov st.rho s = pec2 D Xi pre.rhov pre.rho s := by
  obtain ⟨h1, _, h3⟩ := h
  unfold pec2
  rw [h1]
  exact forLoop_congr D _ _ (fun dim hdim u => by rw [h3 dim hdim]) 0

/-- With zero fluxes at the phase-space point, Step 4 of the iteration changes nothing. -/
theorem Step4_zero (d : Dims) (dt V : F) (Fg Fb Xi Co_WX Co_WY Co_Z : Nat → F)
    (s id0 vx vy vz : Nat) (st : Cons F) (hg : Fg id0 = 0) (hb : Fb id0 = 0) :
    Step4 d dt V Fg Fb Xi Co_WX Co_WY Co_Z s id0 vx vy vz st = st := by
  have hrv : forLoop d.effD (fun dim rv => Function.update rv (d.effD * s + dim)
      (rv (d.effD * s + dim) + -dt / V * Fg id0 * Xi dim * Co_WX vx * Co_WY vy * Co_Z vz))
      st.rhov = st.rhov := by
    refine forLoop_obs_id (fun rv : Nat → F => rv) d.effD _ (fun dim _ rv => ?_) st.rhov
    simp [hg]
  unfold Step4
  rw [hrv, hg, hb]
  cases st
  simp

/-- Step 4 of an iteration at another cell does not touch the entries of cell `s0`. -/
theorem Step4_other (d : Dims) (dt V : F) (Fg Fb Xi Co_WX Co_WY Co_Z : Nat → F)
    (s s0 id0 vx vy vz : Nat) (hs : s0 ≠ s) (pre st : Cons F) (h : AgreeAt d.effD s0 pre st) :
    AgreeAt d.effD s0 pre (Step4 d dt V Fg Fb Xi Co_WX Co_WY Co_Z s id0 vx vy vz st) := by
  obtain ⟨h1, h2, h3⟩ := h
  refine ⟨?_, ?_, fun dim0 hdim0 => ?_⟩
  · simp only [Step4]
    rw [Function.update_noteq hs, h1]
  · simp only [Step4]
    rw [Function.update_noteq hs, h2]
  · simp only [Step4]
    rw [forLoop_obs_id (fun rv : Nat → F => rv (d.effD * s0 + dim0)) d.effD _
      (fun dim hdim rv => Function.update_noteq
        (fun e => hs (loc_inj hdim0 hdim e).2) _ _) st.rhov]
    exact h3 dim0 hdim0

theorem AgreeAt_body_iff (d : Dims) (c : Closure F) (dt : F) (mesh : Nat → Cell F)
    (Fg Fb Co_X Co_Y Co_Z Co_WX Co_WY : Nat → F) (i j k vx vy vz s0 : Nat) (pre st : Cons F)
    (h : AgreeAt d.effD s0 pre
      (Step4 d dt ((mesh (sidx d i j k)).dx * (mesh (sidx d i j k)).dy * (mesh (sidx d i j k)).dz)
        Fg Fb (vec3 (Co_X vx) (Co_Y vy) (Co_Z vz)) Co_WX Co_WY Co_Z (sidx d i j k)
        (idx d i j k vx vy vz) vx vy vz st)) :
    AgreeAt d.effD s0 pre
      (Step4and5_body d c dt mesh Fg Fb Co_X Co_Y Co_Z Co_WX Co_WY i j k vx vy vz st) := h

/-- Every iteration of `Step4and5` keeps the conservative entries of a cell whose
fluxes all vanish. -/
theorem Step4and5_body_agree (d : Dims) (c : Closure F) (dt : F) (mesh : Nat → Cell F)
    (Fg Fb Co_X Co_Y Co_Z Co_WX Co_WY : Nat → F) {i0 j0 k0 : Nat}
    (hi0 : i0 < d.N0) (hj0 : j0 < d.N1)
    (hF : ∀ vx vy vz, vx < d.NV0 → vy < d.NV1 → vz < d.NV2 →
      Fg (idx d i0 j0 k0 vx vy vz) = 0 ∧ Fb (idx d i0 j0 k0 vx vy vz) = 0)
    {i j k vx vy vz : Nat} (hi : i < d.N0) (hj : j < d.N1)
    (hvx : vx < d.NV0) (hvy : vy < d.NV1) (hvz : vz < d.NV2) (pre st : Cons F)
    (h : AgreeAt d.effD (sidx d i0 j0 k0) pre st) :
    AgreeAt d.effD (sidx d i0 j0 k0) pre
      (Step4and5_body d c dt mesh Fg Fb Co_X Co_Y Co_Z Co_WX Co_WY i j k vx vy vz st) := by
  refine AgreeAt_body_iff d c dt mesh Fg Fb Co_X Co_Y Co_Z Co_WX Co_WY i j k vx vy vz _ pre st ?_
  by_cases hc : i = i0 ∧ j = j0 ∧ k = k0
  · obtain ⟨e1, e2, e3⟩ := hc
    subst e1 e2 e3
    rw [Step4_zero d dt _ Fg Fb _ Co_WX Co_WY Co_Z _ _ vx vy vz st (hF vx vy vz hvx hvy hvz).1
      (hF vx vy vz hvx hvy hvz).2]
    exact h
  · refine Step4_other d dt _ Fg Fb _ Co_WX Co_WY Co_Z _ _ _ vx vy vz (fun e => hc ?_) pre st h
    obtain ⟨e1, e2, e3⟩ := sidx_inj d hi0 hj0 hi hj e
    exact ⟨e1.symm, e2.symm, e3.symm⟩

theorem Step4and5_body_gb_other (d : Dims) (c : Closure F) (dt : F) (mesh : Nat → Cell F)
    (Fg Fb Co_X Co_Y Co_Z Co_WX Co_WY : Nat → F) (i j k vx vy vz q : Nat)
    (hq : q ≠ idx d i j k vx vy vz) (st : Cons F) :
    (Step4and5_body d c dt mesh Fg Fb Co_X Co_Y Co_Z Co_WX Co_WY i j k vx vy vz st).g q = st.g q
    ∧ (Step4and5_body d c dt mesh Fg Fb Co_X Co_Y Co_Z Co_WX Co_WY i j k vx vy vz st).b q
        = st.b q := by
  simp only [Step4and5_body, Step4and5_locals, Step4]
  exact ⟨Function.update_noteq hq _ _, Function.update_noteq hq _ _⟩

theorem trapezoid_fixed (x tau dt y : F) (hden : 1 + dt / 2 / tau ≠ 0) :
    (x + dt / 2 * (x / tau + (x - x) / tau - dt / y * 0 + dt * 0)) / (1 + dt / 2 / tau) = x := by
  rw [div_eq_iff hden]
  ring

/-- The iteration at a phase-space point with zero fluxes keeps `g` there if it is the
equilibrium of the cell state, and keeps `b` there if it is the energy equilibrium. -/
theorem Step4and5_body_gb_hit (d : Dims) (c : Closure F) (dt : F) (mesh : Nat → Cell F)
    (Fg Fb Co_X Co_Y Co_Z Co_WX Co_WY : Nat → F) (i j k vx vy vz : Nat) (pre st : Cons F)
    (hg : Fg (idx d i j k vx vy vz) = 0) (hb : Fb (idx d i j k vx vy vz) = 0)
    (h : AgreeAt d.effD (sidx d i j k) pre st)
    (hden : 1 + dt / 2 / relaxTime c (pre.rho (sidx d i j k))
      (cellTemp c d.effD pre.rho pre.rhov pre.rhoE (sidx d i j k)) ≠ 0) :
    (st.g (idx d i j k vx vy vz)
        = c.geq (pec2 d.effD (vec3 (Co_X vx) (Co_Y vy) (Co_Z vz)) pre.rhov pre.rho (sidx d i j k))
            (pre.rho (sidx d i j k))
            (cellTemp c d.effD pre.rho pre.rhov pre.rhoE (sidx d i j k)) →
      (Step4and5_body d c dt mesh Fg Fb Co_X Co_Y Co_Z Co_WX Co_WY i j k vx vy vz st).g
          (idx d i j k vx vy vz) = st.g (idx d i j k vx vy vz))
    ∧ (st.b (idx d i j k vx vy vz)
        = beqOf d.effD
            (c.geq (pec2 d.effD (vec3 (Co_X vx) (Co_Y vy) (Co_Z vz)) pre.rhov pre.rho
              (sidx d i j k)) (pre.rho (sidx d i j k))
              (cellTemp c d.effD pre.rho pre.rhov pre.rhoE (sidx d i j k)))
            (Co_X vx) (Co_Y vy) (Co_Z vz)
            (cellTemp c d.effD pre.rho pre.rhov pre.rhoE (sidx d i j k)) →
      (Step4and5_body d c dt mesh Fg Fb Co_X Co_Y Co_Z Co_WX Co_WY i j k vx vy vz st).b
          (idx d i j k vx vy vz) = st.b (idx d i j k vx vy vz)) := by
  have hT := cellTemp_congr c d.effD (sidx d i j k) pre st h
  have hc2 := pec2_congr d.effD (sidx d i j k) (vec3 (Co_X vx) (Co_Y vy) (Co_Z vz)) pre st h
  have hrho := h.1
  have hden1 : 1 + dt / 2 / (relaxTime c (pre.rho (sidx d i j k))
      (cellTemp c d.effD pre.rho pre.rhov pre.rhoE (sidx d i j k)) / 1) ≠ 0 := by
    rw [div_one]
    exact hden
  constructor
  · intro hgeq
    simp only [Step4and5_body, Step4and5_locals]
    simp only [Step4_zero d dt _ Fg Fb _ Co_WX Co_WY Co_Z _ _ vx vy vz st hg hb,
      Function.update_same, hT, hc2, hrho, hg]
    rw [hgeq]
    exact trapezoid_fixed _ _ dt _ hden
  · intro hbeq
    simp only [Step4and5_body, Step4and5_locals]
    simp only [Step4_zero d dt _ Fg Fb _ Co_WX Co_WY Co_Z _ _ vx vy vz st hg hb,
      Function.update_same, hT, hc2, hrho, hb]
    rw [hbeq]
    exact trapezoid_fixed _ _ dt _ hden1

theorem denominator_ne_zero (tau dt : F) (htau : 0 < tau) (hdt : dt ≠ -2 * tau) :
    1 + dt / 2 / tau ≠ 0 := by
  have hne : tau ≠ 0 := ne_of_gt htau
  have h : 1 + dt / 2 / tau = (2 * tau + dt) / (2 * tau) := by
    field_simp
  rw [h]
  refine div_ne_zero (fun e => hdt ?_) (mul_ne_zero two_ne_zero hne)
  linarith

/-- C18 counterexample: one cell with two velocity nodes `ξ = -1, 1` in the state
`rho = 1`, `rhov = 0`, `rhoE = 5/4`, where the temperature is 1 and the relaxation time
is 2, with zero fluxes, `g = 1/2` the equilibrium and `b = 3/4` the energy equilibrium
at both nodes.  With the step `dt = -4 = -2*tau` the update of line 558 divides by
`1 + dt/2/tg = 0`: `Step4and5` leaves `rho`, `rhov`, `rhoE` alone but returns `g = 0`
and `b = 0` where the claim says `1/2` and `3/4`. -/
theorem Step4and5_zero_flux_counterexample :
    (0 < bufOf [1] (sidx dims12 0 0 0)
      ∧ 0 < cellTemp closureQ dims12.effD (bufOf [1]) (bufOf [0]) (bufOf [5 / 4])
          (sidx dims12 0 0 0)
      ∧ 0 < relaxTime closureQ (bufOf [1] (sidx dims12 0 0 0))
          (cellTemp closureQ dims12.effD (bufOf [1]) (bufOf [0]) (bufOf [5 / 4])
            (sidx dims12 0 0 0))
      ∧ (-4 : ℚ) = -2 * relaxTime closureQ (bufOf [1] (sidx dims12 0 0 0))
          (cellTemp closureQ dims12.effD (bufOf [1]) (bufOf [0]) (bufOf [5 / 4])
            (sidx dims12 0 0 0)))
    ∧ (zeroBuf (idx dims12 0 0 0 0 0 0) = 0 ∧ zeroBuf (idx dims12 0 0 0 1 0 0) = 0)
    ∧ (bufOf [1 / 2, 1 / 2] (idx dims12 0 0 0 1 0 0)
        = closureQ.geq (pec2 dims12.effD (vec3 (bufOf [-1, 1] 1) (bufOf [0] 0) (bufOf [0] 0))
            (bufOf [0]) (bufOf [1]) (sidx dims12 0 0 0)) (bufOf [1] (sidx dims12 0 0 0))
            (cellTemp closureQ dims12.effD (bufOf [1]) (bufOf [0]) (bufOf [5 / 4])
              (sidx dims12 0 0 0))
      ∧ bufOf [3 / 4, 3 / 4] (idx dims12 0 0 0 1 0 0)
        = beqOf dims12.effD (bufOf [1 / 2, 1 / 2] (idx dims12 0 0 0 1 0 0))
            (bufOf [-1, 1] 1) (bufOf [0] 0) (bufOf [0] 0)
            (cellTemp closureQ dims12.effD (bufOf [1]) (bufOf [0]) (bufOf [5 / 4])
              (sidx dims12 0 0 0)))
    ∧ ((Step4and5 dims12 closureQ (bufOf [1]) (bufOf [0]) (bufOf [5 / 4]) (-4) unitMesh
          zeroBuf zeroBuf (bufOf [-1, 1]) (bufOf [0]) (bufOf [0]) (bufOf [1, 1]) (bufOf [1])
          (bufOf [1]) (bufOf [1 / 2, 1 / 2]) (bufOf [3 / 4, 3 / 4])).rho (sidx dims12 0 0 0) = 1
      ∧ (Step4and5 dims12 closureQ (bufOf [1]) (bufOf [0]) (bufOf [5 / 4]) (-4) unitMesh
          zeroBuf zeroBuf (bufOf [-1, 1]) (bufOf [0]) (bufOf [0]) (bufOf [1, 1]) (bufOf [1])
          (bufOf [1]) (bufOf [1 / 2, 1 / 2]) (bufOf [3 / 4, 3 / 4])).g (idx dims12 0 0 0 1 0 0)
        = 0
      ∧ (Step4and5 dims12 closureQ (bufOf [1]) (bufOf [0]) (bufOf [5 / 4]) (-4) unitMesh
          zeroBuf zeroBuf (bufOf [-1, 1]) (bufOf [0]) (bufOf [0]) (bufOf [1, 1]) (bufOf [1])
          (bufOf [1]) (bufOf [1 / 2, 1 / 2]) (bufOf [3 / 4, 3 / 4])).g (idx dims12 0 0 0 1 0 0)
        ≠ bufOf [1 / 2, 1 / 2] (idx dims12 0 0 0 1 0 0)
      ∧ (Step4and5 dims12 closureQ (bufOf [1]) (bufOf [0]) (bufOf [5 / 4]) (-4) unitMesh
          zeroBuf zeroBuf (bufOf [-1, 1]) (bufOf [0]) (bufOf [0]) (bufOf [1, 1]) (bufOf [1])
          (bufOf [1]) (bufOf [1 / 2, 1 / 2]) (bufOf [3 / 4, 3 / 4])).b (idx dims12 0 0 0 1 0 0)
        ≠ bufOf [3 / 4, 3 / 4] (idx dims12 0 0 0 1 0 0)) := by
  decide!

/-- C18 as amended (zero-flux fixed point of the update): for an in-range cell `s` with
positive relaxation time `tau` whose fluxes `Fg(s,v)`, `Fb(s,v)` vanish at every velocity
node, and for every step `dt` other than `-2*tau` (so for every `dt ≥ 0`), `Step4and5`
leaves `rho[s]`, `rhoE[s]` and `rhov[s,·]` unchanged, every `g(s,v)` that equals the
equilibrium of that state is left unchanged, and every `b(s,v)` that equals
`g_eq*(|ξ|² + (3-D+K)*R*T)/2` is left unchanged. -/
theorem Step4and5_zero_flux (d : Dims) (c : Closure F) (rho rhov rhoE : Nat → F) (dt : F)
    (mesh : Nat → Cell F) (Fg Fb Co_X Co_Y Co_Z Co_WX Co_WY Co_WZ g b : Nat → F)
    {i j k : Nat} (hi : i < d.N0) (hj : j < d.N1) (hk : k < d.N2)
    (hF : ∀ vx vy vz, vx < d.NV0 → vy < d.NV1 → vz < d.NV2 →
      Fg (idx d i j k vx vy vz) = 0 ∧ Fb (idx d i j k vx vy vz) = 0)
    (htau : 0 < relaxTime c (rho (sidx d i j k)) (cellTemp c d.effD rho rhov rhoE (sidx d i j k)))
    (hdt : dt ≠ -2 * relaxTime c (rho (sidx d i j k))
      (cellTemp c d.effD rho rhov rhoE (sidx d i j k))) :
    (Step4and5 d c rho rhov rhoE dt mesh Fg Fb Co_X Co_Y Co_Z Co_WX Co_WY Co_WZ g b).rho
        (sidx d i j k) = rho (sidx d i j k)
    ∧ (Step4and5 d c rho rhov rhoE dt mesh Fg Fb Co_X Co_Y Co_Z Co_WX Co_WY Co_WZ g b).rhoE
        (sidx d i j k) = rhoE (sidx d i j k)
    ∧ (∀ dim, dim < d.effD →
        (Step4and5 d c rho rhov rhoE dt mesh Fg Fb Co_X Co_Y Co_Z Co_WX Co_WY Co_WZ g b).rhov
          (d.effD * sidx d i j k + dim) = rhov (d.effD * sidx d i j k + dim))
    ∧ (∀ vx vy vz, vx < d.NV0 → vy < d.NV1 → vz < d.NV2 →
        (g (idx d i j k vx vy vz)
            = c.geq (pec2 d.effD (vec3 (Co_X vx) (Co_Y vy) (Co_Z vz)) rhov rho (sidx d i j k))
                (rho (sidx d i j k)) (cellTemp c d.effD rho rhov rhoE (sidx d i j k)) →
          (Step4and5 d c rho rhov rhoE dt mesh Fg Fb Co_X Co_Y Co_Z Co_WX Co_WY Co_WZ g b).g
            (idx d i j k vx vy vz) = g (idx d i j k vx vy vz))
        ∧ (b (idx d i j k vx vy vz)
            = beqOf d.effD
                (c.geq (pec2 d.effD (vec3 (Co_X vx) (Co_Y vy) (Co_Z vz)) rhov rho (sidx d i j k))
                  (rho (sidx d i j k)) (cellTemp c d.effD rho rhov rhoE (sidx d i j k)))
                (Co_X vx) (Co_Y vy) (Co_Z vz) (cellTemp c d.effD rho rhov rhoE (sidx d i j k)) →
          (Step4and5 d c rho rhov rhoE dt mesh Fg Fb Co_X Co_Y Co_Z Co_WX Co_WY Co_WZ g b).b
            (idx d i j k vx vy vz) = b (idx d i j k vx vy vz))) := by
  have hden := denominator_ne_zero _ dt htau hdt
  have hbase : AgreeAt d.effD (sidx d i j k)
      { rho := rho, rhov := rhov, rhoE := rhoE, g := g, b := b }
      { rho := rho, rhov := rhov, rhoE := rhoE, g := g, b := b } :=
    ⟨rfl, rfl, fun _ _ => rfl⟩
  have hagree : AgreeAt d.effD (sidx d i j k)
      { rho := rho, rhov := rhov, rhoE := rhoE, g := g, b := b }
      (Step4and5 d c rho rhov rhoE dt mesh Fg Fb Co_X Co_Y Co_Z Co_WX Co_WY Co_WZ g b) := by
    unfold Step4and5
    refine loop3_inv _ d.N0 d.N1 d.N2 _ (fun i' j' k' hi' hj' _ s hs => ?_) _ hbase
    refine loop3_inv _ d.NV0 d.NV1 d.NV2 _ (fun vx' vy' vz' hvx' hvy' hvz' s2 hs2 => ?_) s hs
    exact Step4and5_body_agree d c dt mesh Fg Fb Co_X Co_Y Co_Z Co_WX Co_WY hi hj hF hi' hj'
      hvx' hvy' hvz' _ s2 hs2
  refine ⟨hagree.1, hagree.2.1, hagree.2.2, fun vx vy vz hvx hvy hvz => ⟨fun hgeq => ?_, fun hbeq => ?_⟩⟩
  · have hinv : AgreeAt d.effD (sidx d i j k)
          { rho := rho, rhov := rhov, rhoE := rhoE, g := g, b := b }
          (Step4and5 d c rho rhov rhoE dt mesh Fg Fb Co_X Co_Y Co_Z Co_WX Co_WY Co_WZ g b)
        ∧ (Step4and5 d c rho rhov rhoE dt mesh Fg Fb Co_X Co_Y Co_Z Co_WX Co_WY Co_WZ g b).g
            (idx d i j k vx vy vz) = g (idx d i j k vx vy vz) := by
      unfold Step4and5
      refine loop3_inv (fun st : Cons F => AgreeAt d.effD (sidx d i j k)
          { rho := rho, rhov := rhov, rhoE := rhoE, g := g, b := b } st
          ∧ st.g (idx d i j k vx vy vz) = g (idx d i j k vx vy vz))
        d.N0 d.N1 d.N2 _ (fun i' j' k' hi' hj' hk' s hs => ?_) _ ⟨hbase, rfl⟩
      refine loop3_inv (fun st : Cons F => AgreeAt d.effD (sidx d i j k)
          { rho := rho, rhov := rhov, rhoE := rhoE, g := g, b := b } st
          ∧ st.g (idx d i j k vx vy vz) = g (idx d i j k vx vy vz))
        d.NV0 d.NV1 d.NV2 _ (fun vx' vy' vz' hvx' hvy' hvz' s2 hs2 => ?_) s hs
      refine ⟨Step4and5_body_agree d c dt mesh Fg Fb Co_X Co_Y Co_Z Co_WX Co_WY hi hj hF hi' hj'
        hvx' hvy' hvz' _ s2 hs2.1, ?_⟩
      by_cases he : idx d i j k vx vy vz = idx d i' j' k' vx' vy' vz'
      · obtain ⟨⟨e1, e2, e3⟩, e4, e5, e6⟩ := idx_inj d hi hj hk hvx hvy hi' hj' hk' hvx' hvy' he
        subst e1 e2 e3 e4 e5 e6
        rw [(Step4and5_body_gb_hit d c dt mesh Fg Fb Co_X Co_Y Co_Z Co_WX Co_WY i j k vx vy vz
          _ s2 (hF vx vy vz hvx hvy hvz).1 (hF vx vy vz hvx hvy hvz).2 hs2.1 hden).1
          (hs2.2.trans hgeq)]
        exact hs2.2
      · rw [(Step4and5_body_gb_other d c dt mesh Fg Fb Co_X Co_Y Co_Z Co_WX Co_WY i' j' k'
          vx' vy' vz' _ he s2).1]
        exact hs2.2
    exact hinv.2
  · have hinv : AgreeAt d.effD (sidx d i j k)
          { rho := rho, rhov := rhov, rhoE := rhoE, g := g, b := b }
          (Step4and5 d c rho rhov rhoE dt mesh Fg Fb Co_X Co_Y Co_Z Co_WX Co_WY Co_WZ g b)
        ∧ (Step4and5 d c rho rhov rhoE dt mesh Fg Fb Co_X Co_Y Co_Z Co_WX Co_WY Co_WZ g b).b
            (idx d i j k vx vy vz) = b (idx d i j k vx vy vz) := by
      unfold Step4and5
      refine loop3_inv (fun st : Cons F => AgreeAt d.effD (sidx d i j k)
          { rho := rho, rhov := rhov, rhoE := rhoE, g := g, b := b } st
          ∧ st.b (idx d i j k vx vy vz) = b (idx d i j k vx vy vz))
        d.N0 d.N1 d.N2 _ (fun i' j' k' hi' hj' hk' s hs => ?_) _ ⟨hbase, rfl⟩
      refine loop3_inv (fun st : Cons F => AgreeAt d.effD (sidx d i j k)
          { rho := rho, rhov := rhov, rhoE := rhoE, g := g, b := b } st
          ∧ st.b (idx d i j k vx vy vz) = b (idx d i j k vx vy vz))
        d.NV0 d.NV1 d.NV2 _ (fun vx' vy' vz' hvx' hvy' hvz' s2 hs2 => ?_) s hs
      refine ⟨Step4and5_body_agree d c dt mesh Fg Fb Co_X Co_Y Co_Z Co_WX Co_WY hi hj hF hi' hj'
        hvx' hvy' hvz' _ s2 hs2.1, ?_⟩
      by_cases he : idx d i j k vx vy vz = idx d i' j' k' vx' vy' vz'
      · obtain ⟨⟨e1, e2, e3⟩, e4, e5, e6⟩ := idx_inj d hi hj hk hvx hvy hi' hj' hk' hvx' hvy' he
        subst e1 e2 e3 e4 e5 e6
        rw [(Step4and5_body_gb_hit d c dt mesh Fg Fb Co_X Co_Y Co_Z Co_WX Co_WY i j k vx vy vz
          _ s2 (hF vx vy vz hvx hvy hvz).1 (hF vx vy vz hvx hvy hvz).2 hs2.1 hden).2
          (hs2.2.trans hbeq)]
        exact hs2.2
      · rw [(Step4and5_body_gb_other d c dt mesh Fg Fb Co_X Co_Y Co_Z Co_WX Co_WY i' j' k'
          vx' vy' vz' _ he s2).2]
        exact hs2.2
    exact hinv.2

/-- C18 witness: one cell with two velocity nodes `ξ = -1, 1` in the state `rho = 1`,
`rhov = 0`, `rhoE = 5/4` (temperature 1, relaxation time 2), zero fluxes, `g = 1/2`
the equilibrium: density and `g` at the second node are unchanged. -/
theorem Step4and5_zero_flux_witness :
    (Step4and5 dims12 closureQ (bufOf [1]) (bufOf [0]) (bufOf [5 / 4]) (1 / 2048) unitMesh
        zeroBuf zeroBuf (bufOf [-1, 1]) (bufOf [0]) (bufOf [0]) (bufOf [1, 1]) (bufOf [1])
        (bufOf [1]) (bufOf [1 / 2, 1 / 2]) (bufOf [3 / 4, 3 / 4])).rho (sidx dims12 0 0 0)
      = bufOf [1] (sidx dims12 0 0 0)
    ∧ (Step4and5 dims12 closureQ (bufOf [1]) (bufOf [0]) (bufOf [5 / 4]) (1 / 2048) unitMesh
        zeroBuf zeroBuf (bufOf [-1, 1]) (bufOf [0]) (bufOf [0]) (bufOf [1, 1]) (bufOf [1])
        (bufOf [1]) (bufOf [1 / 2, 1 / 2]) (bufOf [3 / 4, 3 / 4])).g (idx dims12 0 0 0 1 0 0)
      = bufOf [1 / 2, 1 / 2] (idx dims12 0 0 0 1 0 0) :=
  have h := Step4and5_zero_flux dims12 closureQ (bufOf [1]) (bufOf [0]) (bufOf [5 / 4])
    (1 / 2048) unitMesh zeroBuf zeroBuf (bufOf [-1, 1]) (bufOf [0]) (bufOf [0]) (bufOf [1, 1])
    (bufOf [1]) (bufOf [1]) (bufOf [1 / 2, 1 / 2]) (bufOf [3 / 4, 3 / 4])
    (by decide : 0 < dims12.N0) (by decide : 0 < dims12.N1) (by decide : 0 < dims12.N2)
    (fun _ _ _ _ _ _ => ⟨rfl, rfl⟩) (by decide!) (by decide!)
  ⟨h.1, (h.2.2.2 1 0 0 (by decide) (by decide) (by decide)).1 (by decide!)⟩

end ZeroFlux

/-! ## Claim C19: stage 1a at equilibrium -/

section Stage1a

theorem Step1a_body_gbarp (d : Dims) (c : Closure F) (effD : Nat) (g b rho rhov rhoE : Nat → F)
    (dt : F) (Co_X Co_Y Co_Z : Nat → F) (i j k vx vy vz : Nat) (st : Out1a F) :
    (Step1a_body d c effD g b rho rhov rhoE dt Co_X Co_Y Co_Z i j k vx vy vz st).gbarp
      = Function.update st.gbarp (idx d i j k vx vy vz)
          (gbarpVal d c effD g rho rhov rhoE dt Co_X Co_Y Co_Z i j k vx vy vz) := by
  simp only [Step1a_body, Function.update_same, gbarpVal]

theorem Step1a_body_bbarp (d : Dims) (c : Closure F) (effD : Nat) (g b rho rhov rhoE : Nat → F)
    (dt : F) (Co_X Co_Y Co_Z : Nat → F) (i j k vx vy vz : Nat) (st : Out1a F) :
    (Step1a_body d c effD g b rho rhov rhoE dt Co_X Co_Y Co_Z i j k vx vy vz st).bbarp
      = Function.update st.bbarp (idx d i j k vx vy vz)
          (bbarpVal d c effD b rho rhov rhoE dt Co_X Co_Y Co_Z i j k vx vy vz) := by
  simp only [Step1a_body, Function.update_same, bbarpVal]

/-- After `Step1a`, `gbarp` and `bbarp` at every in-range point hold the values of
lines 98-99, whatever they held before. -/
theorem Step1a_at (d : Dims) (c : Closure F) (g b gbarp bbarp Sg Sb rho rhov rhoE : Nat → F)
    (effD : Nat) (dt : F) (Co_X Co_Y Co_Z : Nat → F) {i j k vx vy vz : Nat}
    (hi : i < d.N0) (hj : j < d.N1) (hk : k < d.N2)
    (hvx : vx < d.NV0) (hvy : vy < d.NV1) (hvz : vz < d.NV2) :
    (Step1a d c g b gbarp bbarp Sg Sb rho rhov rhoE effD dt Co_X Co_Y Co_Z).gbarp
        (idx d i j k vx vy vz)
      = gbarpVal d c effD g rho rhov rhoE dt Co_X Co_Y Co_Z i j k vx vy vz
    ∧ (Step1a d c g b gbarp bbarp Sg Sb rho rhov rhoE effD dt Co_X Co_Y Co_Z).bbarp
        (idx d i j k vx vy vz)
      = bbarpVal d c effD b rho rhov rhoE dt Co_X Co_Y Co_Z i j k vx vy vz := by
  unfold Step1a
  exact ⟨nest0_at d (fun s : Out1a F => s.gbarp)
      (Step1a_body d c effD g b rho rhov rhoE dt Co_X Co_Y Co_Z)
      (fun i j k vx vy vz _ => gbarpVal d c effD g rho rhov rhoE dt Co_X Co_Y Co_Z i j k vx vy vz)
      (fun i j k vx vy vz st =>
        Step1a_body_gbarp d c effD g b rho rhov rhoE dt Co_X Co_Y Co_Z i j k vx vy vz st)
      hi hj hk hvx hvy hvz _,
    nest0_at d (fun s : Out1a F => s.bbarp)
      (Step1a_body d c effD g b rho rhov rhoE dt Co_X Co_Y Co_Z)
      (fun i j k vx vy vz _ => bbarpVal d c effD b rho rhov rhoE dt Co_X Co_Y Co_Z i j k vx vy vz)
      (fun i j k vx vy vz st =>
        Step1a_body_bbarp d c effD g b rho rhov rhoE dt Co_X Co_Y Co_Z i j k vx vy vz st)
      hi hj hk hvx hvy hvz _⟩

theorem stage1a_coefficients (tau dt : F) (htau : tau ≠ 0) :
    (2 * tau - dt / 2) / (2 * tau) + dt / (4 * tau) = 1 := by
  field_simp
  ring

theorem stage1a_fixed (tau dt x : F) (htau : tau ≠ 0) :
    (2 * tau - dt / 2) / (2 * tau) * x + dt / (4 * tau) * x + dt / 4 * 0 = x := by
  have h := stage1a_coefficients tau dt htau
  calc (2 * tau - dt / 2) / (2 * tau) * x + dt / (4 * tau) * x + dt / 4 * 0
      = ((2 * tau - dt / 2) / (2 * tau) + dt / (4 * tau)) * x := by ring
    _ = x := by rw [h, one_mul]

/-- C19 (stage 1a preserves equilibrium): at every in-range `(s,v)` whose relaxation time
`tau` is not zero, and for every `dt`, the coefficients `(2*tau - dt/2)/(2*tau)` and
`dt/(4*tau)` sum to 1; if `g(s,v)` is the local equilibrium then `Step1a` writes
`gbarp(s,v) = g(s,v)`, and if `b(s,v)` is the local energy equilibrium it writes
`bbarp(s,v) = b(s,v)`.  `Step1a` writes none of `g`, `b`, `rho`, `rhov`, `rhoE`: after
stages 1a-1c of `Evolve` they are the buffers handed in. -/
theorem Step1a_equilibrium (d : Dims) (c : Closure F) (g b gbarp bbarp Sg Sb rho rhov rhoE : Nat → F)
    (effD : Nat) (dt : F) (Co_X Co_Y Co_Z : Nat → F) {i j k vx vy vz : Nat}
    (hi : i < d.N0) (hj : j < d.N1) (hk : k < d.N2)
    (hvx : vx < d.NV0) (hvy : vy < d.NV1) (hvz : vz < d.NV2)
    (htau : relaxTime c (rho (sidx d i j k)) (cellTemp c effD rho rhov rhoE (sidx d i j k)) ≠ 0) :
    (2 * relaxTime c (rho (sidx d i j k)) (cellTemp c effD rho rhov rhoE (sidx d i j k)) - dt / 2)
        / (2 * relaxTime c (rho (sidx d i j k)) (cellTemp c effD rho rhov rhoE (sidx d i j k)))
      + dt / (4 * relaxTime c (rho (sidx d i j k)) (cellTemp c effD rho rhov rhoE (sidx d i j k)))
      = 1
    ∧ (g (idx d i j k vx vy vz)
          = c.geq (pec2 effD (vec3 (Co_X vx) (Co_Y vy) (Co_Z vz)) rhov rho (sidx d i j k))
              (rho (sidx d i j k)) (cellTemp c effD rho rhov rhoE (sidx d i j k)) →
        (Step1a d c g b gbarp bbarp Sg Sb rho rhov rhoE effD dt Co_X Co_Y Co_Z).gbarp
          (idx d i j k vx vy vz) = g (idx d i j k vx vy vz))
    ∧ (b (idx d i j k vx vy vz)
          = beqOf effD
              (c.geq (pec2 effD (vec3 (Co_X vx) (Co_Y vy) (Co_Z vz)) rhov rho (sidx d i j k))
                (rho (sidx d i j k)) (cellTemp c effD rho rhov rhoE (sidx d i j k)))
              (Co_X vx) (Co_Y vy) (Co_Z vz) (cellTemp c effD rho rhov rhoE (sidx d i j k)) →
        (Step1a d c g b gbarp bbarp Sg Sb rho rhov rhoE effD dt Co_X Co_Y Co_Z).bbarp
          (idx d i j k vx vy vz) = b (idx d i j k vx vy vz))
    ∧ (∀ (q : Quad F) (mesh : Nat → Cell F) (B : Bufs F),
        (Evolve_stage1 d c effD dt q mesh B).g = B.g
        ∧ (Evolve_stage1 d c effD dt q mesh B).b = B.b
        ∧ (Evolve_stage1 d c effD dt q mesh B).rho = B.rho
        ∧ (Evolve_stage1 d c effD dt q mesh B).rhov = B.rhov
        ∧ (Evolve_stage1 d c effD dt q mesh B).rhoE = B.rhoE) := by
  obtain ⟨h1, h2⟩ := Step1a_at d c g b gbarp bbarp Sg Sb rho rhov rhoE effD dt Co_X Co_Y Co_Z
    hi hj hk hvx hvy hvz
  refine ⟨stage1a_coefficients _ dt htau, fun hg => ?_, fun hb => ?_,
    fun _ _ _ => ⟨rfl, rfl, rfl, rfl, rfl⟩⟩
  · rw [h1]
    unfold gbarpVal
    rw [← hg]
    exact stage1a_fixed _ dt _ htau
  · rw [h2]
    unfold bbarpVal
    rw [← hb]
    exact stage1a_fixed _ dt _ htau

/-- C19 witness: two cells in the equilibrium state `rho = 1`, `rhov = 0`, `rhoE = 5/4`
with `g = 1/2`: `Step1a` writes `gbarp = g` at the second cell. -/
theorem Step1a_equilibrium_witness :
    (Step1a dims21 closureQ (bufOf [1 / 2, 1 / 2]) (bufOf [3 / 4, 3 / 4]) (bufOf [9, 9])
        (bufOf [9, 9]) zeroBuf zeroBuf (bufOf [1, 1]) (bufOf [0, 0]) (bufOf [5 / 4, 5 / 4]) 1
        (1 / 2048) (bufOf [1]) (bufOf [0]) (bufOf [0])).gbarp (idx dims21 1 0 0 0 0 0)
      = bufOf [1 / 2, 1 / 2] (idx dims21 1 0 0 0 0 0) :=
  (Step1a_equilibrium dims21 closureQ (bufOf [1 / 2, 1 / 2]) (bufOf [3 / 4, 3 / 4]) (bufOf [9, 9])
    (bufOf [9, 9]) zeroBuf zeroBuf (bufOf [1, 1]) (bufOf [0, 0]) (bufOf [5 / 4, 5 / 4]) 1
    (1 / 2048) (bufOf [1]) (bufOf [0]) (bufOf [0])
    (by decide : 1 < dims21.N0) (by decide : 0 < dims21.N1) (by decide : 0 < dims21.N2)
    (by decide : 0 < dims21.NV0) (by decide : 0 < dims21.NV1) (by decide : 0 < dims21.NV2)
    (by decide!)).2.1 (by decide!)

end Stage1a

/-! ## Claim C20: stage 2b as a convex combination -/

section Stage2b

theorem Step2b_body_gbar (d : Dims) (c : Closure F) (dt : F)
    (rhoh rhovh rhoEh Co_X Co_Y Co_Z : Nat → F) (i j k dim2 vx vy vz : Nat) (st : Bars F) :
    (Step2b_body d c dt rhoh rhovh Co_X Co_Y Co_Z
        (faceTemp c d.effD rhoh rhovh rhoEh (sidx d i j k) dim2)
        (faceTau c d.effD rhoh rhovh rhoEh (sidx d i j k) dim2) i j k dim2 vx vy vz st).gbar
      = Function.update st.gbar (d.effD * idx d i j k vx vy vz + dim2)
          (2 * faceTau c d.effD rhoh rhovh rhoEh (sidx d i j k) dim2
              / (2 * faceTau c d.effD rhoh rhovh rhoEh (sidx d i j k) dim2 + dt / 2)
              * st.gbar (d.effD * idx d i j k vx vy vz + dim2)
            + dt / (4 * faceTau c d.effD rhoh rhovh rhoEh (sidx d i j k) dim2 + dt)
              * faceGeq d c rhoh rhovh rhoEh Co_X Co_Y Co_Z i j k dim2 vx vy vz
            + dt * faceTau c d.effD rhoh rhovh rhoEh (sidx d i j k) dim2
              / (4 * faceTau c d.effD rhoh rhovh rhoEh (sidx d i j k) dim2 + dt) * 0) := by
  simp only [Step2b_body, faceGeq]

theorem Step2b_body_bbar (d : Dims) (c : Closure F) (dt : F)
    (rhoh rhovh rhoEh Co_X Co_Y Co_Z : Nat → F) (i j k dim2 vx vy vz : Nat) (st : Bars F) :
    (Step2b_body d c dt rhoh rhovh Co_X Co_Y Co_Z
        (faceTemp c d.effD rhoh rhovh rhoEh (sidx d i j k) dim2)
        (faceTau c d.effD rhoh rhovh rhoEh (sidx d i j k) dim2) i j k dim2 vx vy vz st).bbar
      = Function.update st.bbar (d.effD * idx d i j k vx vy vz + dim2)
          (2 * faceTau c d.effD rhoh rhovh rhoEh (sidx d i j k) dim2
              / (2 * faceTau c d.effD rhoh rhovh rhoEh (sidx d i j k) dim2 + dt / 2)
              * st.bbar (d.effD * idx d i j k vx vy vz + dim2)
            + dt / (4 * faceTau c d.effD rhoh rhovh rhoEh (sidx d i j k) dim2 + dt)
              * faceBeq d c rhoh rhovh rhoEh Co_X Co_Y Co_Z i j k dim2 vx vy vz
            + dt * faceTau c d.effD rhoh rhovh rhoEh (sidx d i j k) dim2
              / (4 * faceTau c d.effD rhoh rhovh rhoEh (sidx d i j k) dim2 + dt) * 0) := by
  simp only [Step2b_body, faceBeq, faceGeq]

/-- After `Step2b`, every in-range entry of `gbar`, `bbar` is the combination of lines
422-423 of its previous content and the face equilibrium. -/
theorem Step2b_at (d : Dims) (c : Closure F) (gbar bbar : Nat → F) (dt : F)
    (rhoh rhovh rhoEh Co_X Co_Y Co_Z : Nat → F) {i j k dim2 vx vy vz : Nat}
    (hi : i < d.N0) (hj : j < d.N1) (hk : k < d.N2)
    (hvx : vx < d.NV0) (hvy : vy < d.NV1) (hvz : vz < d.NV2) (hdim : dim2 < d.effD) :
    (Step2b d c gbar bbar dt rhoh rhovh rhoEh Co_X Co_Y Co_Z).gbar
        (d.effD * idx d i j k vx vy vz + dim2)
      = 2 * faceTau c d.effD rhoh rhovh rhoEh (sidx d i j k) dim2
          / (2 * faceTau c d.effD rhoh rhovh rhoEh (sidx d i j k) dim2 + dt / 2)
          * gbar (d.effD * idx d i j k vx vy vz + dim2)
        + dt / (4 * faceTau c d.effD rhoh rhovh rhoEh (sidx d i j k) dim2 + dt)
          * faceGeq d c rhoh rhovh rhoEh Co_X Co_Y Co_Z i j k dim2 vx vy vz
        + dt * faceTau c d.effD rhoh rhovh rhoEh (sidx d i j k) dim2
          / (4 * faceTau c d.effD rhoh rhovh rhoEh (sidx d i j k) dim2 + dt) * 0
    ∧ (Step2b d c gbar bbar dt rhoh rhovh rhoEh Co_X Co_Y Co_Z).bbar
        (d.effD * idx d i j k vx vy vz + dim2)
      = 2 * faceTau c d.effD rhoh rhovh rhoEh (sidx d i j k) dim2
          / (2 * faceTau c d.effD rhoh rhovh rhoEh (sidx d i j k) dim2 + dt / 2)
          * bbar (d.effD * idx d i j k vx vy vz + dim2)
        + dt / (4 * faceTau c d.effD rhoh rhovh rhoEh (sidx d i j k) dim2 + dt)
          * faceBeq d c rhoh rhovh rhoEh Co_X Co_Y Co_Z i j k dim2 vx vy vz
        + dt * faceTau c d.effD rhoh rhovh rhoEh (sidx d i j k) dim2
          / (4 * faceTau c d.effD rhoh rhovh rhoEh (sidx d i j k) dim2 + dt) * 0 := by
  constructor
  · exact nestB_at d d.effD (fun s : Bars F => s.gbar)
      (fun i j k dim2 vx vy vz st => Step2b_body d c dt rhoh rhovh Co_X Co_Y Co_Z
        (faceTemp c d.effD rhoh rhovh rhoEh (sidx d i j k) dim2)
        (faceTau c d.effD rhoh rhovh rhoEh (sidx d i j k) dim2) i j k dim2 vx vy vz st)
      (fun i j k dim2 vx vy vz x =>
        2 * faceTau c d.effD rhoh rhovh rhoEh (sidx d i j k) dim2
          / (2 * faceTau c d.effD rhoh rhovh rhoEh (sidx d i j k) dim2 + dt / 2) * x
        + dt / (4 * faceTau c d.effD rhoh rhovh rhoEh (sidx d i j k) dim2 + dt)
          * faceGeq d c rhoh rhovh rhoEh Co_X Co_Y Co_Z i j k dim2 vx vy vz
        + dt * faceTau c d.effD rhoh rhovh rhoEh (sidx d i j k) dim2
          / (4 * faceTau c d.effD rhoh rhovh rhoEh (sidx d i j k) dim2 + dt) * 0)
      (fun i j k dim2 vx vy vz st =>
        Step2b_body_gbar d c dt rhoh rhovh rhoEh Co_X Co_Y Co_Z i j k dim2 vx vy vz st)
      hi hj hk hvx hvy hvz hdim { gbar := gbar, bbar := bbar }
  · exact nestB_at d d.effD (fun s : Bars F => s.bbar)
      (fun i j k dim2 vx vy vz st => Step2b_body d c dt rhoh rhovh Co_X Co_Y Co_Z
        (faceTemp c d.effD rhoh rhovh rhoEh (sidx d i j k) dim2)
        (faceTau c d.effD rhoh rhovh rhoEh (sidx d i j k) dim2) i j k dim2 vx vy vz st)
      (fun i j k dim2 vx vy vz x =>
        2 * faceTau c d.effD rhoh rhovh rhoEh (sidx d i j k) dim2
          / (2 * faceTau c d.effD rhoh rhovh rhoEh (sidx d i j k) dim2 + dt / 2) * x
        + dt / (4 * faceTau c d.effD rhoh rhovh rhoEh (sidx d i j k) dim2 + dt)
          * faceBeq d c rhoh rhovh rhoEh Co_X Co_Y Co_Z i j k dim2 vx vy vz
        + dt * faceTau c d.effD rhoh rhovh rhoEh (sidx d i j k) dim2
          / (4 * faceTau c d.effD rhoh rhovh rhoEh (sidx d i j k) dim2 + dt) * 0)
      (fun i j k dim2 vx vy vz st =>
        Step2b_body_bbar d c dt rhoh rhovh rhoEh Co_X Co_Y Co_Z i j k dim2 vx vy vz st)
      hi hj hk hvx hvy hvz hdim { gbar := gbar, bbar := bbar }

theorem stage2b_coefficients (tau dt : F) (htau : 0 < tau) (hdt : 0 < dt) :
    (0 < 2 * tau / (2 * tau + dt / 2) ∧ 2 * tau / (2 * tau + dt / 2) < 1)
    ∧ (0 < dt / (4 * tau + dt) ∧ dt / (4 * tau + dt) < 1)
    ∧ 2 * tau / (2 * tau + dt / 2) + dt / (4 * tau + dt) = 1 := by
  have h1 : 0 < 2 * tau + dt / 2 := by positivity
  have h2 : 0 < 4 * tau + dt := by positivity
  refine ⟨⟨by positivity, ?_⟩, ⟨by positivity, ?_⟩, ?_⟩
  · rw [div_lt_one h1]
    linarith
  · rw [div_lt_one h2]
    linarith
  · field_simp
    ring

theorem convex_between (a b x y : F) (ha : 0 ≤ a) (hb : 0 ≤ b) (hab : a + b = 1) :
    min x y ≤ a * x + b * y ∧ a * x + b * y ≤ max x y := by
  constructor
  · calc min x y = a * min x y + b * min x y := by rw [← add_mul, hab, one_mul]
      _ ≤ a * x + b * y :=
        add_le_add (mul_le_mul_of_nonneg_left (min_le_left _ _) ha)
          (mul_le_mul_of_nonneg_left (min_le_right _ _) hb)
  · calc a * x + b * y ≤ a * max x y + b * max x y :=
        add_le_add (mul_le_mul_of_nonneg_left (le_max_left _ _) ha)
          (mul_le_mul_of_nonneg_left (le_max_right _ _) hb)
      _ = max x y := by rw [← add_mul, hab, one_mul]

theorem convex_strict (a b x y : F) (ha : 0 < a) (hb : 0 < b) (hab : a + b = 1)
    (hxy : x ≠ y) : min x y < a * x + b * y ∧ a * x + b * y < max x y := by
  rcases lt_or_gt_of_ne hxy with h | h
  · rw [min_eq_left (le_of_lt h), max_eq_right (le_of_lt h)]
    constructor
    · calc x = a * x + b * x := by rw [← add_mul, hab, one_mul]
        _ < a * x + b * y := add_lt_add_left (mul_lt_mul_of_pos_left h hb) _
    · calc a * x + b * y < a * y + b * y := add_lt_add_right (mul_lt_mul_of_pos_left h ha) _
        _ = y := by rw [← add_mul, hab, one_mul]
  · rw [min_eq_right (le_of_lt h), max_eq_left (le_of_lt h)]
    constructor
    · calc y = a * y + b * y := by rw [← add_mul, hab, one_mul]
        _ < a * x + b * y := add_lt_add_right (mul_lt_mul_of_pos_left h ha) _
    · calc a * x + b * y < a * x + b * x := add_lt_add_left (mul_lt_mul_of_pos_left h hb) _
        _ = x := by rw [← add_mul, hab, one_mul]

theorem stage2b_between (tau dt x y : F) (htau : 0 < tau) (hdt : 0 < dt) :
    2 * tau / (2 * tau + dt / 2) * x + dt / (4 * tau + dt) * y + dt * tau / (4 * tau + dt) * 0
        = 2 * tau / (2 * tau + dt / 2) * x + dt / (4 * tau + dt) * y
    ∧ min x y ≤ 2 * tau / (2 * tau + dt / 2) * x + dt / (4 * tau + dt) * y
        + dt * tau / (4 * tau + dt) * 0
    ∧ 2 * tau / (2 * tau + dt / 2) * x + dt / (4 * tau + dt) * y
        + dt * tau / (4 * tau + dt) * 0 ≤ max x y
    ∧ (x ≠ y →
        min x y < 2 * tau / (2 * tau + dt / 2) * x + dt / (4 * tau + dt) * y
          + dt * tau / (4 * tau + dt) * 0
        ∧ 2 * tau / (2 * tau + dt / 2) * x + dt / (4 * tau + dt) * y
          + dt * tau / (4 * tau + dt) * 0 < max x y
        ∧ 2 * tau / (2 * tau + dt / 2) * x + dt / (4 * tau + dt) * y
          + dt * tau / (4 * tau + dt) * 0 ≠ x)
    ∧ (x = y → 2 * tau / (2 * tau + dt / 2) * x + dt / (4 * tau + dt) * y
        + dt * tau / (4 * tau + dt) * 0 = x) := by
  obtain ⟨⟨ha, _⟩, ⟨hb, _⟩, hab⟩ := stage2b_coefficients tau dt htau hdt
  obtain ⟨h1, h2⟩ := convex_between _ _ x y (le_of_lt ha) (le_of_lt hb) hab
  rw [mul_zero, add_zero]
  refine ⟨rfl, h1, h2, fun hne => ?_, fun e => ?_⟩
  · obtain ⟨h3, h4⟩ := convex_strict _ _ x y ha hb hab hne
    refine ⟨h3, h4, fun e => ?_⟩
    rw [e] at h3 h4
    rcases le_total x y with hle | hle
    · rw [min_eq_left hle] at h3
      exact lt_irrefl _ h3
    · rw [max_eq_left hle] at h4
      exact lt_irrefl _ h4
  · rw [← e, ← add_mul, hab, one_mul]

/-- C20 (stage 2b is a convex projection): at every face with relaxation time `tau > 0`
and for every `dt > 0`, the coefficients `2*tau/(2*tau + dt/2)` and `dt/(4*tau + dt)`
are both in (0,1) and sum to 1; the value `Step2b` writes to `gbar(s,v,Dim)` is the
combination of its previous value and the face equilibrium `g_eq` with these two
coefficients, so it lies between them, strictly between (and differs from the previous
value) when they differ, and an entry already equal to `g_eq` is left unchanged; the
same holds for `bbar` and `b_eq`. -/
theorem Step2b_convex (d : Dims) (c : Closure F) (gbar bbar : Nat → F) (dt : F)
    (rhoh rhovh rhoEh Co_X Co_Y Co_Z : Nat → F) {i j k dim2 vx vy vz : Nat}
    (hi : i < d.N0) (hj : j < d.N1) (hk : k < d.N2)
    (hvx : vx < d.NV0) (hvy : vy < d.NV1) (hvz : vz < d.NV2) (hdim : dim2 < d.effD)
    (htau : 0 < faceTau c d.effD rhoh rhovh rhoEh (sidx d i j k) dim2) (hdt : 0 < dt) :
    ((0 < 2 * faceTau c d.effD rhoh rhovh rhoEh (sidx d i j k) dim2
          / (2 * faceTau c d.effD rhoh rhovh rhoEh (sidx d i j k) dim2 + dt / 2)
        ∧ 2 * faceTau c d.effD rhoh rhovh rhoEh (sidx d i j k) dim2
          / (2 * faceTau c d.effD rhoh rhovh rhoEh (sidx d i j k) dim2 + dt / 2) < 1)
      ∧ (0 < dt / (4 * faceTau c d.effD rhoh rhovh rhoEh (sidx d i j k) dim2 + dt)
        ∧ dt / (4 * faceTau c d.effD rhoh rhovh rhoEh (sidx d i j k) dim2 + dt) < 1)
      ∧ 2 * faceTau c d.effD rhoh rhovh rhoEh (sidx d i j k) dim2
          / (2 * faceTau c d.effD rhoh rhovh rhoEh (sidx d i j k) dim2 + dt / 2)
        + dt / (4 * faceTau c d.effD rhoh rhovh rhoEh (sidx d i j k) dim2 + dt) = 1)
    ∧ ((Step2b d c gbar bbar dt rhoh rhovh rhoEh Co_X Co_Y Co_Z).gbar
            (d.effD * idx d i j k vx vy vz + dim2)
          = 2 * faceTau c d.effD rhoh rhovh rhoEh (sidx d i j k) dim2
              / (2 * faceTau c d.effD rhoh rhovh rhoEh (sidx d i j k) dim2 + dt / 2)
              * gbar (d.effD * idx d i j k vx vy vz + dim2)
            + dt / (4 * faceTau c d.effD rhoh rhovh rhoEh (sidx d i j k) dim2 + dt)
              * faceGeq d c rhoh rhovh rhoEh Co_X Co_Y Co_Z i j k dim2 vx vy vz
      ∧ min (gbar (d.effD * idx d i j k vx vy vz + dim2))
          (faceGeq d c rhoh rhovh rhoEh Co_X Co_Y Co_Z i j k dim2 vx vy vz)
        ≤ (Step2b d c gbar bbar dt rhoh rhovh rhoEh Co_X Co_Y Co_Z).gbar
            (d.effD * idx d i j k vx vy vz + dim2)
      ∧ (Step2b d c gbar bbar dt rhoh rhovh rhoEh Co_X Co_Y Co_Z).gbar
            (d.effD * idx d i j k vx vy vz + dim2)
        ≤ max (gbar (d.effD * idx d i j k vx vy vz + dim2))
            (faceGeq d c rhoh rhovh rhoEh Co_X Co_Y Co_Z i j k dim2 vx vy vz)
      ∧ (gbar (d.effD * idx d i j k vx vy vz + dim2)
            ≠ faceGeq d c rhoh rhovh rhoEh Co_X Co_Y Co_Z i j k dim2 vx vy vz →
          min (gbar (d.effD * idx d i j k vx vy vz + dim2))
              (faceGeq d c rhoh rhovh rhoEh Co_X Co_Y Co_Z i j k dim2 vx vy vz)
            < (Step2b d c gbar bbar dt rhoh rhovh rhoEh Co_X Co_Y Co_Z).gbar
            (d.effD * idx d i j k vx vy vz + dim2)
          ∧ (Step2b d c gbar bbar dt rhoh rhovh rhoEh Co_X Co_Y Co_Z).gbar
            (d.effD * idx d i j k vx vy vz + dim2)
            < max (gbar (d.effD * idx d i j k vx vy vz + dim2))
                (faceGeq d c rhoh rhovh rhoEh Co_X Co_Y Co_Z i j k dim2 vx vy vz)
          ∧ (Step2b d c gbar bbar dt rhoh rhovh rhoEh Co_X Co_Y Co_Z).gbar
            (d.effD * idx d i j k vx vy vz + dim2)
            ≠ gbar (d.effD * idx d i j k vx vy vz + dim2))
      ∧ (gbar (d.effD * idx d i j k vx vy vz + dim2)
            = faceGeq d c rhoh rhovh rhoEh Co_X Co_Y Co_Z i j k dim2 vx vy vz →
          (Step2b d c gbar bbar dt rhoh rhovh rhoEh Co_X Co_Y Co_Z).gbar
            (d.effD * idx d i j k vx vy vz + dim2)
            = gbar (d.effD * idx d i j k vx vy vz + dim2)))
    ∧ ((Step2b d c gbar bbar dt rhoh rhovh rhoEh Co_X Co_Y Co_Z).bbar
            (d.effD * idx d i j k vx vy vz + dim2)
          = 2 * faceTau c d.effD rhoh rhovh rhoEh (sidx d i j k) dim2
              / (2 * faceTau c d.effD rhoh rhovh rhoEh (sidx d i j k) dim2 + dt / 2)
              * bbar (d.effD * idx d i j k vx vy vz + dim2)
            + dt / (4 * faceTau c d.effD rhoh rhovh rhoEh (sidx d i j k) dim2 + dt)
              * faceBeq d c rhoh rhovh rhoEh Co_X Co_Y Co_Z i j k dim2 vx vy vz
      ∧ min (bbar (d.effD * idx d i j k vx vy vz + dim2))
          (faceBeq d c rhoh rhovh rhoEh Co_X Co_Y Co_Z i j k dim2 vx vy vz)
        ≤ (Step2b d c gbar bbar dt rhoh rhovh rhoEh Co_X Co_Y Co_Z).bbar
            (d.effD * idx d i j k vx vy vz + dim2)
      ∧ (Step2b d c gbar bbar dt rhoh rhovh rhoEh Co_X Co_Y Co_Z).bbar
            (d.effD * idx d i j k vx vy vz + dim2)
        ≤ max (bbar (d.effD * idx d i j k vx vy vz + dim2))
            (faceBeq d c rhoh rhovh rhoEh Co_X Co_Y Co_Z i j k dim2 vx vy vz)
      ∧ (bbar (d.effD * idx d i j k vx vy vz + dim2)
            ≠ faceBeq d c rhoh rhovh rhoEh Co_X Co_Y Co_Z i j k dim2 vx vy vz →
          min (bbar (d.effD * idx d i j k vx vy vz + dim2))
              (faceBeq d c rhoh rhovh rhoEh Co_X Co_Y Co_Z i j k dim2 vx vy vz)
            < (Step2b d c gbar bbar dt rhoh rhovh rhoEh Co_X Co_Y Co_Z).bbar
            (d.effD * idx d i j k vx vy vz + dim2)
          ∧ (Step2b d c gbar bbar dt rhoh rhovh rhoEh Co_X Co_Y Co_Z).bbar
            (d.effD * idx d i j k vx vy vz + dim2)
            < max (bbar (d.effD * idx d i j k vx vy vz + dim2))
                (faceBeq d c rhoh rhovh rhoEh Co_X Co_Y Co_Z i j k dim2 vx vy vz)
          ∧ (Step2b d c gbar bbar dt rhoh rhovh rhoEh Co_X Co_Y Co_Z).bbar
            (d.effD * idx d i j k vx vy vz + dim2)
            ≠ bbar (d.effD * idx d i j k vx vy vz + dim2))
      ∧ (bbar (d.effD * idx d i j k vx vy vz + dim2)
            = faceBeq d c rhoh rhovh rhoEh Co_X Co_Y Co_Z i j k dim2 vx vy vz →
          (Step2b d c gbar bbar dt rhoh rhovh rhoEh Co_X Co_Y Co_Z).bbar
            (d.effD * idx d i j k vx vy vz + dim2)
            = bbar (d.effD * idx d i j k vx vy vz + dim2))) := by
  obtain ⟨h1, h2⟩ := Step2b_at d c gbar bbar dt rhoh rhovh rhoEh Co_X Co_Y Co_Z
    hi hj hk hvx hvy hvz hdim
  refine ⟨stage2b_coefficients _ dt htau hdt, ?_, ?_⟩
  · rw [h1]
    exact stage2b_between _ dt _ _ htau hdt
  · rw [h2]
    exact stage2b_between _ dt _ _ htau hdt

/-- C20 witness: two cells, face state `rhoh = 1`, `rhovh = 0`, `rhoEh = 5/4`
(relaxation time 2, face equilibrium `1/2`), `dt = 1/2048`, `gbar = [3, 0]`: the new
`gbar[0]` differs from the old value 3 and lies strictly between `1/2` and 3. -/
theorem Step2b_convex_witness :
    min (bufOf [3, 0] (dims21.effD * idx dims21 0 0 0 0 0 0 + 0))
        (faceGeq dims21 closureQ (bufOf [1, 1]) (bufOf [0, 0]) (bufOf [5 / 4, 5 / 4])
          (bufOf [1]) (bufOf [0]) (bufOf [0]) 0 0 0 0 0 0 0)
      < (Step2b dims21 closureQ (bufOf [3, 0]) (bufOf [1, 1]) (1 / 2048) (bufOf [1, 1])
          (bufOf [0, 0]) (bufOf [5 / 4, 5 / 4]) (bufOf [1]) (bufOf [0]) (bufOf [0])).gbar
            (dims21.effD * idx dims21 0 0 0 0 0 0 + 0)
    ∧ (Step2b dims21 closureQ (bufOf [3, 0]) (bufOf [1, 1]) (1 / 2048) (bufOf [1, 1])
          (bufOf [0, 0]) (bufOf [5 / 4, 5 / 4]) (bufOf [1]) (bufOf [0]) (bufOf [0])).gbar
            (dims21.effD * idx dims21 0 0 0 0 0 0 + 0)
      < max (bufOf [3, 0] (dims21.effD * idx dims21 0 0 0 0 0 0 + 0))
          (faceGeq dims21 closureQ (bufOf [1, 1]) (bufOf [0, 0]) (bufOf [5 / 4, 5 / 4])
            (bufOf [1]) (bufOf [0]) (bufOf [0]) 0 0 0 0 0 0 0)
    ∧ (Step2b dims21 closureQ (bufOf [3, 0]) (bufOf [1, 1]) (1 / 2048) (bufOf [1, 1])
          (bufOf [0, 0]) (bufOf [5 / 4, 5 / 4]) (bufOf [1]) (bufOf [0]) (bufOf [0])).gbar
            (dims21.effD * idx dims21 0 0 0 0 0 0 + 0)
      ≠ bufOf [3, 0] (dims21.effD * idx dims21 0 0 0 0 0 0 + 0) :=
  (Step2b_convex dims21 closureQ (bufOf [3, 0]) (bufOf [1, 1]) (1 / 2048) (bufOf [1, 1])
    (bufOf [0, 0]) (bufOf [5 / 4, 5 / 4]) (bufOf [1]) (bufOf [0]) (bufOf [0])
    (by decide : 0 < dims21.N0) (by decide : 0 < dims21.N1) (by decide : 0 < dims21.N2)
    (by decide : 0 < dims21.NV0) (by decide : 0 < dims21.NV1) (by decide : 0 < dims21.NV2)
    (by decide : 0 < dims21.effD) (by decide!) (by norm_num)).2.1.2.2.2.1 (by decide!)

end Stage2b

/-! ## Claim C21: the offsets read by stage 1c -/

section Stage1cReads

/-- The three cross-slope entries that one pass of `Step1c` reads are those at the offsets
`Step1c_read effD idx Dim 0`, `... 1`, `... 2`, whatever `effD` is. -/
theorem Step1c_dim_reads (effD : Nat) (gbarpbound bbarpbound gsigma2 bsigma2 : Nat → F) (dt : F)
    (X Y Z : F) (id0 Dim : Nat) (st : Bars F) :
    Step1c_dim effD gbarpbound bbarpbound gsigma2 bsigma2 dt X Y Z id0 Dim st
      = { gbar := Function.update st.gbar (effD * id0 + Dim)
            (gbarpbound (effD * id0 + Dim) - dt / 2 *
              (X * gsigma2 (Step1c_read effD id0 Dim 0)
                + Y * gsigma2 (Step1c_read effD id0 Dim 1)
                + Z * gsigma2 (Step1c_read effD id0 Dim 2)))
          bbar := Function.update st.bbar (effD * id0 + Dim)
            (bbarpbound (effD * id0 + Dim) - dt / 2 *
              (X * bsigma2 (Step1c_read effD id0 Dim 0)
                + Y * bsigma2 (Step1c_read effD id0 Dim 1)
                + Z * bsigma2 (Step1c_read effD id0 Dim 2))) } := rfl

/-- For `effD = 3` every offset read by `Step1c` at an in-range point is below the size
`N_s·N_v·D·D` of the cross-slope buffers. -/
theorem Step1c_read_lt_of_three (d : Dims) {i j k vx vy vz Dim dd : Nat}
    (hi : i < d.N0) (hj : j < d.N1) (hk : k < d.N2)
    (hvx : vx < d.NV0) (hvy : vy < d.NV1) (hvz : vz < d.NV2) (hDim : Dim < 3) (hdd : dd < 3) :
    Step1c_read 3 (idx d i j k vx vy vz) Dim dd < sigma2Size d 3 := by
  have h1 := add_mul_lt hvy hvz
  have h2 := add_mul_lt hvx h1
  have h3 := add_mul_lt hk h2
  have h4 := add_mul_lt hj h3
  have h5 := add_mul_lt hi h4
  rw [← idx_nested] at h5
  have e : d.N0 * (d.N1 * (d.N2 * (d.NV0 * (d.NV1 * d.NV2))))
      = d.N0 * d.N1 * d.N2 * (d.NV0 * d.NV1 * d.NV2) := by ring
  rw [e] at h5
  unfold Step1c_read sigma2Size
  omega

/-- C21 (stage 1c reads stay in bounds), the code at the failing input: one cell, one
velocity node.  For `effD = 1` the cross-slope buffers have 1 entry and `Step1c` reads
the offsets 0, 1, 2; for `effD = 2` they have 4 entries and on the face `Dim = 1` it
reads the offsets 1, 3, 5.  The reads past the end reach the result: with
`Co_Y[0] = 1`, two `gsigma2` buffers that agree on the single valid entry and differ at
offset 1 give different `gbar[0]`. -/
theorem Step1c_reads_at_failing_input :
    (sigma2Size dims11 1 = 1
      ∧ Step1c_read 1 (idx dims11 0 0 0 0 0 0) 0 0 = 0
      ∧ Step1c_read 1 (idx dims11 0 0 0 0 0 0) 0 1 = 1
      ∧ Step1c_read 1 (idx dims11 0 0 0 0 0 0) 0 2 = 2)
    ∧ (sigma2Size dims11D2 2 = 4
      ∧ Step1c_read 2 (idx dims11D2 0 0 0 0 0 0) 1 0 = 1
      ∧ Step1c_read 2 (idx dims11D2 0 0 0 0 0 0) 1 1 = 3
      ∧ Step1c_read 2 (idx dims11D2 0 0 0 0 0 0) 1 2 = 5)
    ∧ ((Step1c dims11 zeroBuf zeroBuf zeroBuf zeroBuf 1 (bufOf [1]) (bufOf [1]) (bufOf [0])
          (bufOf [0, 0]) zeroBuf 1).gbar 0 = 0
      ∧ (Step1c dims11 zeroBuf zeroBuf zeroBuf zeroBuf 1 (bufOf [1]) (bufOf [1]) (bufOf [0])
          (bufOf [0, 1]) zeroBuf 1).gbar 0 = -1 / 2) := by
  decide!

end Stage1cReads

/-! ## Claim C22: the step argument of `Evolve` -/

section StepArgument

/-- C22 (`Evolve` ignores the step it is given): two calls of `Evolve` that agree on all
buffers, on `Tf`, `Tsim`, `dtdump` and every other argument, and differ only in the `dt`
argument, return identical buffers (`g`, `b`, `rho`, `rhov`, `rhoE` and all scratch
buffers). -/
theorem Evolve_ignores_dt (d : Dims) (c : Closure F) (effD : Nat) (dt dt' Tf Tsim dtdump : F)
    (q : Quad F) (mesh : Nat → Cell F) (B : Bufs F) :
    Evolve d c effD dt Tf Tsim dtdump q mesh B = Evolve d c effD dt' Tf Tsim dtdump q mesh B :=
  rfl

end StepArgument

end CDUGKS
